import Mathlib

/-!
Lumix GPU back-ends: slab pools, frame ring and descriptor heaps.

A shallow embedding of `src/gpu_dx12.cpp` (namespace `Lumix::gpu`, the
explicit command-list back-end) and of `src/ffr_dx.cpp` (namespace
`Lumix::ffr`, the immediate-mode back-end), followed by theorems about the
embedded code.

Conventions of the embedding:
* machine integers are `Nat`/`Int`, with explicit wrap-around where the
  code can overflow (`u32` arithmetic is taken modulo `2^32`, `u64`
  modulo `2^64`);
* a native pointer is a `Nat`, `0` being `nullptr`;
* a failed `ASSERT` is the result `none`;
* calls into the driver are recorded, in program order, in an event list.
-/

namespace Lumix

/-! ## Machine integers -/

/-- Conversion `u32 -> int` as done by `first_free = idx`. -/
def toInt32 (n : Nat) : Int :=
  if n % 2 ^ 32 < 2 ^ 31 then ((n % 2 ^ 32 : Nat) : Int) else ((n % 2 ^ 32 : Nat) : Int) - 2 ^ 32

/-- Wrap-around of `u32` arithmetic. -/
def u32 (n : Nat) : Nat := n % 2 ^ 32

/-- Wrap-around of `u64` arithmetic. -/
def u64 (n : Nat) : Nat := n % 2 ^ 64

/-! ## Slab memory shared by the two `Pool` templates

A slot is represented by its first machine word read as `int`
(`*((int*)&values[i])`): for a free slot this is the link to the next free
slot, for a live slot it is whatever the constructed `T` stores there. -/

/-- The loop of `Pool::init` / `Pool::create`: slot `i` gets `i + 1`, then the
last slot gets `-1`. -/
def slabInit (C : Nat) : List Int :=
  ((List.range C).map (fun (i : Nat) => (i : Int) + 1)).set (C - 1) (-1)

/-- Read of `*((int*)&values[idx])`. -/
def slotWord (values : List Int) (idx : Nat) : Int := values.getD idx 0

/-- Walk of the free list: follow the in-slot links from `cur` until `-1`,
at most `fuel` hops; `none` when a link leaves `[0, values.length)` or the
fuel runs out. -/
def freeChain (values : List Int) : Nat → Int → Option (List Nat)
  | 0, _ => none
  | fuel + 1, cur =>
    if cur = -1 then some []
    else if 0 ≤ cur ∧ cur.toNat < values.length then
      (freeChain values fuel (slotWord values cur.toNat)).map (fun l => cur.toNat :: l)
    else none

/-- Relational form of the free-list walk, used in the proofs. -/
def IsChain (values : List Int) : Int → List Nat → Prop
  | cur, [] => cur = -1
  | cur, a :: t => cur = (a : Int) ∧ a < values.length ∧ IsChain values (slotWord values a) t

/-- Well-formedness of slab memory against the set `live` of live indices:
the free-list walk from `first_free` ends at `-1` and visits exactly the
non-live indices, each once. -/
def SlabWF (C : Nat) (values : List Int) (first_free : Int) (live : List Nat) : Prop :=
  values.length = C ∧ live.Nodup ∧ (∀ i ∈ live, i < C) ∧
  ∃ l, freeChain values (C + 1) first_free = some l ∧ l.Nodup ∧
    ∀ i, i ∈ l ↔ (i < C ∧ i ∉ live)

/-! ## `Lumix::ffr::Pool` (ffr_dx.cpp) -/

namespace ffr

/-- The immediate-mode back-end's `Pool<T, MAX_COUNT>`. -/
structure Pool (MAX_COUNT : Nat) where
  values : List Int
  first_free : Int
  deriving DecidableEq, Repr

namespace Pool

variable {C : Nat}

/-- Embeds `Pool::create`. -/
def create (C : Nat) : Pool C :=
  { values := slabInit C, first_free := 0 }

/-- Embeds `Pool::alloc`: pops the head of the free list; the slot itself is
not written. -/
def alloc (p : Pool C) : Int × Pool C :=
  if p.first_free = -1 then (-1, p)
  else
    let id := p.first_free
    (id, { p with first_free := slotWord p.values id.toNat })

/-- Embeds `Pool::dealloc`. -/
def dealloc (p : Pool C) (idx : Nat) : Pool C :=
  { values := p.values.set idx p.first_free, first_free := toInt32 idx }

/-- Embeds `Pool::isFull`. -/
def isFull (p : Pool C) : Bool := decide (p.first_free = -1)

/-- Write through `operator[]` into the first word of slot `idx`. -/
def store (p : Pool C) (idx : Nat) (w : Int) : Pool C :=
  { p with values := p.values.set idx w }

end Pool

/-- Calls a client makes on a pool. -/
inductive PoolOp where
  | alloc
  | dealloc (idx : Nat)
  | store (idx : Nat) (w : Int)
  deriving DecidableEq, Repr

/-- Runs a call sequence, tracking the set of live indices (returned by
`alloc` and not deallocated since). -/
def runOps {C : Nat} : Pool C → List Nat → List PoolOp → Pool C × List Nat
  | p, live, [] => (p, live)
  | p, live, PoolOp.alloc :: ops =>
    let r := p.alloc
    runOps r.2 (if r.1 = -1 then live else r.1.toNat :: live) ops
  | p, live, PoolOp.dealloc idx :: ops => runOps (p.dealloc idx) (live.erase idx) ops
  | p, live, PoolOp.store idx w :: ops => runOps (p.store idx w) live ops

/-- A call sequence is admissible when every `dealloc`/`store` targets an
index that is live at that moment. -/
def validOps {C : Nat} : Pool C → List Nat → List PoolOp → Bool
  | _, _, [] => true
  | p, live, PoolOp.alloc :: ops =>
    let r := p.alloc
    validOps r.2 (if r.1 = -1 then live else r.1.toNat :: live) ops
  | p, live, PoolOp.dealloc idx :: ops =>
    decide (idx ∈ live) && validOps (p.dealloc idx) (live.erase idx) ops
  | p, live, PoolOp.store idx w :: ops =>
    decide (idx ∈ live) && validOps (p.store idx w) live ops

/-- Results of `n` successive `alloc()` calls. -/
def allocN {C : Nat} : Nat → Pool C → List Int × Pool C
  | 0, p => ([], p)
  | n + 1, p =>
    let r := p.alloc
    let rest := allocN n r.2
    (r.1 :: rest.1, rest.2)

/-- A pool state is well formed against the live set `live`. -/
def Pool.WF {C : Nat} (p : Pool C) (live : List Nat) : Prop :=
  SlabWF C p.values p.first_free live

/-- State reached from `create` after the slots `0 .. k-1` have been handed
out and none returned. -/
def Pool.FreshAfter {C : Nat} (k : Nat) (p : Pool C) : Prop :=
  p.first_free = (if k < C then (k : Int) else -1) ∧ p.values.length = C ∧
    ∀ j, k ≤ j → j < C → slotWord p.values j = if j = C - 1 then -1 else (j : Int) + 1

end ffr

/-! ## `Lumix::gpu::Pool` (gpu_dx12.cpp) -/

namespace gpu

/-- The command-list back-end's `Pool<T, MAX_COUNT>`. -/
structure Pool (MAX_COUNT : Nat) where
  values : List Int
  first_free : Int
  count : Nat
  deriving DecidableEq, Repr

namespace Pool

variable {C : Nat}

/-- Embeds `Pool::init`; `count` keeps its default member initialiser `0`. -/
def init (C : Nat) : Pool C :=
  { values := slabInit C, first_free := 0, count := 0 }

/-- Embeds `Pool::alloc`; `w` is the first word of the `T(args...)` that is
constructed in the slot. -/
def alloc (p : Pool C) (w : Int) : Int × Pool C :=
  if p.first_free = -1 then (-1, p)
  else
    let id := p.first_free
    (id, { values := p.values.set id.toNat w,
           first_free := slotWord p.values id.toNat,
           count := u32 (p.count + 1) })

/-- Embeds `Pool::dealloc` (the destructors of the pooled types are trivial). -/
def dealloc (p : Pool C) (idx : Nat) : Pool C :=
  { values := p.values.set idx p.first_free,
    first_free := toInt32 idx,
    count := u32 (p.count + 2 ^ 32 - 1) }

/-- Embeds `Pool::isFull`. -/
def isFull (p : Pool C) : Bool := decide (p.first_free = -1)

/-- Write through `operator[]` into the first word of slot `idx`. -/
def store (p : Pool C) (idx : Nat) (w : Int) : Pool C :=
  { p with values := p.values.set idx w }

end Pool

/-- Calls a client makes on a pool. -/
inductive PoolOp where
  | alloc (w : Int)
  | dealloc (idx : Nat)
  | store (idx : Nat) (w : Int)
  deriving DecidableEq, Repr

/-- Runs a call sequence, tracking the set of live indices. -/
def runOps {C : Nat} : Pool C → List Nat → List PoolOp → Pool C × List Nat
  | p, live, [] => (p, live)
  | p, live, PoolOp.alloc w :: ops =>
    let r := p.alloc w
    runOps r.2 (if r.1 = -1 then live else r.1.toNat :: live) ops
  | p, live, PoolOp.dealloc idx :: ops => runOps (p.dealloc idx) (live.erase idx) ops
  | p, live, PoolOp.store idx w :: ops => runOps (p.store idx w) live ops

/-- A call sequence is admissible when every `dealloc`/`store` targets an
index that is live at that moment. -/
def validOps {C : Nat} : Pool C → List Nat → List PoolOp → Bool
  | _, _, [] => true
  | p, live, PoolOp.alloc w :: ops =>
    let r := p.alloc w
    validOps r.2 (if r.1 = -1 then live else r.1.toNat :: live) ops
  | p, live, PoolOp.dealloc idx :: ops =>
    decide (idx ∈ live) && validOps (p.dealloc idx) (live.erase idx) ops
  | p, live, PoolOp.store idx w :: ops =>
    decide (idx ∈ live) && validOps (p.store idx w) live ops

/-- Results of successive `alloc(args...)` calls, one per element of `ws`. -/
def allocN {C : Nat} : List Int → Pool C → List Int × Pool C
  | [], p => ([], p)
  | w :: ws, p =>
    let r := p.alloc w
    let rest := allocN ws r.2
    (r.1 :: rest.1, rest.2)

/-- A pool state is well formed against the live set `live`; `count` is the
number of live slots. -/
def Pool.WF {C : Nat} (p : Pool C) (live : List Nat) : Prop :=
  SlabWF C p.values p.first_free live ∧ p.count = live.length

/-- State reached from `init` after the slots `0 .. k-1` have been handed out
and none returned. -/
def Pool.FreshAfter {C : Nat} (k : Nat) (p : Pool C) : Prop :=
  p.first_free = (if k < C then (k : Int) else -1) ∧ p.values.length = C ∧ p.count = k ∧
    ∀ j, k ≤ j → j < C → slotWord p.values j = if j = C - 1 then -1 else (j : Int) + 1

end gpu

/-! ## Handles -/

/-- Modelled from the spec: `renderer/gpu/gpu.h` is not part of the sources;
the spec says that a sentinel (`-1`) marks an invalid handle, i.e. the
`u32` value `0xFFFFFFFF` of `INVALID_BUFFER`, `INVALID_TEXTURE` and
`INVALID_PROGRAM`. -/
def INVALID_HANDLE : Nat := 0xFFFFFFFF

/-- Modelled from the spec: `Handle::isValid()` of `renderer/gpu/gpu.h`, true
for every value but the sentinel. -/
def isValid (value : Nat) : Bool := decide (value ≠ INVALID_HANDLE)

/-- Conversion `(u32)id` of an `int`. -/
def toU32 (i : Int) : Nat := (i % 2 ^ 32).toNat

/-- First machine word of a pointer-sized field read as `int` (little endian). -/
def firstWord (ptr : Nat) : Int := toInt32 ptr

/-! ## Immediate-mode back-end context (ffr_dx.cpp) -/

namespace ffr

/-- The part of the global `d3d` context that handle allocation touches, and
the error log. `input_layouts` is never created by `preinit`. -/
structure D3D where
  programs : Pool 256
  buffers : Pool 256
  textures : Pool 4096
  log : List String
  deriving DecidableEq, Repr

/-- Embeds `preinit` (pool creation; the capture-tool probe is left out). -/
def preinit : D3D :=
  { programs := Pool.create 256, buffers := Pool.create 256,
    textures := Pool.create 4096, log := [] }

/-- Embeds `allocBufferHandle`; `t = {}` stores a null `buffer` pointer in
the slot. -/
def allocBufferHandle (d : D3D) : Nat × D3D :=
  if d.buffers.isFull then
    (INVALID_HANDLE, { d with log := d.log ++ ["FFR is out of free buffer slots."] })
  else
    let r := d.buffers.alloc
    (toU32 r.1, { d with buffers := r.2.store r.1.toNat 0 })

/-- Results of `n` successive `allocBufferHandle()` calls. -/
def allocBufferHandles : Nat → D3D → List Nat × D3D
  | 0, d => ([], d)
  | n + 1, d =>
    let r := allocBufferHandle d
    let rest := allocBufferHandles n r.2
    (r.1 :: rest.1, rest.2)

end ffr

/-! ## Command-list back-end (gpu_dx12.cpp) -/

namespace gpu

/-- Depth of the frame ring and of every descriptor ring. -/
def NUM_BACKBUFFERS : Nat := 3

/-- Size in bytes of the scratch upload buffer of a frame. -/
def SCRATCH_BUFFER_SIZE : Nat := 4 * 1024 * 1024

/-- Descriptors per window of the shader-visible SRV ring. -/
def MAX_DESCRIPTORS : Nat := 64 * 1024

/-- Value of `D3D12_RESOURCE_STATE_GENERIC_READ` in `d3d12.h`. -/
def D3D12_RESOURCE_STATE_GENERIC_READ : Nat := 0xAC3

/-- Value of `D3D12_RESOURCE_STATE_COPY_DEST` in `d3d12.h`. -/
def D3D12_RESOURCE_STATE_COPY_DEST : Nat := 0x400

/-- Calls into the driver and the logger, and copies into mapped memory, in
program order. An event handle is identified by the frame that owns it and
the fence value it was registered for; the scratch buffer that is the source
of a `copyBufferRegion` by the frame that owns it. -/
inductive Call where
  | barrier (resource before after : Nat)
  | executeCommandLists (frame : Nat)
  | signal (value : Nat)
  | setEventOnCompletion (frame value : Nat)
  | waitForSingleObject (frame value : Nat)
  | release (frame obj : Nat)
  | resetCommandAllocator (frame : Nat)
  | createCommittedResource (width : Nat) (upload_heap : Bool)
  | createShaderResourceView (resource num_elements dst : Nat)
  | copyResource (dst src : Nat)
  | logError (msg : String)
  | createTextureResource (resource initial_state : Nat)
  | updateSubresources (dst staging : Nat)
  | createDepthStencilView (resource format flags dst : Nat)
  | createRenderTargetView (resource dst : Nat)
  | omSetRenderTargets (count : Nat) (has_depth_stencil : Bool)
  | memcpy (dst size : Nat)
  | copyBufferRegion (dst dst_offset scratch_frame src_offset size : Nat)
  | createGraphicsPipelineState (pso : Nat)
  | map (resource : Nat)
  | unmap (resource : Nat)
  deriving DecidableEq, Repr

/-- Embeds `struct Program` (the four stage blobs and the number of input
elements; `vs` is the first field). -/
structure Program where
  vs : Nat := 0
  ps : Nat := 0
  gs : Nat := 0
  cs : Nat := 0
  attribute_count : Nat := 0
  deriving DecidableEq, Repr

/-- Embeds `struct Buffer`; `buffer` is the first field. -/
structure Buffer where
  buffer : Nat := 0
  mapped_ptr : Nat := 0
  size : Nat := 0
  state : Nat := 0
  heap_id : Nat := 0
  deriving DecidableEq, Repr

/-- Embeds `struct Texture`; `resource` is the first field. -/
structure Texture where
  resource : Nat := 0
  state : Nat := 0
  heap_id : Nat := 0
  dxgi_format : Nat := 0
  flags : Nat := 0
  deriving DecidableEq, Repr

/-- Embeds `switchState`: one transition barrier. -/
def switchState (resource old_state new_state : Nat) : List Call :=
  [Call.barrier resource old_state new_state]

/-- Embeds `Buffer::setState`: returns the old state, the buffer and the
recorded barrier. -/
def Buffer.setState (b : Buffer) (new_state : Nat) : Nat × Buffer × List Call :=
  (b.state, { b with state := new_state }, switchState b.buffer b.state new_state)

/-! ### Frame -/

/-- Embeds `struct Frame`. `fence_event` is `none` for `nullptr`, else it
holds the fence value the event was registered for. -/
structure Frame where
  scratch_buffer_ptr : Nat := 0
  scratch_buffer_begin : Nat := 0
  to_release : List Nat := []
  fence_event : Option Nat := none
  deriving DecidableEq, Repr

/-- Embeds `Frame::wait` of the frame with index `idx`. -/
def Frame.wait (idx : Nat) (f : Frame) : Frame × List Call :=
  match f.fence_event with
  | none => (f, [])
  | some v => ({ f with fence_event := none }, [Call.waitForSingleObject idx v])

/-- Embeds `Frame::begin`: wait, then release every queued object and clear
the list. -/
def Frame.begin (idx : Nat) (f : Frame) : Frame × List Call :=
  let w := Frame.wait idx f
  ({ w.1 with to_release := [] }, w.2 ++ w.1.to_release.map (Call.release idx))

/-- Embeds `Frame::end`; `none` when `ASSERT(!fence_event)` fails. Returns
the frame, the incremented `fence_value` and the calls made. -/
def Frame.end (idx : Nat) (f : Frame) (fence_value : Nat) : Option (Frame × Nat × List Call) :=
  let v := u64 (fence_value + 1)
  match f.fence_event with
  | some _ => none
  | none =>
    some ({ f with fence_event := some v }, v,
      [Call.executeCommandLists idx, Call.signal v, Call.setEventOnCompletion idx v])

/-! ### Descriptor heaps -/

/-- A bound shader resource (`struct SRV`): the union holds a texture or a
buffer handle value. -/
structure SRV where
  is_buffer : Bool
  handle : Nat
  deriving DecidableEq, Repr

/-- What the device reports for one descriptor heap: handle increment and
heap start addresses (shader-visible heap and backing heap). -/
structure HeapEnv where
  increment : Nat
  gpu_start : Nat
  cpu_start : Nat
  backing_start : Nat
  deriving DecidableEq, Repr

/-- The descriptor heap types of `D3D12_DESCRIPTOR_HEAP_TYPE`. -/
inductive D3D12_DESCRIPTOR_HEAP_TYPE where
  | CBV_SRV_UAV
  | SAMPLER
  | RTV
  | DSV
  deriving DecidableEq, Repr

/-- Embeds `struct HeapAllocator`; handles are their `ptr` values. The
default value is the allocator as the constructor of `D3D` leaves it. -/
structure HeapAllocator where
  free_list : List Nat := []
  gpu : Nat := 0
  cpu : Nat := 0
  gpu_begin : Nat := 0
  cpu_begin : Nat := 0
  backing_begin : Nat := 0
  increment : Nat := 0
  count : Nat := 0
  max_count : Nat := 0
  frame : Nat := 0
  deriving DecidableEq, Repr

namespace HeapAllocator

/-- Embeds `HeapAllocator::init` on the allocator `a`, on the path where the
driver calls succeed. The ids `0 .. num_backing_descriptors - 1` are pushed
onto the free list `a` already holds (the list is not cleared), `count` is
not written, and the backing heap is created only for a heap that is
neither RTV nor DSV and has backing descriptors. -/
def init (a : HeapAllocator) (env : HeapEnv) (type : D3D12_DESCRIPTOR_HEAP_TYPE)
    (num_descriptors num_backing_descriptors : Nat) : HeapAllocator :=
  { a with
    free_list := a.free_list ++ List.range num_backing_descriptors
    increment := env.increment
    gpu_begin := env.gpu_start
    cpu_begin := env.cpu_start
    frame := 0
    gpu := env.gpu_start
    cpu := env.cpu_start
    max_count := num_descriptors
    backing_begin :=
      if type ≠ D3D12_DESCRIPTOR_HEAP_TYPE.RTV ∧ type ≠ D3D12_DESCRIPTOR_HEAP_TYPE.DSV ∧
          0 < num_backing_descriptors then env.backing_start
      else a.backing_begin }

/-- Embeds `HeapAllocator::getGPU`. -/
def getGPU (h : HeapAllocator) : Nat := u64 (h.gpu + u32 (h.count * h.increment))

/-- Embeds `HeapAllocator::alloc`: pops the back of `free_list` and builds the
view at that slot of the backing heap; `none` when the list is empty. -/
def alloc (h : HeapAllocator) : Option (Nat × Nat × HeapAllocator) :=
  match h.free_list.getLast? with
  | none => none
  | some id =>
    some (id, u64 (h.backing_begin + u32 (id * h.increment)),
      { h with free_list := h.free_list.dropLast })

/-- Embeds `HeapAllocator::copy`: `none` when `ASSERT(count < max_count)`
fails; otherwise the destination and source of the descriptor copy. -/
def copy (h : HeapAllocator) (id : Nat) : Option (HeapAllocator × Nat × Nat) :=
  if h.count < h.max_count then
    some ({ h with count := u32 (h.count + 1) },
      u64 (h.cpu + u32 (h.count * h.increment)),
      u64 (h.backing_begin + u32 (id * h.increment)))
  else none

/-- Embeds `HeapAllocator::nextFrame`. -/
def nextFrame (h : HeapAllocator) : HeapAllocator :=
  let frame := u32 (h.frame + 1) % NUM_BACKBUFFERS
  { h with
    count := 0
    frame := frame
    gpu := u64 (h.gpu_begin + u32 (u32 (frame * h.max_count) * h.increment))
    cpu := u64 (h.cpu_begin + u32 (u32 (frame * h.max_count) * h.increment)) }

end HeapAllocator

/-- The loop of `allocSRV`: one `copy` per valid slot, in slot order; returns
the heap and the destinations written. -/
def allocSRVLoop (buffers : Nat → Buffer) (textures : Nat → Texture) :
    HeapAllocator → List SRV → Option (HeapAllocator × List Nat)
  | h, [] => some (h, [])
  | h, s :: rest =>
    if isValid s.handle then
      match h.copy (if s.is_buffer then (buffers s.handle).heap_id
                    else (textures s.handle).heap_id) with
      | none => none
      | some r =>
        match allocSRVLoop buffers textures r.1 rest with
        | none => none
        | some q => some (q.1, r.2.1 :: q.2)
    else allocSRVLoop buffers textures h rest

/-- Embeds `allocSRV`: the GPU handle at the cursor before the copies, the
heap after them and the destinations written; `none` when a `copy` fails
its `ASSERT`. -/
def allocSRV (buffers : Nat → Buffer) (textures : Nat → Texture) (heap : HeapAllocator)
    (srvs : List SRV) : Option (Nat × HeapAllocator × List Nat) :=
  match allocSRVLoop buffers textures heap srvs with
  | none => none
  | some r => some (heap.getGPU, r.1, r.2)

/-- Embeds `allocDSV`: `none` when the capacity `ASSERT` fails; returns the
CPU handle of the slot and whether a view was created there. -/
def allocDSV (heap : HeapAllocator) (texture : Texture) : Option (Nat × HeapAllocator × Bool) :=
  if u32 (heap.count + 1) ≤ heap.max_count then
    some (u64 (heap.cpu + u32 (heap.count * heap.increment)),
      { heap with count := u32 (heap.count + 1) }, decide (texture.resource ≠ 0))
  else none

/-- Embeds `allocRTV`: `none` when the capacity `ASSERT` fails; returns the
CPU handle of the slot and whether a view was created there. -/
def allocRTV (heap : HeapAllocator) (resource : Nat) : Option (Nat × HeapAllocator × Bool) :=
  if u32 (heap.count + 1) ≤ heap.max_count then
    some (u64 (heap.cpu + u32 (heap.count * heap.increment)),
      { heap with count := u32 (heap.count + 1) }, decide (resource ≠ 0))
  else none

/-- Modelled from the spec: `engine/hash_map.h` is not part of the sources;
the sampler map is the map `hash -> offset-into-heap`, kept here as an
association list. -/
abbrev SamplerMap := List (Nat × Nat)

/-- Modelled from the spec: `HashMap::find`, the offset stored under `hash`. -/
def SamplerMap.find (m : SamplerMap) (hash : Nat) : Option Nat :=
  (m.find? (fun e => e.1 == hash)).map (fun e => e.2)

/-- Modelled from the spec: `HashMap::insert` of a key that is not present. -/
def SamplerMap.insert (m : SamplerMap) (hash offset : Nat) : SamplerMap :=
  (hash, offset) :: m

/-- Embeds `struct SamplerAllocator`. The default value is the allocator as
the constructor of `D3D` leaves it: empty map, `count` 0. -/
structure SamplerAllocator where
  gpu : Nat := 0
  cpu : Nat := 0
  sampler_map : SamplerMap := []
  increment : Nat := 0
  count : Nat := 0
  max_count : Nat := 0
  deriving DecidableEq, Repr

/-- Embeds `SamplerAllocator::init` on the allocator `a`, on the path where
the driver call succeeds: `increment`, `gpu`, `cpu` and `max_count` are
written, `sampler_map` and `count` are left as `a` holds them. -/
def SamplerAllocator.init (a : SamplerAllocator) (env : HeapEnv) (num_descriptors : Nat) :
    SamplerAllocator :=
  { a with
    increment := env.increment, gpu := env.gpu_start, cpu := env.cpu_start,
    max_count := num_descriptors }

/-- The `flags[]` array built by the first loop of `allocSamplers`. -/
def samplerFlags (textures : Nat → Texture) (srvs : List SRV) : List Nat :=
  srvs.map (fun s => if !s.is_buffer && isValid s.handle then (textures s.handle).flags else 0)

/-- The samplers built by the second loop of `allocSamplers`: for every slot
that holds a valid texture, the CPU handle written and the texture flags
the sampler description is derived from. -/
def samplerWrites (textures : Nat → Texture) (increment : Nat) : Nat → List SRV → List (Nat × Nat)
  | _, [] => []
  | cpu, s :: rest =>
    (if !s.is_buffer && isValid s.handle then [(cpu, (textures s.handle).flags)] else []) ++
      samplerWrites textures increment (u64 (cpu + increment)) rest

/-- Embeds `allocSamplers` for `count = srvs.length`; `crc32` is the engine's
hash of the flag array (`engine/crc32.h` is not part of the sources). The
result is `none` when the capacity `ASSERT` fails, else the GPU handle, the
heap and the samplers created. -/
def allocSamplers (crc32 : List Nat → Nat) (textures : Nat → Texture) (heap : SamplerAllocator)
    (srvs : List SRV) : Option (Nat × SamplerAllocator × List (Nat × Nat)) :=
  let hash := crc32 (samplerFlags textures srvs)
  match heap.sampler_map.find hash with
  | some offset => some (u64 (heap.gpu + offset), heap, [])
  | none =>
    if u32 (heap.count + srvs.length) ≤ heap.max_count then
      let offset := u32 (heap.count * heap.increment)
      some (u64 (heap.gpu + offset),
        { heap with
          count := u32 (heap.count + srvs.length)
          sampler_map := heap.sampler_map.insert hash offset },
        samplerWrites textures heap.increment (u64 (heap.cpu + offset)) srvs)
    else none

/-- A sequence of `allocSamplers` calls; each call comes with the texture
table it reads and the SRV set. Returns the handles in call order. -/
def allocSamplersSeq (crc32 : List Nat → Nat) :
    SamplerAllocator → List ((Nat → Texture) × List SRV) → Option (List Nat × SamplerAllocator)
  | heap, [] => some ([], heap)
  | heap, c :: rest =>
    match allocSamplers crc32 c.1 heap c.2 with
    | none => none
    | some r =>
      match allocSamplersSeq crc32 r.2.1 rest with
      | none => none
      | some q => some (r.1 :: q.1, q.2)

/-- The flag-tuple hashes of a call sequence, in call order. -/
def seenHashes (crc32 : List Nat → Nat) (calls : List ((Nat → Texture) × List SRV)) : List Nat :=
  calls.map (fun c => crc32 (samplerFlags c.1 c.2))

/-! ### The global context `d3d` -/

/-- Embeds `D3D::FrameBuffer`: the bound views, their formats, the handles
of the attached textures (nine slots) and the number of colour targets. -/
structure FrameBuffer where
  depth_stencil : Nat := 0
  render_targets : List Nat := List.replicate 8 0
  formats : List Nat := List.replicate 8 0
  ds_format : Nat := 0
  attachments : List Nat := List.replicate 9 0
  count : Nat := 0
  deriving DecidableEq, Repr

/-- Modelled from the spec: `engine/hash_map.h` is not part of the sources;
the pipeline cache is the map `hash -> pipeline object`, kept here as an
association list. -/
abbrev PipelineMap := List (Nat × Nat)

/-- Modelled from the spec: `HashMap::find`, the object stored under `hash`. -/
def PipelineMap.find (m : PipelineMap) (hash : Nat) : Option Nat :=
  (m.find? (fun e => e.1 == hash)).map (fun e => e.2)

/-- Modelled from the spec: `HashMap::insert` of a key that is not present. -/
def PipelineMap.insert (m : PipelineMap) (hash pso : Nat) : PipelineMap :=
  (hash, pso) :: m

/-- What the device reports during `init`. -/
structure DeviceEnv where
  srv : HeapEnv
  sampler : HeapEnv
  rtv : HeapEnv
  dsv : HeapEnv
  scratch : Nat → Nat

/-- The global context. A slab slot is seen twice, as in the source: as the
`int` word the pool threads its free list through (`programs`, `buffers`,
`textures`) and as the object stored there (`program_at`, `buffer_at`,
`texture_at`). `frames` is the `StaticArray<Frame, 3>` with its `count`. -/
structure D3D where
  initialized : Bool := false
  fence_value : Nat := 0
  current_srvs : List SRV := []
  current_images : List SRV := []
  programs : Pool 256
  buffers : Pool 8192
  textures : Pool 4096
  program_at : Nat → Program := fun _ => {}
  buffer_at : Nat → Buffer := fun _ => {}
  texture_at : Nat → Texture := fun _ => {}
  frames : Nat → Frame := fun _ => {}
  frames_count : Nat := 0
  frame : Nat := 0
  srv_heap : HeapAllocator := {}
  sampler_heap : SamplerAllocator := {}
  rtv_heap : HeapAllocator := {}
  ds_heap : HeapAllocator := {}
  calls : List Call := []
  current_framebuffer : FrameBuffer := {}
  current_state : Nat := 0
  current_program : Nat := 0
  pipelines : PipelineMap := []

/-- A pointer-sized first field after the pool has written a free-list link
over its first four bytes. -/
def patchFirstWord (ptr : Nat) (w : Int) : Nat := ptr / 2 ^ 32 * 2 ^ 32 + toU32 w

/-- Embeds `preinit`: three frames are pushed, `d3d.frame` is the first one,
the three pools are initialised. -/
def preinit : D3D :=
  { programs := Pool.init 256, buffers := Pool.init 8192, textures := Pool.init 4096,
    frames := fun _ => {}, frames_count := NUM_BACKBUFFERS, frame := 0 }

/-- Embeds `Frame::init`: the scratch buffer is mapped at `scratch`. -/
def Frame.init (f : Frame) (scratch : Nat) : Frame :=
  { f with scratch_buffer_begin := scratch, scratch_buffer_ptr := scratch }

/-- Embeds `init` on the path where every driver call succeeds. The flag
`initialized` is tested and, as in the source, never written; the four
descriptor heaps are initialised on the allocators the context holds. -/
def init (env : DeviceEnv) (d : D3D) : Bool × D3D :=
  if d.initialized then (false, d)
  else
    (true,
      { d with
        srv_heap := d.srv_heap.init env.srv D3D12_DESCRIPTOR_HEAP_TYPE.CBV_SRV_UAV
          MAX_DESCRIPTORS 4096
        sampler_heap := d.sampler_heap.init env.sampler 2048
        rtv_heap := d.rtv_heap.init env.rtv D3D12_DESCRIPTOR_HEAP_TYPE.RTV 1024 0
        ds_heap := d.ds_heap.init env.dsv D3D12_DESCRIPTOR_HEAP_TYPE.DSV 256 0
        frames := fun i => if i < d.frames_count then (d.frames i).init (env.scratch i)
                           else d.frames i
        current_srvs := List.replicate 10 { is_buffer := false, handle := INVALID_HANDLE }
        current_images := List.replicate 10 { is_buffer := false, handle := INVALID_HANDLE }
        current_framebuffer :=
          { d.current_framebuffer with attachments := List.replicate 9 INVALID_HANDLE } })

/-- Appends `objs` to the release list of the current frame
(`d3d.frame->to_release.push`). -/
def D3D.pushRelease (d : D3D) (objs : List Nat) : D3D :=
  { d with
    frames := Function.update d.frames d.frame
      { (d.frames d.frame) with to_release := (d.frames d.frame).to_release ++ objs } }

/-- Embeds `allocBufferHandle`. -/
def allocBufferHandle (d : D3D) : Nat × D3D :=
  if d.buffers.isFull then
    (INVALID_HANDLE, { d with calls := d.calls ++ [Call.logError "Not enough free buffer slots."] })
  else
    let r := d.buffers.alloc 0
    (toU32 r.1, { d with buffers := r.2, buffer_at := Function.update d.buffer_at r.1.toNat {} })

/-- Embeds `allocTextureHandle`. -/
def allocTextureHandle (d : D3D) : Nat × D3D :=
  if d.textures.isFull then
    (INVALID_HANDLE, { d with calls := d.calls ++ [Call.logError "Not enough free texture slots."] })
  else
    let r := d.textures.alloc 0
    (toU32 r.1, { d with textures := r.2, texture_at := Function.update d.texture_at r.1.toNat {} })

/-- Embeds `allocProgramHandle`. -/
def allocProgramHandle (d : D3D) : Nat × D3D :=
  if d.programs.isFull then
    (INVALID_HANDLE, { d with calls := d.calls ++ [Call.logError "Not enough free program slots."] })
  else
    let r := d.programs.alloc 0
    (toU32 r.1, { d with programs := r.2, program_at := Function.update d.program_at r.1.toNat {} })

/-- Results of `n` successive `allocBufferHandle()` calls. -/
def allocBufferHandles : Nat → D3D → List Nat × D3D
  | 0, d => ([], d)
  | n + 1, d =>
    let r := allocBufferHandle d
    let rest := allocBufferHandles n r.2
    (r.1 :: rest.1, rest.2)

/-- The objects `destroy(ProgramHandle)` queues, in its order `gs, ps, vs, cs`. -/
def Program.queued (p : Program) : List Nat :=
  [p.gs, p.ps, p.vs, p.cs].filter (fun x => decide (x ≠ 0))

/-- Embeds `destroy(ProgramHandle)`. -/
def destroyProgram (d : D3D) (program : Nat) : D3D :=
  let p := d.program_at program
  let d1 := d.pushRelease p.queued
  { d1 with
    programs := d1.programs.dealloc program
    program_at := Function.update d1.program_at program
      { p with vs := patchFirstWord p.vs d1.programs.first_free } }

/-- Embeds `destroy(TextureHandle)`: queue the resource, `t = {}`, free the
slot. -/
def destroyTexture (d : D3D) (texture : Nat) : D3D :=
  let t := d.texture_at texture
  let d1 := d.pushRelease (if t.resource ≠ 0 then [t.resource] else [])
  { d1 with
    textures := d1.textures.dealloc texture
    texture_at := Function.update d1.texture_at texture
      { resource := patchFirstWord 0 d1.textures.first_free } }

/-- Embeds `destroy(BufferHandle)`. -/
def destroyBuffer (d : D3D) (buffer : Nat) : D3D :=
  let t := d.buffer_at buffer
  let d1 := d.pushRelease (if t.buffer ≠ 0 then [t.buffer] else [])
  { d1 with
    buffers := d1.buffers.dealloc buffer
    buffer_at := Function.update d1.buffer_at buffer
      { t with buffer := patchFirstWord t.buffer d1.buffers.first_free } }

/-- Embeds `waitFrame`. -/
def waitFrame (d : D3D) (frame_idx : Nat) : D3D :=
  let w := Frame.wait frame_idx (d.frames frame_idx)
  { d with frames := Function.update d.frames frame_idx w.1, calls := d.calls ++ w.2 }

/-- The loop `for (Frame& f : d3d.frames) f.wait();` over the first `n`
frames. -/
def waitAll : Nat → D3D → D3D
  | 0, d => d
  | n + 1, d => waitFrame (waitAll n d) n

/-- The call `d3d.frame->end(d3d.cmd_queue, d3d.cmd_list, d3d.fence,
Ref(d3d.fence_value))`; `none` when the `ASSERT` of `Frame::end` fails. -/
def D3D.endFrame (d : D3D) : Option D3D :=
  match Frame.end d.frame (d.frames d.frame) d.fence_value with
  | none => none
  | some e =>
    some { d with
      frames := Function.update d.frames d.frame e.1
      fence_value := e.2.1
      calls := d.calls ++ e.2.2 }

/-- The lines `++d3d.frame; if (d3d.frame >= d3d.frames.end()) d3d.frame =
d3d.frames.begin();` and the three `nextFrame()` calls. -/
def D3D.advanceFrame (d : D3D) : D3D :=
  { d with
    frame := if d.frame + 1 ≥ d.frames_count then 0 else d.frame + 1
    srv_heap := d.srv_heap.nextFrame
    rtv_heap := d.rtv_heap.nextFrame
    ds_heap := d.ds_heap.nextFrame }

/-- The call `d3d.frame->begin()`. -/
def D3D.beginFrame (d : D3D) : D3D :=
  let b := Frame.begin d.frame (d.frames d.frame)
  { d with frames := Function.update d.frames d.frame b.1, calls := d.calls ++ b.2 }

/-- The lines that reset the scratch pointer and the command allocator of
the current frame. -/
def D3D.resetFrame (d : D3D) : D3D :=
  { d with
    frames := Function.update d.frames d.frame
      { (d.frames d.frame) with scratch_buffer_ptr := (d.frames d.frame).scratch_buffer_begin }
    calls := d.calls ++ [Call.resetCommandAllocator d.frame] }

/-- Embeds `swapBuffers`; `resized` tells whether some window changed its
size (the branch that waits for every frame). Swap-chain and back-buffer
calls are left out. Returns `none` when the `ASSERT` of `Frame::end` fails,
else the index of the frame that was submitted and the new context. -/
def swapBuffers (d : D3D) (resized : Bool) : Option (Nat × D3D) :=
  match d.endFrame with
  | none => none
  | some d1 =>
    let d2 := d1.advanceFrame
    let d3 := d2.beginFrame
    let d4 := if resized then waitAll d3.frames_count d3 else d3
    some (d.frame, d4.resetFrame)

/-- Embeds `createBuffer`. `mappable` and `shader_buffer` are the tests
`flags & MAPPABLE` and `flags & SHADER_BUFFER`; `native` and `upload` are the
resources the device creates. `none` when `ASSERT(!buffer.buffer)` fails or
the backing heap has no free descriptor. -/
def createBuffer (d : D3D) (handle : Nat) (mappable shader_buffer : Bool) (size : Nat)
    (has_data : Bool) (native upload : Nat) : Option D3D :=
  let b0 := d.buffer_at handle
  if b0.buffer ≠ 0 then none
  else
    let width := size
    let size1 := if shader_buffer then u64 (u64 (size + 15) / 16 * 16) else size
    match d.srv_heap.alloc with
    | none => none
    | some a =>
      let b1 : Buffer :=
        { b0 with size := size, buffer := native, state := D3D12_RESOURCE_STATE_GENERIC_READ,
                  heap_id := a.1 }
      let calls1 := [Call.createCommittedResource width mappable,
        Call.createShaderResourceView native (u32 (size1 / 4)) a.2.1]
      let d1 : D3D :=
        { d with
          srv_heap := a.2.2
          buffers := d.buffers.store handle (firstWord native)
          buffer_at := Function.update d.buffer_at handle b1
          calls := d.calls ++ calls1 }
      if has_data then
        let s1 := b1.setState D3D12_RESOURCE_STATE_COPY_DEST
        let s2 := s1.2.1.setState s1.1
        let d2 : D3D :=
          { d1 with
            buffer_at := Function.update d1.buffer_at handle s2.2.1
            calls := d1.calls ++ [Call.createCommittedResource size1 true] ++ s1.2.2 ++
              [Call.copyResource native upload] ++ s2.2.2 }
        some (d2.pushRelease [upload])
      else some d1

/-- Calls on the frame ring. -/
inductive FrameOp where
  | swapBuffers (resized : Bool)
  | waitFrame (frame_idx : Fin 3)
  deriving DecidableEq, Repr

/-- Runs a sequence of frame-ring calls; `none` when an `ASSERT` fails. -/
def runFrameOps : D3D → List FrameOp → Option D3D
  | d, [] => some d
  | d, FrameOp.swapBuffers resized :: ops =>
    match swapBuffers d resized with
    | none => none
    | some r => runFrameOps r.2 ops
  | d, FrameOp.waitFrame i :: ops => runFrameOps (waitFrame d i.val) ops

/-- Number of `swapBuffers` calls in a sequence. -/
def countSwaps : List FrameOp → Nat
  | [] => 0
  | FrameOp.swapBuffers _ :: ops => countSwaps ops + 1
  | FrameOp.waitFrame _ :: ops => countSwaps ops

/-- Replay state: for each frame the fence value of the event it registered
at its last submission and has not waited for yet, and whether every reuse so
far happened with no such event outstanding. -/
structure Replay where
  pending : Nat → Option Nat
  ok : Bool

/-- One call of the trace. A wait must be on the event the frame registered
last; releasing a frame's queued objects and resetting its command
allocator (with its scratch pointer) need the frame to have no event
outstanding. -/
def Replay.step (r : Replay) : Call → Replay
  | Call.setEventOnCompletion f v => { r with pending := Function.update r.pending f (some v) }
  | Call.waitForSingleObject f v =>
    { pending := Function.update r.pending f none, ok := r.ok && decide (r.pending f = some v) }
  | Call.release f _ => { r with ok := r.ok && (r.pending f).isNone }
  | Call.resetCommandAllocator f => { r with ok := r.ok && (r.pending f).isNone }
  | _ => r

/-- Replays a whole trace from the start of the program. -/
def replay (calls : List Call) : Replay :=
  calls.foldl Replay.step { pending := fun _ => none, ok := true }

/-- Every release of a frame's queue and every reset of its allocator in the
trace happens after the wait on the event of that frame's last submission. -/
def retiredBeforeReuse (calls : List Call) : Bool := (replay calls).ok

/-! ### Predicates on the frame ring -/

/-- The frame ring is in a state `swapBuffers` can start from: three frames,
a current frame, and no fence event outstanding on the current frame. -/
def D3D.FramesWF (d : D3D) : Prop :=
  d.frames_count = NUM_BACKBUFFERS ∧ d.frame < NUM_BACKBUFFERS ∧
    (d.frames d.frame).fence_event = none

/-- The index `d3d.frame` takes after `++d3d.frame` with wrap-around. -/
def nextIndex (frame : Nat) : Nat := if frame + 1 ≥ NUM_BACKBUFFERS then 0 else frame + 1

/-- The replayed trace agrees with the frames: no reuse happened with an
event outstanding, and the event each frame has outstanding is the one the
trace says. -/
def Consistent (d : D3D) : Prop :=
  (replay d.calls).ok = true ∧ ∀ g, (replay d.calls).pending g = (d.frames g).fence_event

/-! ### Predicates on descriptor rings -/

/-- A descriptor ring as `init` and `nextFrame` lay it out: three windows of
`max_count` descriptors of `increment` bytes each, whose byte offsets fit the
`u32` arithmetic of the source and whose addresses fit 64 bits; `gpu` and
`cpu` point at the start of the window of `frame`; `count` is within the
window. -/
def HeapAllocator.Ring (h : HeapAllocator) : Prop :=
  h.frame < NUM_BACKBUFFERS ∧ h.count ≤ h.max_count ∧ 0 < h.increment ∧
  NUM_BACKBUFFERS * h.max_count * h.increment < 2 ^ 32 ∧
  h.gpu_begin + NUM_BACKBUFFERS * h.max_count * h.increment < 2 ^ 64 ∧
  h.cpu_begin + NUM_BACKBUFFERS * h.max_count * h.increment < 2 ^ 64 ∧
  h.gpu = h.gpu_begin + h.frame * h.max_count * h.increment ∧
  h.cpu = h.cpu_begin + h.frame * h.max_count * h.increment

/-- The CPU address of slot `slot` of the ring heap. -/
def HeapAllocator.slotAddr (h : HeapAllocator) (slot : Nat) : Nat :=
  h.cpu_begin + slot * h.increment

/-- Slot `slot` lies in the window of the current frame. -/
def HeapAllocator.inWindow (h : HeapAllocator) (slot : Nat) : Prop :=
  h.frame * h.max_count ≤ slot ∧ slot < (h.frame + 1) * h.max_count

/-- Number of slots of an SRV set that hold a valid handle. -/
def validCount (srvs : List SRV) : Nat :=
  (srvs.filter (fun s => isValid s.handle)).length

/-- A sample ring: the RTV heap as `init` creates it, on a device with
32-byte descriptors. -/
def sampleRing : HeapAllocator :=
  HeapAllocator.init {} { increment := 32, gpu_start := 0x10000, cpu_start := 0x20000,
                          backing_start := 0 } D3D12_DESCRIPTOR_HEAP_TYPE.RTV 1024 0

/-! ### Call sequences on the context -/

/-- Calls of the public API that the embedding covers. -/
inductive Op where
  | allocBufferHandle
  | allocTextureHandle
  | allocProgramHandle
  | createBuffer (handle : Nat) (mappable shader_buffer : Bool) (size : Nat) (has_data : Bool)
      (native upload : Nat)
  | destroyBuffer (buffer : Nat)
  | destroyTexture (texture : Nat)
  | destroyProgram (program : Nat)
  | swapBuffers (resized : Bool)
  | waitFrame (frame_idx : Fin 3)

/-- One call; `none` when an `ASSERT` fails. -/
def step (d : D3D) : Op → Option D3D
  | Op.allocBufferHandle => some (allocBufferHandle d).2
  | Op.allocTextureHandle => some (allocTextureHandle d).2
  | Op.allocProgramHandle => some (allocProgramHandle d).2
  | Op.createBuffer handle mappable shader_buffer size has_data native upload =>
    createBuffer d handle mappable shader_buffer size has_data native upload
  | Op.destroyBuffer buffer => some (destroyBuffer d buffer)
  | Op.destroyTexture texture => some (destroyTexture d texture)
  | Op.destroyProgram program => some (destroyProgram d program)
  | Op.swapBuffers resized => (swapBuffers d resized).map (fun r => r.2)
  | Op.waitFrame frame_idx => some (waitFrame d frame_idx.val)

/-- A sample device: 32-byte descriptors, heaps and scratch buffers at
distinct addresses. -/
def sampleEnv : DeviceEnv :=
  { srv := { increment := 32, gpu_start := 0x1000000, cpu_start := 0x2000000,
             backing_start := 0x3000000 }
    sampler := { increment := 32, gpu_start := 0x4000000, cpu_start := 0x5000000,
                 backing_start := 0 }
    rtv := { increment := 32, gpu_start := 0x10000, cpu_start := 0x20000, backing_start := 0 }
    dsv := { increment := 32, gpu_start := 0x30000, cpu_start := 0x40000, backing_start := 0 }
    scratch := fun i => 0x8000000 + i * SCRATCH_BUFFER_SIZE }

/-- The hashes stored as keys of the sampler map. -/
def SamplerAllocator.keys (heap : SamplerAllocator) : List Nat :=
  heap.sampler_map.map (fun e => e.1)

/-- Invariant of the sampler heap for SRV sets of `n` slots: the keys are
pairwise distinct, `count` is `n` times their number, and the counters stay
within `u32`. -/
def SamplerAllocator.Dedup (n : Nat) (heap : SamplerAllocator) : Prop :=
  heap.keys.Nodup ∧ heap.count = n * heap.keys.length ∧ heap.count ≤ heap.max_count ∧
    heap.max_count + n < 2 ^ 32

/-- A toy stand-in for the engine's `crc32`, used in examples only. -/
def sampleHash (flags : List Nat) : Nat := (flags.foldl (fun acc x => 31 * acc + x + 1) 7) % 2 ^ 32

/-- A sample texture table: texture `i` has flags `i + 1`. -/
def sampleTextures : Nat → Texture := fun i => { flags := i + 1 }

/-- Three sample `allocSamplers` calls with 2-slot SRV sets; the third
repeats the first. -/
def sampleSamplerCalls : List ((Nat → Texture) × List SRV) :=
  [(sampleTextures, [⟨false, 0⟩, ⟨false, 1⟩]),
   (sampleTextures, [⟨false, 0⟩, ⟨true, 1⟩]),
   (sampleTextures, [⟨false, 0⟩, ⟨false, 1⟩])]

/-! ### Resource states of textures -/

/-- Value of `D3D12_RESOURCE_STATE_COMMON` (and `PRESENT`) in `d3d12.h`. -/
def D3D12_RESOURCE_STATE_COMMON : Nat := 0

/-- Value of `D3D12_RESOURCE_STATE_RENDER_TARGET` in `d3d12.h`. -/
def D3D12_RESOURCE_STATE_RENDER_TARGET : Nat := 0x4

/-- Value of `D3D12_RESOURCE_STATE_DEPTH_WRITE` in `d3d12.h`. -/
def D3D12_RESOURCE_STATE_DEPTH_WRITE : Nat := 0x10

/-- Value of `D3D12_RESOURCE_STATE_DEPTH_READ` in `d3d12.h`. -/
def D3D12_RESOURCE_STATE_DEPTH_READ : Nat := 0x20

/-- Embeds `Texture::setState`: returns the old state, the texture and the
barrier recorded, if any. -/
def Texture.setState (t : Texture) (new_state : Nat) : Nat × Texture × List Call :=
  if t.state = new_state then (t.state, t, [])
  else (t.state, { t with state := new_state }, switchState t.resource t.state new_state)

/-- A small context for examples: pre-initialised, with a backing SRV heap of
four descriptors and rings of 32-byte descriptors. -/
def smallContext : D3D :=
  { preinit with
    srv_heap := { free_list := [0, 1, 2, 3], increment := 32, gpu := 0x1000000, cpu := 0x2000000,
                  gpu_begin := 0x1000000, cpu_begin := 0x2000000, backing_begin := 0x3000000,
                  max_count := 64 }
    rtv_heap := { increment := 32, gpu := 0x10000, cpu := 0x20000, gpu_begin := 0x10000,
                  cpu_begin := 0x20000, max_count := 16 }
    ds_heap := { increment := 32, gpu := 0x30000, cpu := 0x40000, gpu_begin := 0x30000,
                 cpu_begin := 0x40000, max_count := 16 }
    frames := fun i => { scratch_buffer_begin := 0x8000000 + i * SCRATCH_BUFFER_SIZE,
                         scratch_buffer_ptr := 0x8000000 + i * SCRATCH_BUFFER_SIZE } }

/-! ### Staging through the scratch buffer -/

/-- Embeds `update(BufferHandle, const void*, size_t)`: `none` when the
`ASSERT` on the room left in the scratch buffer fails. Pointer arithmetic is
64-bit. -/
def update (d : D3D) (buffer size : Nat) : Option D3D :=
  let f := d.frames d.frame
  let dst := f.scratch_buffer_ptr
  if u64 (size + dst) ≤ u64 (f.scratch_buffer_begin + SCRATCH_BUFFER_SIZE) then
    let src_offset := u64 (dst + 2 ^ 64 - f.scratch_buffer_begin)
    let b := d.buffer_at buffer
    let s1 := b.setState D3D12_RESOURCE_STATE_COPY_DEST
    let s2 := s1.2.1.setState s1.1
    some { d with
      buffer_at := Function.update d.buffer_at buffer s2.2.1
      frames := Function.update d.frames d.frame { f with scratch_buffer_ptr := u64 (dst + size) }
      calls := d.calls ++ [Call.memcpy dst size] ++ s1.2.2 ++
        [Call.copyBufferRegion b.buffer 0 d.frame src_offset size] ++ s2.2.2 }
  else none

/-- A sequence of `update` calls, each given by its buffer and its size;
`none` as soon as one fails. -/
def updates : D3D → List (Nat × Nat) → Option D3D
  | d, [] => some d
  | d, u :: rest =>
    match update d u.1 u.2 with
    | none => none
    | some d1 => updates d1 rest

/-- The byte range of the scratch buffer a call writes, as start address and
size. -/
def Call.staged : Call → Option (Nat × Nat)
  | Call.memcpy dst size => some (dst, size)
  | _ => none

/-- The source offset and size of a copy out of a scratch buffer. -/
def Call.scratchCopy : Call → Option (Nat × Nat)
  | Call.copyBufferRegion _ _ _ src_offset size => some (src_offset, size)
  | _ => none

/-- Running sums: the offsets at which chunks of the given sizes start when
laid out back to back from `off`, paired with the sizes. -/
def layout : Nat → List Nat → List (Nat × Nat)
  | _, [] => []
  | off, s :: rest => (off, s) :: layout (off + s) rest

/-- The sizes of a sequence of `update` calls. -/
def sizesOf (us : List (Nat × Nat)) : List Nat := us.map (fun u => u.2)

/-! ### DDS images

`renderer/gpu/dds.h` is not part of the sources; the header layout, the
constants and the pixel-format tests are those of the inline `namespace DDS`
of `ffr_dx.cpp`, the tables and `sizeDXTC` those of `gpu_dx12.cpp`. -/

/-- Values of `DXGI_FORMAT` in `dxgiformat.h` (the order of `DxgiFormat`). -/
def DXGI_FORMAT_UNKNOWN : Nat := 0
/-- Value of `DXGI_FORMAT_R32G32B32A32_FLOAT`. -/
def DXGI_FORMAT_R32G32B32A32_FLOAT : Nat := 2
/-- Value of `DXGI_FORMAT_R32G32B32_FLOAT`. -/
def DXGI_FORMAT_R32G32B32_FLOAT : Nat := 6
/-- Value of `DXGI_FORMAT_R16G16B16A16_FLOAT`. -/
def DXGI_FORMAT_R16G16B16A16_FLOAT : Nat := 10
/-- Value of `DXGI_FORMAT_R16G16B16A16_UNORM`. -/
def DXGI_FORMAT_R16G16B16A16_UNORM : Nat := 11
/-- Value of `DXGI_FORMAT_R32G32_FLOAT`. -/
def DXGI_FORMAT_R32G32_FLOAT : Nat := 16
/-- Value of `DXGI_FORMAT_R8G8B8A8_UNORM`. -/
def DXGI_FORMAT_R8G8B8A8_UNORM : Nat := 28
/-- Value of `DXGI_FORMAT_R8G8B8A8_UNORM_SRGB`. -/
def DXGI_FORMAT_R8G8B8A8_UNORM_SRGB : Nat := 29
/-- Value of `DXGI_FORMAT_R8G8B8A8_UINT`. -/
def DXGI_FORMAT_R8G8B8A8_UINT : Nat := 30
/-- Value of `DXGI_FORMAT_R32_TYPELESS`. -/
def DXGI_FORMAT_R32_TYPELESS : Nat := 39
/-- Value of `DXGI_FORMAT_D32_FLOAT`. -/
def DXGI_FORMAT_D32_FLOAT : Nat := 40
/-- Value of `DXGI_FORMAT_R32_FLOAT`. -/
def DXGI_FORMAT_R32_FLOAT : Nat := 41
/-- Value of `DXGI_FORMAT_R24G8_TYPELESS`. -/
def DXGI_FORMAT_R24G8_TYPELESS : Nat := 44
/-- Value of `DXGI_FORMAT_D24_UNORM_S8_UINT`. -/
def DXGI_FORMAT_D24_UNORM_S8_UINT : Nat := 45
/-- Value of `DXGI_FORMAT_R24_UNORM_X8_TYPELESS`. -/
def DXGI_FORMAT_R24_UNORM_X8_TYPELESS : Nat := 46
/-- Value of `DXGI_FORMAT_R16_FLOAT`. -/
def DXGI_FORMAT_R16_FLOAT : Nat := 54
/-- Value of `DXGI_FORMAT_R16_UNORM`. -/
def DXGI_FORMAT_R16_UNORM : Nat := 56
/-- Value of `DXGI_FORMAT_R8_UNORM`. -/
def DXGI_FORMAT_R8_UNORM : Nat := 61
/-- Value of `DXGI_FORMAT_BC1_UNORM`. -/
def DXGI_FORMAT_BC1_UNORM : Nat := 71
/-- Value of `DXGI_FORMAT_BC1_UNORM_SRGB`. -/
def DXGI_FORMAT_BC1_UNORM_SRGB : Nat := 72
/-- Value of `DXGI_FORMAT_BC2_UNORM`. -/
def DXGI_FORMAT_BC2_UNORM : Nat := 74
/-- Value of `DXGI_FORMAT_BC2_UNORM_SRGB`. -/
def DXGI_FORMAT_BC2_UNORM_SRGB : Nat := 75
/-- Value of `DXGI_FORMAT_BC3_UNORM`. -/
def DXGI_FORMAT_BC3_UNORM : Nat := 77
/-- Value of `DXGI_FORMAT_BC3_UNORM_SRGB`. -/
def DXGI_FORMAT_BC3_UNORM_SRGB : Nat := 78
/-- Value of `DXGI_FORMAT_BC4_UNORM`. -/
def DXGI_FORMAT_BC4_UNORM : Nat := 80
/-- Value of `DXGI_FORMAT_BC5_UNORM`. -/
def DXGI_FORMAT_BC5_UNORM : Nat := 83
/-- Value of `DXGI_FORMAT_B8G8R8A8_UNORM`. -/
def DXGI_FORMAT_B8G8R8A8_UNORM : Nat := 87
/-- Value of `DXGI_FORMAT_B8G8R8A8_UNORM_SRGB`. -/
def DXGI_FORMAT_B8G8R8A8_UNORM_SRGB : Nat := 91

namespace DDS

/-- Embeds `DDS::sizeDXTC` (`u32` arithmetic). -/
def sizeDXTC (w h format : Nat) : Nat :=
  let is_dxt1 := format == DXGI_FORMAT_BC1_UNORM || format == DXGI_FORMAT_BC1_UNORM_SRGB
  let is_ati := format == DXGI_FORMAT_BC4_UNORM
  u32 (u32 ((u32 (w + 3) / 4) * (u32 (h + 3) / 4)) * (if is_dxt1 || is_ati then 8 else 16))

/-- Embeds `struct LoadInfo`. -/
structure LoadInfo where
  compressed : Bool := false
  swap : Bool := false
  palette : Bool := false
  blockBytes : Nat := 0
  block_width : Nat := 0
  block_height : Nat := 0
  format : Nat := 0
  srgb_format : Nat := 0
  deriving DecidableEq, Repr

/-- The table entry `loadInfoDXT1`. -/
def loadInfoDXT1 : LoadInfo :=
  ⟨true, false, false, 8, 4, 4, DXGI_FORMAT_BC1_UNORM, DXGI_FORMAT_BC1_UNORM_SRGB⟩
/-- The table entry `loadInfoDXT3`. -/
def loadInfoDXT3 : LoadInfo :=
  ⟨true, false, false, 16, 4, 4, DXGI_FORMAT_BC2_UNORM, DXGI_FORMAT_BC2_UNORM_SRGB⟩
/-- The table entry `loadInfoDXT5`. -/
def loadInfoDXT5 : LoadInfo :=
  ⟨true, false, false, 16, 4, 4, DXGI_FORMAT_BC3_UNORM, DXGI_FORMAT_BC3_UNORM_SRGB⟩
/-- The table entry `loadInfoATI1`. -/
def loadInfoATI1 : LoadInfo :=
  ⟨true, false, false, 8, 4, 4, DXGI_FORMAT_BC4_UNORM, DXGI_FORMAT_UNKNOWN⟩
/-- The table entry `loadInfoATI2`. -/
def loadInfoATI2 : LoadInfo :=
  ⟨true, false, false, 16, 4, 4, DXGI_FORMAT_BC5_UNORM, DXGI_FORMAT_UNKNOWN⟩
/-- The table entries `loadInfoBGRA8`, `loadInfoRGBA8`, `loadInfoBGR8`,
`loadInfoBGR5A1`, `loadInfoBGR565` and `loadInfoIndex8`: their initialisers
are commented out, so every field is zero. -/
def loadInfoUncompressed : LoadInfo := {}

/-- One subresource descriptor as `loadTexture` fills it, with the number of
bytes it skips in the blob. -/
structure Subresource where
  size : Nat
  RowPitch : Nat
  SlicePitch : Nat
  deriving DecidableEq, Repr

/-- The body of the mip loop of `loadTexture` for a compressed format:
`width`/`height` of the level, the bytes consumed and the two pitches (`u32`
arithmetic, stored into the 64-bit pitch fields). -/
def mipSubresource (dwWidth dwHeight mip internal_format : Nat) : Subresource :=
  let width := max 1 (dwWidth / 2 ^ mip)
  let height := max 1 (dwHeight / 2 ^ mip)
  let size := sizeDXTC width height internal_format
  let row := u32 ((u32 (width + 3) / 4) * sizeDXTC 1 1 internal_format)
  { size := size, RowPitch := row, SlicePitch := u64 ((u32 (height + 3) / 4) * row) }

/-- The format `loadTexture` picks from a table entry:
`is_srgb ? li->srgb_format : li->format`. -/
def internalFormat (li : LoadInfo) (is_srgb : Bool) : Nat :=
  if is_srgb then li.srgb_format else li.format

/-- The table entries of the block-compressed formats `loadTexture`
recognises by their four-character code. -/
def compressedLoadInfos : List LoadInfo :=
  [loadInfoDXT1, loadInfoDXT3, loadInfoDXT5, loadInfoATI1, loadInfoATI2]

end DDS

/-! ### Pipeline state objects -/

/-- The enumerators of `D3D12_BLEND` (`d3d12.h`). -/
inductive D3D12_BLEND where
  | ZERO | ONE | SRC_COLOR | INV_SRC_COLOR | SRC_ALPHA | INV_SRC_ALPHA | DEST_ALPHA
  | INV_DEST_ALPHA | DEST_COLOR | INV_DEST_COLOR | SRC_ALPHA_SAT | BLEND_FACTOR
  | INV_BLEND_FACTOR | SRC1_COLOR | INV_SRC1_COLOR | SRC1_ALPHA | INV_SRC1_ALPHA
  deriving DecidableEq, Repr

/-- The enumerators of `D3D12_COMPARISON_FUNC` (`d3d12.h`). -/
inductive D3D12_COMPARISON_FUNC where
  | NEVER | LESS | EQUAL | LESS_EQUAL | GREATER | NOT_EQUAL | GREATER_EQUAL | ALWAYS
  deriving DecidableEq, Repr

/-- The enumerators of `D3D12_STENCIL_OP` (`d3d12.h`). -/
inductive D3D12_STENCIL_OP where
  | KEEP | ZERO | REPLACE | INCR_SAT | DECR_SAT | INVERT | INCR | DECR
  deriving DecidableEq, Repr

/-- The enumerators of `D3D12_CULL_MODE` (`d3d12.h`). -/
inductive D3D12_CULL_MODE where
  | NONE | FRONT | BACK
  deriving DecidableEq, Repr

/-- The enumerators of `D3D12_FILL_MODE` (`d3d12.h`). -/
inductive D3D12_FILL_MODE where
  | WIREFRAME | SOLID
  deriving DecidableEq, Repr

/-- Embeds `D3D12_DEPTH_STENCILOP_DESC`. A field is `none` while it holds the
zero the initialiser `desc = {}` leaves (zero is no enumerator). -/
structure D3D12_DEPTH_STENCILOP_DESC where
  StencilFailOp : Option D3D12_STENCIL_OP := none
  StencilDepthFailOp : Option D3D12_STENCIL_OP := none
  StencilPassOp : Option D3D12_STENCIL_OP := none
  StencilFunc : Option D3D12_COMPARISON_FUNC := none
  deriving DecidableEq, Repr

/-- Embeds `D3D12_DEPTH_STENCIL_DESC`; `DepthWriteMask` is true for
`D3D12_DEPTH_WRITE_MASK_ALL`, false for `_ZERO`. -/
structure D3D12_DEPTH_STENCIL_DESC where
  DepthEnable : Bool := false
  DepthWriteMask : Bool := false
  DepthFunc : Option D3D12_COMPARISON_FUNC := none
  StencilEnable : Bool := false
  StencilReadMask : Nat := 0
  StencilWriteMask : Nat := 0
  FrontFace : D3D12_DEPTH_STENCILOP_DESC := {}
  BackFace : D3D12_DEPTH_STENCILOP_DESC := {}
  deriving DecidableEq, Repr

/-- Embeds `D3D12_RENDER_TARGET_BLEND_DESC`; both blend operations are always
`D3D12_BLEND_OP_ADD` and the write mask `D3D12_COLOR_WRITE_ENABLE_ALL`, so
only the enable flag and the four factors are kept. -/
structure D3D12_RENDER_TARGET_BLEND_DESC where
  BlendEnable : Bool
  SrcBlend : D3D12_BLEND
  DestBlend : D3D12_BLEND
  SrcBlendAlpha : D3D12_BLEND
  DestBlendAlpha : D3D12_BLEND
  deriving DecidableEq, Repr

/-- Embeds the fields of `D3D12_GRAPHICS_PIPELINE_STATE_DESC` that vary from
call to call. A stage is given by its blob (its pointer and size), the input
layout by the program slot whose `attributes` array it points at. The root
signature, `SampleDesc`, `SampleMask`, `NodeMask`, `Flags` and the fixed
rasterizer fields are the same in every call and are left out. -/
structure D3D12_GRAPHICS_PIPELINE_STATE_DESC where
  VS : Nat
  PS : Nat
  GS : Nat
  PrimitiveTopologyType : Nat
  CullMode : D3D12_CULL_MODE
  FillMode : D3D12_FILL_MODE
  DepthStencilState : D3D12_DEPTH_STENCIL_DESC
  RenderTarget : List D3D12_RENDER_TARGET_BLEND_DESC
  InputLayout_NumElements : Nat
  InputLayout_pInputElementDescs : Nat
  DSVFormat : Nat
  NumRenderTargets : Nat
  RTVFormats : List Nat
  deriving DecidableEq, Repr

/-- The enumerators of `renderer/gpu/gpu.h` that `getPipelineState` reads:
the bit masks of `StateFlags` and the values of `StencilFuncs`. The header
is not part of the sources, so the values are parameters. -/
structure StateEnums where
  CULL_BACK : Nat
  CULL_FRONT : Nat
  WIREFRAME : Nat
  DEPTH_TEST : Nat
  DEPTH_WRITE : Nat
  STENCIL_DISABLE : Nat
  STENCIL_ALWAYS : Nat
  STENCIL_EQUAL : Nat
  STENCIL_NOT_EQUAL : Nat
  deriving DecidableEq, Repr

/-- The 4-bit stencil function field of a state word, `(state >> 30) & 0xf`. -/
def stencilFuncField (state : Nat) : Nat := state / 2 ^ 30 % 16

/-- The 16 blend bits of a state word, `u16(state >> 6)`. -/
def blendBits (state : Nat) : Nat := state / 2 ^ 6 % 2 ^ 16

/-- The table of the lambda `toDXOp`; `none` for an index past its end (the
lambda has no bound check). -/
def toDXOp (op : Nat) : Option D3D12_STENCIL_OP :=
  [D3D12_STENCIL_OP.KEEP, D3D12_STENCIL_OP.ZERO, D3D12_STENCIL_OP.REPLACE,
   D3D12_STENCIL_OP.INCR_SAT, D3D12_STENCIL_OP.DECR_SAT, D3D12_STENCIL_OP.INVERT,
   D3D12_STENCIL_OP.INCR, D3D12_STENCIL_OP.DECR][op]?

/-- The table of the lambda `to_dx`. -/
def blendFactorTable : List D3D12_BLEND :=
  [D3D12_BLEND.ZERO, D3D12_BLEND.ONE, D3D12_BLEND.SRC_COLOR, D3D12_BLEND.INV_SRC_COLOR,
   D3D12_BLEND.SRC_ALPHA, D3D12_BLEND.INV_SRC_ALPHA, D3D12_BLEND.DEST_COLOR,
   D3D12_BLEND.INV_DEST_COLOR, D3D12_BLEND.DEST_ALPHA, D3D12_BLEND.INV_DEST_ALPHA,
   D3D12_BLEND.SRC1_COLOR, D3D12_BLEND.INV_SRC1_COLOR, D3D12_BLEND.SRC1_ALPHA,
   D3D12_BLEND.INV_SRC1_ALPHA]

/-- Embeds the lambda `to_dx`: `none` when `ASSERT((u32)factor <
lengthOf(table))` fails. -/
def to_dx (factor : Nat) : Option D3D12_BLEND :=
  if factor < blendFactorTable.length then blendFactorTable[factor]? else none

/-- The depth and stencil part of `getPipelineState`; `none` when the
stencil function is none of `DISABLE`, `ALWAYS`, `EQUAL`, `NOT_EQUAL` (the
`ASSERT(false)` of the switch) or a stencil operation is past the table. -/
def depthStencilState (k : StateEnums) (state : Nat) : Option D3D12_DEPTH_STENCIL_DESC :=
  let depth_test := decide (state &&& k.DEPTH_TEST ≠ 0)
  let base : D3D12_DEPTH_STENCIL_DESC :=
    { DepthEnable := depth_test
      DepthWriteMask := decide (state &&& k.DEPTH_WRITE ≠ 0) && depth_test
      DepthFunc := some (if depth_test then D3D12_COMPARISON_FUNC.GREATER_EQUAL
                         else D3D12_COMPARISON_FUNC.ALWAYS)
      StencilEnable := decide (stencilFuncField state ≠ k.STENCIL_DISABLE) }
  if stencilFuncField state ≠ k.STENCIL_DISABLE then
    let dx_func : Option D3D12_COMPARISON_FUNC :=
      if stencilFuncField state = k.STENCIL_ALWAYS then some D3D12_COMPARISON_FUNC.ALWAYS
      else if stencilFuncField state = k.STENCIL_EQUAL then some D3D12_COMPARISON_FUNC.EQUAL
      else if stencilFuncField state = k.STENCIL_NOT_EQUAL then
        some D3D12_COMPARISON_FUNC.NOT_EQUAL
      else none
    match dx_func, toDXOp (state / 2 ^ 50 % 16), toDXOp (state / 2 ^ 54 % 16),
        toDXOp (state / 2 ^ 58 % 16) with
    | some f, some sfail, some zfail, some zpass =>
      let face : D3D12_DEPTH_STENCILOP_DESC :=
        { StencilFailOp := some sfail, StencilDepthFailOp := some zfail,
          StencilPassOp := some zpass, StencilFunc := some f }
      some { base with
        StencilReadMask := state / 2 ^ 42 % 256
        StencilWriteMask := state / 2 ^ 22 % 256
        FrontFace := face
        BackFace := face }
    | _, _, _, _ => none
  else some base

/-- The blend part of `getPipelineState`: the description written to each of
the eight render targets; `none` when a factor fails the `ASSERT` of `to_dx`. -/
def blendState (state : Nat) : Option (List D3D12_RENDER_TARGET_BLEND_DESC) :=
  let blend_bits := blendBits state
  if blend_bits ≠ 0 then
    match to_dx (blend_bits % 16), to_dx (blend_bits / 2 ^ 4 % 16),
        to_dx (blend_bits / 2 ^ 8 % 16), to_dx (blend_bits / 2 ^ 12 % 16) with
    | some src_rgb, some dst_rgb, some src_a, some dst_a =>
      some (List.replicate 8
        { BlendEnable := true, SrcBlend := src_rgb, DestBlend := dst_rgb,
          SrcBlendAlpha := src_a, DestBlendAlpha := dst_a })
    | _, _, _, _ => none
  else
    some (List.replicate 8
      { BlendEnable := false, SrcBlend := D3D12_BLEND.SRC_ALPHA,
        DestBlend := D3D12_BLEND.INV_SRC_ALPHA, SrcBlendAlpha := D3D12_BLEND.SRC_ALPHA,
        DestBlendAlpha := D3D12_BLEND.INV_SRC_ALPHA })

/-- The description `getPipelineState` builds from the current state word,
program and framebuffer; `none` when an `ASSERT` on the way fails. -/
def pipelineDesc (k : StateEnums) (d : D3D) (pt : Nat) :
    Option D3D12_GRAPHICS_PIPELINE_STATE_DESC :=
  let p := d.program_at d.current_program
  let state := d.current_state
  match depthStencilState k state, blendState state with
  | some ds, some blend =>
    some
      { VS := p.vs, PS := p.ps, GS := p.gs
        PrimitiveTopologyType := pt
        CullMode :=
          if state &&& k.CULL_BACK ≠ 0 then D3D12_CULL_MODE.BACK
          else if state &&& k.CULL_FRONT ≠ 0 then D3D12_CULL_MODE.FRONT
          else D3D12_CULL_MODE.NONE
        FillMode :=
          if state &&& k.WIREFRAME ≠ 0 then D3D12_FILL_MODE.WIREFRAME else D3D12_FILL_MODE.SOLID
        DepthStencilState := ds
        RenderTarget := blend
        InputLayout_NumElements := p.attribute_count
        InputLayout_pInputElementDescs := d.current_program
        DSVFormat := d.current_framebuffer.ds_format
        NumRenderTargets := d.current_framebuffer.count
        RTVFormats := d.current_framebuffer.formats.take d.current_framebuffer.count ++
          List.replicate (8 - d.current_framebuffer.count) 0 }
  | _, _ => none

/-- Embeds `getPipelineState`. `crc32` and `continueCrc32` are the engine's
hash functions (`engine/crc32.h` is not part of the sources); `pso` is the
object the device creates on a miss. `none` when an `ASSERT` fails; otherwise
the object returned and the new context. -/
def getPipelineState (k : StateEnums) (crc32 : D3D12_GRAPHICS_PIPELINE_STATE_DESC → Nat)
    (continueCrc32 : Nat → Nat → Nat) (d : D3D) (pt pso : Nat) : Option (Nat × D3D) :=
  match pipelineDesc k d pt with
  | none => none
  | some desc =>
    let hash := continueCrc32 (crc32 desc) d.current_program
    match d.pipelines.find hash with
    | some found => some (found, d)
    | none =>
      some (pso, { d with
        pipelines := d.pipelines.insert hash pso
        calls := d.calls ++ [Call.createGraphicsPipelineState pso] })

/-- The enumerator values used in examples: flags in the order `WIREFRAME`,
`DEPTH_TEST`, `CULL_FRONT`, `CULL_BACK`, `SCISSOR_TEST`, `DEPTH_WRITE` from
bit 0, stencil functions counted from `DISABLE = 0`. -/
def sampleEnums : StateEnums :=
  { WIREFRAME := 1, DEPTH_TEST := 2, CULL_FRONT := 4, CULL_BACK := 8, DEPTH_WRITE := 32,
    STENCIL_DISABLE := 0, STENCIL_ALWAYS := 1, STENCIL_EQUAL := 2, STENCIL_NOT_EQUAL := 3 }

/-- A toy stand-in for `crc32` of a pipeline description, used in examples
only. -/
def sampleDescHash (desc : D3D12_GRAPHICS_PIPELINE_STATE_DESC) : Nat :=
  desc.VS + 3 * desc.PS + 5 * desc.PrimitiveTopologyType + 7 * desc.NumRenderTargets

/-- A toy stand-in for `continueCrc32`, used in examples only. -/
def sampleContinue (hash value : Nat) : Nat := (31 * hash + value) % 2 ^ 32

/-- A context whose pipeline cache already holds an object (77) under the key
of the description built for program 0, state word 0 and topology 0. -/
def warmContext : D3D :=
  { smallContext with pipelines := [(0, 77)] }

/-- The small context after one `getPipelineState` call that created the
object 500 under the key 0. -/
def afterFirstCall : D3D :=
  { smallContext with
    pipelines := [(0, 500)]
    calls := [Call.createGraphicsPipelineState 500] }

/-- Two `getPipelineState` calls in a row with the same inputs; returns the
two objects and the calls recorded over both. -/
def getPipelineStateTwice (k : StateEnums) (crc32 : D3D12_GRAPHICS_PIPELINE_STATE_DESC → Nat)
    (continueCrc32 : Nat → Nat → Nat) (d : D3D) (pt pso1 pso2 : Nat) :
    Option (Nat × Nat × List Call) :=
  match getPipelineState k crc32 continueCrc32 d pt pso1 with
  | none => none
  | some r =>
    match getPipelineState k crc32 continueCrc32 r.2 pt pso2 with
    | none => none
    | some q => some (r.1, q.1, q.2.calls.drop d.calls.length)

/-! ### Texture formats -/

/-- Embeds `isDepthFormat`. -/
def isDepthFormat (format : Nat) : Bool :=
  format == DXGI_FORMAT_R24G8_TYPELESS || format == DXGI_FORMAT_R32_TYPELESS

/-- Embeds `toViewFormat`. -/
def toViewFormat (format : Nat) : Nat :=
  if format = DXGI_FORMAT_R24G8_TYPELESS then DXGI_FORMAT_R24_UNORM_X8_TYPELESS
  else if format = DXGI_FORMAT_R32_TYPELESS then DXGI_FORMAT_R32_FLOAT
  else format

/-- Embeds `toDSViewFormat`. -/
def toDSViewFormat (format : Nat) : Nat :=
  if format = DXGI_FORMAT_R24G8_TYPELESS then DXGI_FORMAT_D24_UNORM_S8_UINT
  else if format = DXGI_FORMAT_R32_TYPELESS then DXGI_FORMAT_D32_FLOAT
  else format

/-- Embeds `getSize(DXGI_FORMAT)`: `none` for the `ASSERT(false)` after the
switch. -/
def getSize (format : Nat) : Option Nat :=
  if format = DXGI_FORMAT_R8_UNORM then some 1
  else if format = DXGI_FORMAT_R32_TYPELESS then some 4
  else if format = DXGI_FORMAT_R24G8_TYPELESS then some 4
  else if format = DXGI_FORMAT_R8G8B8A8_UNORM_SRGB then some 4
  else if format = DXGI_FORMAT_R8G8B8A8_UNORM then some 4
  else if format = DXGI_FORMAT_R16G16B16A16_UNORM then some 8
  else if format = DXGI_FORMAT_R16G16B16A16_FLOAT then some 8
  else if format = DXGI_FORMAT_R32G32_FLOAT then some 8
  else if format = DXGI_FORMAT_R32G32B32_FLOAT then some 12
  else if format = DXGI_FORMAT_R32G32B32A32_FLOAT then some 16
  else if format = DXGI_FORMAT_R16_UNORM then some 2
  else if format = DXGI_FORMAT_R16_FLOAT then some 2
  else if format = DXGI_FORMAT_R32_FLOAT then some 4
  else none

/-- The enumerators of `TextureFormat` that `createTexture` names
(`renderer/gpu/gpu.h` is not part of the sources). -/
inductive TextureFormat where
  | R8 | RGBA8 | RGBA32F | R32F | RG32F | SRGB | SRGBA
  | R16 | RGBA16 | R16F | RGBA16F | D32 | D24 | D24S8
  deriving DecidableEq, Repr

/-- Embeds `getDXGIFormat(TextureFormat)`: `none` for the `ASSERT(false)`
after the switch (the case of `SRGB` is commented out). -/
def getDXGIFormat : TextureFormat → Option Nat
  | TextureFormat.R8 => some DXGI_FORMAT_R8_UNORM
  | TextureFormat.D32 => some DXGI_FORMAT_R32_TYPELESS
  | TextureFormat.D24 => some DXGI_FORMAT_R32_TYPELESS
  | TextureFormat.D24S8 => some DXGI_FORMAT_R24G8_TYPELESS
  | TextureFormat.SRGBA => some DXGI_FORMAT_R8G8B8A8_UNORM_SRGB
  | TextureFormat.RGBA8 => some DXGI_FORMAT_R8G8B8A8_UNORM
  | TextureFormat.RGBA16 => some DXGI_FORMAT_R16G16B16A16_UNORM
  | TextureFormat.RGBA16F => some DXGI_FORMAT_R16G16B16A16_FLOAT
  | TextureFormat.RGBA32F => some DXGI_FORMAT_R32G32B32A32_FLOAT
  | TextureFormat.R16 => some DXGI_FORMAT_R16_UNORM
  | TextureFormat.R16F => some DXGI_FORMAT_R16_FLOAT
  | TextureFormat.R32F => some DXGI_FORMAT_R32_FLOAT
  | TextureFormat.RG32F => some DXGI_FORMAT_R32G32_FLOAT
  | TextureFormat.SRGB => none

/-- The first switch of `createTexture`: the formats of its second group
need `no_mips`. -/
def TextureFormat.needsNoMips : TextureFormat → Bool
  | TextureFormat.R16 | TextureFormat.RGBA16 | TextureFormat.R16F | TextureFormat.RGBA16F
  | TextureFormat.D32 | TextureFormat.D24 | TextureFormat.D24S8 => true
  | _ => false

/-- The switch in the mip loop of `createTexture`: the formats it can
downsample; the others reach `default: ASSERT(false)`. -/
def TextureFormat.resizable : TextureFormat → Bool
  | TextureFormat.R8 | TextureFormat.SRGBA | TextureFormat.RGBA8 | TextureFormat.SRGB
  | TextureFormat.R32F | TextureFormat.RGBA32F => true
  | _ => false

/-! ### Operations on textures -/

/-- Appends calls to the trace. -/
def D3D.record (d : D3D) (cs : List Call) : D3D :=
  { d with calls := d.calls ++ cs }

/-- The call `d3d.textures[h].setState(d3d.cmd_list, new_state)`. -/
def D3D.texSetState (d : D3D) (h new_state : Nat) : D3D :=
  let s := (d.texture_at h).setState new_state
  { d with texture_at := Function.update d.texture_at h s.2.1, calls := d.calls ++ s.2.2 }

/-- One element of a `D3D12_SUBRESOURCE_DATA` array: the two pitches. -/
structure SubresourceData where
  RowPitch : Nat
  SlicePitch : Nat
  deriving DecidableEq, Repr

/-- Width or height of mip level `mip` as the fill loop of `createTexture`
takes it: the size itself for level 0, `maximum(size >> mip, 1)` after. -/
def mipExtent (size mip : Nat) : Nat :=
  if mip = 0 then size else max (size / 2 ^ mip) 1

/-- The subresource descriptors `createTexture` fills for initial data, in
array order (layer by layer, mip by mip). `uninit idx` is what the `_alloca`
block holds in `srd[idx].SlicePitch` before the assignment, which reads it:
`srd[idx].SlicePitch = h * srd[idx].SlicePitch`. -/
def createTexture_srd (w h bytes_per_pixel mip_count layers : Nat) (uninit : Nat → Nat) :
    List SubresourceData :=
  (List.range (layers * mip_count)).map (fun idx =>
    { RowPitch := u32 (mipExtent w (idx % mip_count) * bytes_per_pixel)
      SlicePitch := u64 (mipExtent h (idx % mip_count) * uninit idx) })

/-- The loop behind `floorLog2`. -/
def floorLog2Aux : Nat → Nat → Nat
  | 0, _ => 0
  | fuel + 1, n => if n < 2 then 0 else floorLog2Aux fuel (n / 2) + 1

/-- The `log2` of a `u32` as `createTexture` uses it for the mip count: the
position of the highest set bit (`engine/math.h` is not part of the
sources). -/
def floorLog2 (n : Nat) : Nat := floorLog2Aux 32 n

/-- The first half of `createTexture`: the resource `native` is created in
`GENERIC_READ`, the `Texture` slot is filled and the view is built at the
descriptor `a` the backing heap handed out. -/
def createTexture_slot (d : D3D) (handle flags dxgi mip_count native : Nat)
    (a : Nat × Nat × HeapAllocator) : D3D :=
  { d with
    srv_heap := a.2.2
    textures := d.textures.store handle (firstWord native)
    texture_at := Function.update d.texture_at handle
      { (d.texture_at handle) with
        resource := native, state := D3D12_RESOURCE_STATE_GENERIC_READ, flags := flags,
        dxgi_format := dxgi, heap_id := a.1 }
    calls := d.calls ++
      [Call.createTextureResource native D3D12_RESOURCE_STATE_GENERIC_READ,
       Call.createShaderResourceView native mip_count a.2.1] }

/-- The upload at the end of `createTexture`: `old_state =
texture.setState(COPY_DEST)`, `UpdateSubresources`, `texture.setState(old_state)`,
and the staging buffer is queued for release. -/
def createTexture_upload (d : D3D) (handle native staging : Nat) : D3D :=
  let old_state := ((d.texture_at handle).setState D3D12_RESOURCE_STATE_COPY_DEST).1
  let d2 := d.texSetState handle D3D12_RESOURCE_STATE_COPY_DEST
  let d3 := d2.record [Call.updateSubresources native staging]
  let d4 := d3.texSetState handle old_state
  d4.pushRelease [staging]

/-- Embeds `createTexture` on the path where `CreateCommittedResource`
succeeds. `no_mips` and `is_cubemap` are the tests of the flag word,
`native` is the resource the device creates, `staging` the upload buffer.
Returns `none` when an `ASSERT` fails or the backing heap has no free
descriptor, else the context and the subresource descriptors filled (none
without data). -/
def createTexture (d : D3D) (handle w h depth : Nat) (format : TextureFormat) (flags : Nat)
    (no_mips is_cubemap : Bool) (has_data : Bool) (uninit : Nat → Nat) (native staging : Nat) :
    Option (D3D × List SubresourceData) :=
  if format.needsNoMips && !no_mips then none
  else
    let mip_count := if no_mips then 1 else u32 (1 + floorLog2 (max w (max h depth)))
    match getDXGIFormat format with
    | none => none
    | some dxgi =>
      match d.srv_heap.alloc with
      | none => none
      | some a =>
        let d1 := createTexture_slot d handle flags dxgi mip_count native a
        match getSize dxgi with
        | none => none
        | some bytes_per_pixel =>
          if has_data then
            let layers := if is_cubemap then 6 else depth
            if decide (0 < layers) && decide (1 < mip_count) && !format.resizable then none
            else
              some (createTexture_upload d1 handle native staging,
                createTexture_srd w h bytes_per_pixel mip_count layers uninit)
          else some (d1, [])

/-- The loop of `setFramebuffer` over the previous attachments: every valid
handle is put back to `GENERIC_READ`. -/
def releaseAttachments : D3D → List Nat → D3D
  | d, [] => d
  | d, h :: rest =>
    if isValid h then releaseAttachments (d.texSetState h D3D12_RESOURCE_STATE_GENERIC_READ) rest
    else releaseAttachments d rest

/-- Value of `D3D12_DSV_FLAG_NONE` in `d3d12.h`. -/
def D3D12_DSV_FLAG_NONE : Nat := 0

/-- Value of `D3D12_DSV_FLAG_READ_ONLY_DEPTH` in `d3d12.h`. -/
def D3D12_DSV_FLAG_READ_ONLY_DEPTH : Nat := 1

/-- Embeds `D3D12_DEPTH_STENCIL_VIEW_DESC`. -/
structure D3D12_DEPTH_STENCIL_VIEW_DESC where
  Format : Nat := 0
  Flags : Nat := 0
  MipSlice : Nat := 0
  deriving DecidableEq, Repr

/-- The view description `allocDSV` builds: `desc = {}`, then `Format`,
`ViewDimension` (always `TEXTURE2D`) and `Texture2D.MipSlice` are assigned;
`Flags` keeps the zero of the initialiser. -/
def allocDSV_desc (texture : Texture) : D3D12_DEPTH_STENCIL_VIEW_DESC :=
  { Format := toDSViewFormat texture.dxgi_format, MipSlice := 0 }

/-- The body of the attachment loop of `setFramebuffer` for index `i` and
handle `h`; `none` when an `ASSERT` fails or `i` is past the nine slots of
`attachments`. -/
def attach (readonly_ds : Bool) (d : D3D) (i h : Nat) : Option D3D :=
  if i < 9 then
    let d1 : D3D :=
      { d with
        current_framebuffer :=
          { d.current_framebuffer with
            attachments := d.current_framebuffer.attachments.set i h } }
    let t := d1.texture_at h
    if isDepthFormat t.dxgi_format then
      let d2 := d1.texSetState h
        (if readonly_ds then D3D12_RESOURCE_STATE_DEPTH_READ
         else D3D12_RESOURCE_STATE_DEPTH_WRITE)
      match allocDSV d2.ds_heap (d2.texture_at h) with
      | none => none
      | some a =>
        let desc := allocDSV_desc (d2.texture_at h)
        some { d2 with
          ds_heap := a.2.1
          calls := d2.calls ++
            (if a.2.2 then
              [Call.createDepthStencilView (d2.texture_at h).resource desc.Format desc.Flags a.1]
             else [])
          current_framebuffer :=
            { d2.current_framebuffer with
              depth_stencil := a.1, ds_format := toDSViewFormat t.dxgi_format } }
    else if d1.current_framebuffer.count < 8 then
      let d2 := d1.texSetState h D3D12_RESOURCE_STATE_RENDER_TARGET
      match allocRTV d2.rtv_heap (d2.texture_at h).resource with
      | none => none
      | some a =>
        some { d2 with
          rtv_heap := a.2.1
          calls := d2.calls ++
            (if a.2.2 then [Call.createRenderTargetView (d2.texture_at h).resource a.1] else [])
          current_framebuffer :=
            { d2.current_framebuffer with
              formats := d2.current_framebuffer.formats.set d2.current_framebuffer.count
                t.dxgi_format
              render_targets := d2.current_framebuffer.render_targets.set
                d2.current_framebuffer.count a.1
              count := u32 (d2.current_framebuffer.count + 1) } }
    else none
  else none

/-- The attachment loop of `setFramebuffer`, from index `i`. -/
def attachLoop (readonly_ds : Bool) : D3D → Nat → List Nat → Option D3D
  | d, _, [] => some d
  | d, i, h :: rest =>
    match attach readonly_ds d i h with
    | none => none
    | some d1 => attachLoop readonly_ds d1 (i + 1) rest

/-- Embeds `setFramebuffer`. `attachments` is `none` for a null pointer (the
back buffer of the current window, `backbuffer`, is bound), else the `num`
handles; `readonly_ds` is the test of `READONLY_DEPTH_STENCIL`. `none` when
an `ASSERT` fails. -/
def setFramebuffer (d : D3D) (attachments : Option (List Nat)) (readonly_ds : Bool)
    (backbuffer : Nat) : Option D3D :=
  let d1 := releaseAttachments d d.current_framebuffer.attachments
  let bound : Option D3D :=
    match attachments with
    | none =>
      match allocRTV d1.rtv_heap backbuffer with
      | none => none
      | some a =>
        some { d1 with
          rtv_heap := a.2.1
          calls := d1.calls ++
            (if a.2.2 then [Call.createRenderTargetView backbuffer a.1] else [])
          current_framebuffer :=
            { d1.current_framebuffer with
              count := 1
              formats := d1.current_framebuffer.formats.set 0 DXGI_FORMAT_R8G8B8A8_UNORM
              render_targets := d1.current_framebuffer.render_targets.set 0 a.1
              depth_stencil := 0
              ds_format := DXGI_FORMAT_UNKNOWN } }
    | some handles =>
      attachLoop readonly_ds
        { d1 with
          current_framebuffer :=
            { d1.current_framebuffer with
              count := 0, depth_stencil := 0, ds_format := DXGI_FORMAT_UNKNOWN } }
        0 handles
  match bound with
  | none => none
  | some d2 =>
    some (d2.record [Call.omSetRenderTargets d2.current_framebuffer.count
      (decide (d2.current_framebuffer.depth_stencil ≠ 0))])

namespace DDS

/-- The constant `DDS_MAGIC`: the bytes `"DDS "` read as a little-endian
word. -/
def DDS_MAGIC : Nat := 0x20534444
/-- The constant `DDSD_CAPS`. -/
def DDSD_CAPS : Nat := 0x00000001
/-- The constant `DDSD_PIXELFORMAT`. -/
def DDSD_PIXELFORMAT : Nat := 0x00001000
/-- The constant `DDSD_MIPMAPCOUNT`. -/
def DDSD_MIPMAPCOUNT : Nat := 0x00020000
/-- The constant `DDPF_ALPHAPIXELS`. -/
def DDPF_ALPHAPIXELS : Nat := 0x00000001
/-- The constant `DDPF_FOURCC`. -/
def DDPF_FOURCC : Nat := 0x00000004
/-- The constant `DDPF_INDEXED`. -/
def DDPF_INDEXED : Nat := 0x00000020
/-- The constant `DDPF_RGB`. -/
def DDPF_RGB : Nat := 0x00000040
/-- The constant `DDSCAPS2_CUBEMAP`. -/
def DDSCAPS2_CUBEMAP : Nat := 0x00000200
/-- The four-character code `'1ITA'`. -/
def D3DFMT_ATI1 : Nat := 0x31495441
/-- The four-character code `'2ITA'`. -/
def D3DFMT_ATI2 : Nat := 0x32495441
/-- The four-character code `'1TXD'`. -/
def D3DFMT_DXT1 : Nat := 0x31545844
/-- The four-character code `'3TXD'`. -/
def D3DFMT_DXT3 : Nat := 0x33545844
/-- The four-character code `'5TXD'`. -/
def D3DFMT_DXT5 : Nat := 0x35545844
/-- The four-character code `'01XD'`. -/
def D3DFMT_DX10 : Nat := 0x30315844

/-- Embeds `struct PixelFormat` (the fields the tests read). -/
structure PixelFormat where
  dwFlags : Nat := 0
  dwFourCC : Nat := 0
  dwRGBBitCount : Nat := 0
  dwRBitMask : Nat := 0
  dwGBitMask : Nat := 0
  dwBBitMask : Nat := 0
  dwAlphaBitMask : Nat := 0
  deriving DecidableEq, Repr

/-- Embeds `struct Header` (the fields `loadTexture` reads); `dwCaps2` is
`caps2.dwCaps2`. -/
structure Header where
  dwMagic : Nat := 0
  dwSize : Nat := 0
  dwFlags : Nat := 0
  dwHeight : Nat := 0
  dwWidth : Nat := 0
  dwMipMapCount : Nat := 0
  pixelFormat : PixelFormat := {}
  dwCaps2 : Nat := 0
  deriving DecidableEq, Repr

/-- Embeds `struct DXT10Header` (the fields `loadTexture` reads). -/
structure DXT10Header where
  dxgi_format : Nat := 0
  array_size : Nat := 0
  deriving DecidableEq, Repr

/-- A test `flags & BIT` of a header word. -/
def hasBit (flags bit : Nat) : Bool := decide (flags &&& bit ≠ 0)

/-- Embeds `isDXT1`. -/
def isDXT1 (pf : PixelFormat) : Bool := hasBit pf.dwFlags DDPF_FOURCC && pf.dwFourCC == D3DFMT_DXT1
/-- Embeds `isDXT10`. -/
def isDXT10 (pf : PixelFormat) : Bool := hasBit pf.dwFlags DDPF_FOURCC && pf.dwFourCC == D3DFMT_DX10
/-- Embeds `isATI1`. -/
def isATI1 (pf : PixelFormat) : Bool := hasBit pf.dwFlags DDPF_FOURCC && pf.dwFourCC == D3DFMT_ATI1
/-- Embeds `isATI2`. -/
def isATI2 (pf : PixelFormat) : Bool := hasBit pf.dwFlags DDPF_FOURCC && pf.dwFourCC == D3DFMT_ATI2
/-- Embeds `isDXT3`. -/
def isDXT3 (pf : PixelFormat) : Bool := hasBit pf.dwFlags DDPF_FOURCC && pf.dwFourCC == D3DFMT_DXT3
/-- Embeds `isDXT5`. -/
def isDXT5 (pf : PixelFormat) : Bool := hasBit pf.dwFlags DDPF_FOURCC && pf.dwFourCC == D3DFMT_DXT5

/-- Embeds `isBGRA8`. -/
def isBGRA8 (pf : PixelFormat) : Bool :=
  hasBit pf.dwFlags DDPF_RGB && hasBit pf.dwFlags DDPF_ALPHAPIXELS && pf.dwRGBBitCount == 32 &&
    pf.dwRBitMask == 0xff0000 && pf.dwGBitMask == 0xff00 && pf.dwBBitMask == 0xff &&
    pf.dwAlphaBitMask == 0xff000000

/-- Embeds `isBGR8`. -/
def isBGR8 (pf : PixelFormat) : Bool :=
  hasBit pf.dwFlags DDPF_RGB && !hasBit pf.dwFlags DDPF_ALPHAPIXELS && pf.dwRGBBitCount == 24 &&
    pf.dwRBitMask == 0xff0000 && pf.dwGBitMask == 0xff00 && pf.dwBBitMask == 0xff

/-- Embeds `isBGR5A1`. -/
def isBGR5A1 (pf : PixelFormat) : Bool :=
  hasBit pf.dwFlags DDPF_RGB && hasBit pf.dwFlags DDPF_ALPHAPIXELS && pf.dwRGBBitCount == 16 &&
    pf.dwRBitMask == 0x00007c00 && pf.dwGBitMask == 0x000003e0 && pf.dwBBitMask == 0x0000001f &&
    pf.dwAlphaBitMask == 0x00008000

/-- Embeds `isBGR565`. -/
def isBGR565 (pf : PixelFormat) : Bool :=
  hasBit pf.dwFlags DDPF_RGB && !hasBit pf.dwFlags DDPF_ALPHAPIXELS && pf.dwRGBBitCount == 16 &&
    pf.dwRBitMask == 0x0000f800 && pf.dwGBitMask == 0x000007e0 && pf.dwBBitMask == 0x0000001f

/-- Embeds `isINDEX8`. -/
def isINDEX8 (pf : PixelFormat) : Bool :=
  hasBit pf.dwFlags DDPF_INDEXED && pf.dwRGBBitCount == 8

/-- Embeds `getDXT10LoadInfo`: `none` is the `nullptr` of the `default` case
(after its `ASSERT(false)`). -/
def getDXT10LoadInfo (dxt10_hdr : DXT10Header) : Option LoadInfo :=
  if dxt10_hdr.dxgi_format = DXGI_FORMAT_B8G8R8A8_UNORM_SRGB ∨
      dxt10_hdr.dxgi_format = DXGI_FORMAT_B8G8R8A8_UNORM then some loadInfoUncompressed
  else if dxt10_hdr.dxgi_format = DXGI_FORMAT_R8G8B8A8_UNORM then some loadInfoUncompressed
  else if dxt10_hdr.dxgi_format = DXGI_FORMAT_BC1_UNORM_SRGB ∨
      dxt10_hdr.dxgi_format = DXGI_FORMAT_BC1_UNORM then some loadInfoDXT1
  else if dxt10_hdr.dxgi_format = DXGI_FORMAT_BC2_UNORM_SRGB ∨
      dxt10_hdr.dxgi_format = DXGI_FORMAT_BC2_UNORM then some loadInfoDXT3
  else if dxt10_hdr.dxgi_format = DXGI_FORMAT_BC3_UNORM_SRGB ∨
      dxt10_hdr.dxgi_format = DXGI_FORMAT_BC3_UNORM then some loadInfoDXT5
  else none

/-- The test at the head of `loadTexture`: wrong magic or size, or the
pixel-format or caps flag missing. -/
def malformed (hdr : Header) : Bool :=
  hdr.dwMagic != DDS_MAGIC || hdr.dwSize != 124 || !hasBit hdr.dwFlags DDSD_PIXELFORMAT ||
    !hasBit hdr.dwFlags DDSD_CAPS

/-- Outcome of the format chain of `loadTexture`. -/
inductive Selected where
  | info (li : LoadInfo) (layers : Int)
  | nullInfo (layers : Int)
  | unsupported
  deriving DecidableEq, Repr

/-- The `if`/`else if` chain of `loadTexture` that picks the table entry and
sets `int layers`: `nullInfo` when `getDXT10LoadInfo` returns `nullptr`,
`unsupported` for the final `else { ASSERT(false); return false; }`. -/
def select (hdr : Header) (dxt10_hdr : DXT10Header) : Selected :=
  if isDXT1 hdr.pixelFormat then Selected.info loadInfoDXT1 1
  else if isDXT3 hdr.pixelFormat then Selected.info loadInfoDXT3 1
  else if isDXT5 hdr.pixelFormat then Selected.info loadInfoDXT5 1
  else if isATI1 hdr.pixelFormat then Selected.info loadInfoATI1 1
  else if isATI2 hdr.pixelFormat then Selected.info loadInfoATI2 1
  else if isBGRA8 hdr.pixelFormat then Selected.info loadInfoUncompressed 1
  else if isBGR8 hdr.pixelFormat then Selected.info loadInfoUncompressed 1
  else if isBGR5A1 hdr.pixelFormat then Selected.info loadInfoUncompressed 1
  else if isBGR565 hdr.pixelFormat then Selected.info loadInfoUncompressed 1
  else if isINDEX8 hdr.pixelFormat then Selected.info loadInfoUncompressed 1
  else if isDXT10 hdr.pixelFormat then
    match getDXT10LoadInfo dxt10_hdr with
    | some li => Selected.info li (toInt32 dxt10_hdr.array_size)
    | none => Selected.nullInfo (toInt32 dxt10_hdr.array_size)
  else Selected.unsupported

end DDS

/-- The last branch of `loadTexture` (a 2D texture, neither a cube map nor
an array): the resource is created in `COPY_DEST`, gets its view, is filled
from the staging buffer and moved to `GENERIC_READ`. `none` when the backing
heap has no free descriptor. -/
def loadTexture2D (d : D3D) (handle format mip_count native staging : Nat) : Option D3D :=
  match d.srv_heap.alloc with
  | none => none
  | some a =>
    let t : Texture :=
      { (d.texture_at handle) with
        dxgi_format := format, resource := native, heap_id := a.1,
        state := D3D12_RESOURCE_STATE_GENERIC_READ }
    let d1 : D3D :=
      { d with
        srv_heap := a.2.2
        textures := d.textures.store handle (firstWord native)
        texture_at := Function.update d.texture_at handle t
        calls := d.calls ++
          [Call.createTextureResource native D3D12_RESOURCE_STATE_COPY_DEST,
           Call.createShaderResourceView native mip_count a.2.1,
           Call.updateSubresources native staging] ++
          switchState native D3D12_RESOURCE_STATE_COPY_DEST D3D12_RESOURCE_STATE_GENERIC_READ }
    some (d1.pushRelease [staging])

/-- The number of mip levels `loadTexture` reads from the header. -/
def DDS.mipCount (hdr : DDS.Header) : Nat :=
  if DDS.hasBit hdr.dwFlags DDS.DDSD_MIPMAPCOUNT then hdr.dwMipMapCount else 1

/-- Whether every `ASSERT` in the subresource loops of `loadTexture` holds:
for a compressed format `ASSERT(size == SlicePitch)` at every mip level, for
the others the `ASSERT(false)` of the branch left as a TODO; with no layer
the loops do not run. -/
def DDS.layoutAsserts (li : DDS.LoadInfo) (layers : Int) (hdr : DDS.Header)
    (internal_format : Nat) : Bool :=
  if layers ≤ 0 then true
  else if li.compressed then
    (List.range (DDS.mipCount hdr)).all (fun mip =>
      let s := DDS.mipSubresource hdr.dwWidth hdr.dwHeight mip internal_format
      s.size == s.SlicePitch)
  else false

/-- Embeds `loadTexture` on the path where `CreateCommittedResource`
succeeds. `asserts` tells whether `ASSERT` is compiled in: if so a failed
`ASSERT` gives `none`, if not execution goes on past it. `none` is also the
result of dereferencing the null `li`. `is_srgb` is the test of
`TextureFlags::SRGB` on `flags`. Otherwise the result is the value returned
and the new context. -/
def loadTexture (asserts : Bool) (d : D3D) (handle : Nat) (hdr : DDS.Header)
    (dxt10_hdr : DDS.DXT10Header) (flags : Nat) (is_srgb : Bool) (native staging : Nat) :
    Option (Bool × D3D) :=
  if DDS.malformed hdr then
    some (false, d.record [Call.logError "Wrong dds format or corrupted dds"])
  else
    match DDS.select hdr dxt10_hdr with
    | DDS.Selected.unsupported => if asserts then none else some (false, d)
    | DDS.Selected.nullInfo _ => none
    | DDS.Selected.info li layers =>
      let internal_format := DDS.internalFormat li is_srgb
      let d1 : D3D :=
        { d with
          texture_at := Function.update d.texture_at handle
            { (d.texture_at handle) with flags := flags } }
      if asserts && !DDS.layoutAsserts li layers hdr internal_format then none
      else if DDS.hasBit hdr.dwCaps2 DDS.DDSCAPS2_CUBEMAP then some (true, d1)
      else if 1 < layers then some (true, d1)
      else
        match loadTexture2D d1 handle internal_format (DDS.mipCount hdr) native staging with
        | none => none
        | some d2 => some (true, d2)

/-! ### Sample contexts with textures -/

/-- The context after `preinit`, `init` on the sample device, two
`allocTextureHandle()` calls (handles 0 and 1), `createTexture` of a 64 x 64
`D32` depth texture without data on handle 0 (resource 700) and of a 64 x 64
`RGBA8` texture with data and mips on handle 1 (resource 701, staging buffer
801). -/
def twoTextures : Option D3D :=
  let d0 := (init sampleEnv preinit).2
  let a0 := allocTextureHandle d0
  let a1 := allocTextureHandle a0.2
  match createTexture a1.2 a0.1 64 64 1 TextureFormat.D32 0 true false false (fun _ => 0)
      700 0 with
  | none => none
  | some r =>
    match createTexture r.1 a1.1 64 64 1 TextureFormat.RGBA8 0 false false true (fun _ => 0)
        701 801 with
    | none => none
    | some q => some q.1

/-- From `twoTextures`: bind texture 1 as colour target and texture 0 as
depth-stencil, read-only or not. -/
def boundFramebuffer (readonly_ds : Bool) : Option D3D :=
  twoTextures.bind (fun d => setFramebuffer d (some [1, 0]) readonly_ds 0)

/-- From `twoTextures`: bind texture 1 as colour target, destroy it, then
bind the back buffer (resource 900). -/
def destroyedAttachment : Option D3D :=
  (twoTextures.bind (fun d => setFramebuffer d (some [1]) false 0)).bind
    (fun d => setFramebuffer (destroyTexture d 1) none false 900)

/-- A well-formed DDS header with the given four-character code. -/
def sampleHeader (fourCC : Nat) : DDS.Header :=
  { dwMagic := DDS.DDS_MAGIC, dwSize := 124, dwFlags := 0x1007, dwHeight := 16, dwWidth := 16,
    pixelFormat := { dwFlags := DDS.DDPF_FOURCC, dwFourCC := fourCC } }

/-- What a `loadTexture` call on handle 1 of `twoTextures` returns and
records; the texture slot is given as it is after the call. -/
def loadSample (asserts : Bool) (hdr : DDS.Header) (dxt10_hdr : DDS.DXT10Header) :
    Option (Bool × List Call × Texture) :=
  twoTextures.bind (fun d =>
    (loadTexture asserts d 1 hdr dxt10_hdr 0 false 702 802).map
      (fun r => (r.1, r.2.calls.drop d.calls.length, r.2.texture_at 1)))

/-! ### Replaying the barriers of a trace -/

/-- Replay state of the texture barriers: the state each created resource
is in according to the trace, and whether every barrier so far started from
that state and changed it. -/
structure StateReplay where
  cur : Nat → Option Nat
  ok : Bool

/-- One call of the trace: a creation puts the resource in its initial
state; a barrier must have `StateBefore` equal to the state the resource is
in and `StateAfter` different from it, and moves the resource to
`StateAfter`. -/
def StateReplay.step (r : StateReplay) : Call → StateReplay
  | Call.createTextureResource resource st =>
    { r with cur := Function.update r.cur resource (some st) }
  | Call.barrier resource before after =>
    { cur := Function.update r.cur resource (some after)
      ok := r.ok && decide (r.cur resource = some before) && decide (after ≠ before) }
  | _ => r

/-- Embeds `map(BufferHandle, size_t)` on the path where `Map` returns
`S_OK`; `ptr` is the address the driver maps the buffer at. `none` when one
of the two `ASSERT`s fails. Returns the mapped pointer. -/
def map (d : D3D) (handle ptr : Nat) : Option (Nat × D3D) :=
  let buffer := d.buffer_at handle
  if buffer.mapped_ptr ≠ 0 then none
  else if ptr = 0 then none
  else
    some (ptr,
      { d with
        buffer_at := Function.update d.buffer_at handle { buffer with mapped_ptr := ptr }
        calls := d.calls ++ [Call.map buffer.buffer] })

/-- Embeds `unmap(BufferHandle)`; `none` when `ASSERT(buffer.mapped_ptr)`
fails. -/
def unmap (d : D3D) (handle : Nat) : Option D3D :=
  let buffer := d.buffer_at handle
  if buffer.mapped_ptr = 0 then none
  else
    some { d with
      buffer_at := Function.update d.buffer_at handle { buffer with mapped_ptr := 0 }
      calls := d.calls ++ [Call.unmap buffer.buffer] }

/-- The sequence `map; unmap; map` on one buffer; the two addresses are what
the driver returns for the two `Map` calls. Returns the two mapped pointers
and the context. -/
def mapUnmapMap (d : D3D) (handle ptr1 ptr2 : Nat) : Option (Nat × Nat × D3D) :=
  match map d handle ptr1 with
  | none => none
  | some r1 =>
    match unmap r1.2 handle with
    | none => none
    | some d2 =>
      match map d2 handle ptr2 with
      | none => none
      | some r3 => some (r1.1, r3.1, r3.2)

/-! ### Index buffers of draws -/

/-- The enumerators of `DataType` that `drawElements` names
(`renderer/gpu/gpu.h` is not part of the sources). -/
inductive DataType where
  | U16 | U32
  deriving DecidableEq, Repr

/-- The variable `offset_shift` of `drawElements` after its switch. -/
def offsetShift : DataType → Nat
  | DataType.U32 => 2
  | DataType.U16 => 1

/-- The index part of `drawElements`: `none` when
`ASSERT((offset_bytes & (offset_shift - 1)) == 0)` fails, else
`ibv.SizeInBytes` and the start index handed to `DrawIndexedInstanced`
(`u32` arithmetic). -/
def drawElements_ibv (offset_bytes count : Nat) (index_type : DataType) : Option (Nat × Nat) :=
  let offset_shift := offsetShift index_type
  if offset_bytes &&& (offset_shift - 1) = 0 then
    some (u32 (u32 (count * 2 ^ offset_shift) + offset_bytes), offset_bytes / 2 ^ offset_shift)
  else none

/-- Size in bytes of one index. -/
def indexSize : DataType → Nat
  | DataType.U32 => 4
  | DataType.U16 => 2

/-! ### Vertex declarations and programs -/

/-- Modelled from the spec: `struct Attribute` of `renderer/gpu/gpu.h`, with
the five fields `addAttribute` assigns. -/
structure Attribute where
  idx : Nat := 0
  byte_offset : Nat := 0
  components_count : Nat := 0
  type : Nat := 0
  flags : Nat := 0
  deriving DecidableEq, Repr

/-- Modelled from the spec: `struct VertexDecl` of `renderer/gpu/gpu.h`, with
the three members `addAttribute` touches. The array `attributes` is a list
of its capacity. -/
structure VertexDecl where
  attributes : List Attribute
  attributes_count : Nat := 0
  hash : Nat := 0
  deriving DecidableEq, Repr

/-- Embeds `VertexDecl::addAttribute` (the same text in both back-ends).
`crc32` is the engine's hash of the bytes of an attribute array;
`asserts` tells whether `ASSERT` is compiled in. The capacity
`lengthOf(attributes)` is the length of the list. -/
def VertexDecl.addAttribute (crc32 : List Attribute → Nat) (asserts : Bool) (decl : VertexDecl)
    (idx byte_offset components_num type flags : Nat) : Option VertexDecl :=
  if decl.attributes_count ≥ decl.attributes.length then
    if asserts then none else some decl
  else
    let attributes := decl.attributes.set decl.attributes_count
      { components_count := components_num, idx := idx, flags := flags, type := type,
        byte_offset := byte_offset }
    some { attributes := attributes
           hash := crc32 (attributes.take decl.attributes_count)
           attributes_count := decl.attributes_count + 1 }

/-- The attributes a declaration holds: `attributes[0 .. attributes_count)`. -/
def VertexDecl.declared (decl : VertexDecl) : List Attribute :=
  decl.attributes.take decl.attributes_count

/-- An empty declaration of capacity 16. -/
def emptyDecl : VertexDecl := { attributes := List.replicate 16 {} }

/-- A toy stand-in for `crc32` of an attribute array, used in examples
only. -/
def sampleAttrHash (attrs : List Attribute) : Nat :=
  (attrs.foldl (fun acc a => 31 * acc + 7 * a.idx + 3 * a.components_count + a.byte_offset + 1)
    5) % 2 ^ 32

/-- The enumerators of `ShaderType` that `createProgram` names
(`renderer/gpu/gpu.h` is not part of the sources). -/
inductive ShaderType where
  | VERTEX | FRAGMENT | GEOMETRY | COMPUTE
  deriving DecidableEq, Repr

/-- The table `attr_defines` of `createProgram`: thirteen entries. -/
def attr_defines : List String :=
  ["#define _HAS_ATTR0\n", "#define _HAS_ATTR1\n", "#define _HAS_ATTR2\n",
   "#define _HAS_ATTR3\n", "#define _HAS_ATTR4\n", "#define _HAS_ATTR5\n",
   "#define _HAS_ATTR6\n", "#define _HAS_ATTR7\n", "#define _HAS_ATTR8\n",
   "#define _HAS_ATTR9\n", "#define _HAS_ATTR10\n", "#define _HAS_ATTR11\n",
   "#define _HAS_ATTR12\n"]

/-- The define `filter_srcs` puts in `tmp[0]` for a stage. -/
def stageDefine : ShaderType → String
  | ShaderType.COMPUTE => "#define LUMIX_COMPUTE_SHADER\n"
  | ShaderType.GEOMETRY => "#define LUMIX_GEOMETRY_SHADER\n"
  | ShaderType.FRAGMENT => "#define LUMIX_FRAGMENT_SHADER\n"
  | ShaderType.VERTEX => "#define LUMIX_VERTEX_SHADER\n"

/-- The reads `attr_defines[decl.attributes[i].idx]` of `filter_srcs`, in
declaration order; `none` when an index is past the table (the code has no
bound check). -/
def attrDefines : List Attribute → Option (List String)
  | [] => some []
  | a :: rest =>
    match attr_defines[a.idx]?, attrDefines rest with
    | some s, some l => some (s :: l)
    | _, _ => none

/-- The sources of one stage, in their given order. -/
def stageSources (srcs : List (String × ShaderType)) (type : ShaderType) : List String :=
  (srcs.filter (fun s => s.2 == type)).map (fun s => s.1)

/-- Embeds the lambda `filter_srcs` of `createProgram`: the first `c`
entries of `tmp` for the count `c` it returns, so the empty list when the
stage has no source (`c = 0`). `none` when a read of `attr_defines` or a
write to the 128 entries of `tmp` is out of bounds. -/
def filter_srcs (decl : VertexDecl) (srcs : List (String × ShaderType)) (prefixes : List String)
    (type : ShaderType) : Option (List String) :=
  match attrDefines decl.declared with
  | none => none
  | some defines =>
    let tmp := [stageDefine type] ++ prefixes ++ defines ++ stageSources srcs type
    if 128 < tmp.length then none
    else if (stageSources srcs type).length = 0 then some []
    else some tmp

/-- The target profile the lambda `compile` hands to `D3DCompile`. -/
def compileProfile (type : ShaderType) : String :=
  if type = ShaderType.VERTEX then "vs_5_0"
  else if type = ShaderType.COMPUTE then "cs_5_0"
  else "ps_5_0"

/-- One `D3DCompile` call: the stage, the profile and the HLSL text. -/
structure Compilation where
  type : ShaderType
  profile : String
  hlsl : String
  deriving DecidableEq, Repr

/-- Embeds the lambda `compile_stage`. `glsl2hlsl` is the cross-compiler,
`d3dCompile` the driver compiler (the blob, or `none` for a failure).
Outer `none`: an out-of-bounds access in `filter_srcs`. Otherwise the value
returned, the blob stored in `*out` (0 for `nullptr`) and the compilation
made, if any. -/
def compile_stage (decl : VertexDecl) (srcs : List (String × ShaderType))
    (prefixes : List String) (glsl2hlsl : List String → ShaderType → Option String)
    (d3dCompile : Compilation → Option Nat) (type : ShaderType) :
    Option (Bool × Nat × List Compilation) :=
  match filter_srcs decl srcs prefixes type with
  | none => none
  | some [] => some (true, 0, [])
  | some tmp =>
    if prefixes.length + decl.attributes_count < tmp.length then
      match glsl2hlsl tmp type with
      | none => some (false, 0, [])
      | some hlsl =>
        let c : Compilation := { type := type, profile := compileProfile type, hlsl := hlsl }
        match d3dCompile c with
        | none => some (false, 0, [c])
        | some blob => some (true, blob, [c])
    else some (false, 0, [])

/-- Embeds the stage part of `createProgram`: the four `compile_stage`
calls in the order `VERTEX`, `FRAGMENT`, `COMPUTE`, `GEOMETRY`, each made
only while the ones before returned true. Returns whether all compiled, the
program and the compilations made, in order. -/
def createProgram (decl : VertexDecl) (srcs : List (String × ShaderType))
    (prefixes : List String) (glsl2hlsl : List String → ShaderType → Option String)
    (d3dCompile : Compilation → Option Nat) : Option (Bool × Program × List Compilation) :=
  let stage := compile_stage decl srcs prefixes glsl2hlsl d3dCompile
  match stage ShaderType.VERTEX with
  | none => none
  | some v =>
    if !v.1 then some (false, { vs := v.2.1 }, v.2.2)
    else
      match stage ShaderType.FRAGMENT with
      | none => none
      | some f =>
        if !f.1 then some (false, { vs := v.2.1, ps := f.2.1 }, v.2.2 ++ f.2.2)
        else
          match stage ShaderType.COMPUTE with
          | none => none
          | some c =>
            if !c.1 then
              some (false, { vs := v.2.1, ps := f.2.1, cs := c.2.1 }, v.2.2 ++ f.2.2 ++ c.2.2)
            else
              match stage ShaderType.GEOMETRY with
              | none => none
              | some g =>
                if !g.1 then
                  some (false, { vs := v.2.1, ps := f.2.1, cs := c.2.1, gs := g.2.1 },
                    v.2.2 ++ f.2.2 ++ c.2.2 ++ g.2.2)
                else
                  some (true,
                    { vs := v.2.1, ps := f.2.1, cs := c.2.1, gs := g.2.1,
                      attribute_count := decl.attributes_count },
                    v.2.2 ++ f.2.2 ++ c.2.2 ++ g.2.2)

/-- A toy cross-compiler for examples: concatenates the strings. -/
def sampleGlsl2hlsl (tmp : List String) (_type : ShaderType) : Option String :=
  some (String.join tmp)

/-- A toy driver compiler for examples: the blob is the length of the text. -/
def sampleD3DCompile (c : Compilation) : Option Nat := some (c.hlsl.length + 1)

/-- A sample SRV ring for examples: 32-byte descriptors, 64 slots a frame. -/
def sampleSrvRing : HeapAllocator :=
  { increment := 32, gpu := 0x1000000, cpu := 0x2000000, gpu_begin := 0x1000000,
    cpu_begin := 0x2000000, backing_begin := 0x3000000, max_count := 64 }

/-- A sample SRV set of two slots: slot 0 empty, slot 1 holds texture 0. -/
def sampleSrvs : List SRV :=
  [{ is_buffer := false, handle := INVALID_HANDLE }, { is_buffer := false, handle := 0 }]

end gpu

/-! ### Mapping buffers in the immediate-mode back-end (ffr_dx.cpp) -/

namespace ffr

/-- Embeds `struct Buffer` of `ffr_dx.cpp`. -/
structure Buffer where
  buffer : Nat := 0
  mapped_ptr : Nat := 0
  persistent : Nat := 0
  is_persistently_mapped : Bool := false
  deriving DecidableEq, Repr

/-- Calls on the device context that `map` and `unmap` make. -/
inductive Call where
  | map (buffer : Nat)
  | unmap (buffer : Nat)
  deriving DecidableEq, Repr

/-- Embeds `map(BufferHandle, size_t offset, size_t size, u32 flags)` on the
buffer slot: `persistent_flag` is the test of `BufferFlags::PERSISTENT`,
`pData` the address the driver maps the buffer at. `none` when an `ASSERT`
fails. Returns the mapped pointer, the slot and the calls made. -/
def map (b : Buffer) (offset : Nat) (persistent_flag : Bool) (pData : Nat) :
    Option (Nat × Buffer × List Call) :=
  if b.mapped_ptr ≠ 0 then none
  else if persistent_flag then
    if b.persistent = 0 then none
    else
      some (u64 (b.persistent + offset),
        { b with is_persistently_mapped := true, mapped_ptr := u64 (b.persistent + offset) }, [])
  else
    some (u64 (pData + offset),
      { b with is_persistently_mapped := false, mapped_ptr := u64 (pData + offset) },
      [Call.map b.buffer])

/-- Embeds `unmap(BufferHandle)` on the buffer slot. -/
def unmap (b : Buffer) : Buffer × List Call :=
  if b.is_persistently_mapped then
    ({ b with mapped_ptr := 0, is_persistently_mapped := false }, [Call.unmap b.buffer])
  else (b, [])

/-- The sequence `map; unmap; map` on one buffer slot with the same flags;
returns the slot and the calls made. -/
def mapUnmapMap (b : Buffer) (offset : Nat) (persistent_flag : Bool) (pData1 pData2 : Nat) :
    Option (Buffer × List Call) :=
  match map b offset persistent_flag pData1 with
  | none => none
  | some r1 =>
    match map (unmap r1.2.1).1 offset persistent_flag pData2 with
    | none => none
    | some r3 => some (r3.2.1, r1.2.2 ++ (unmap r1.2.1).2 ++ r3.2.2)

end ffr

namespace gpu

end gpu

/-! ## Lemmas on slab memory -/

theorem toInt32_of_lt {n : Nat} (h : n < 2 ^ 31) : toInt32 n = (n : Int) := by
  unfold toInt32
  have h1 : n % 2 ^ 32 = n := Nat.mod_eq_of_lt (by omega)
  rw [h1, if_pos h]

theorem slabInit_length (C : Nat) : (slabInit C).length = C := by
  unfold slabInit
  rw [List.length_set, List.length_map, List.length_range]

theorem slotWord_slabInit {C i : Nat} (hi : i < C) :
    slotWord (slabInit C) i = if i = C - 1 then -1 else (i : Int) + 1 := by
  unfold slotWord slabInit
  rw [List.getD_eq_getElem?_getD, List.getElem?_set]
  have hlen : i < ((List.range C).map (fun (i : Nat) => (i : Int) + 1)).length := by
    rw [List.length_map, List.length_range]; exact hi
  by_cases h : C - 1 = i
  · have h2 : i = C - 1 := h.symm
    rw [if_pos h, h, if_pos hlen, if_pos rfl]
    rfl
  · have h2 : ¬ i = C - 1 := fun e => h e.symm
    rw [if_neg h, if_neg h2, List.getElem?_map, List.getElem?_range hi]
    rfl

theorem slotWord_set_ne {values : List Int} {a b : Nat} (w : Int) (h : a ≠ b) :
    slotWord (values.set a w) b = slotWord values b := by
  unfold slotWord
  rw [List.getD_eq_getElem?_getD, List.getD_eq_getElem?_getD, List.getElem?_set_ne h]

theorem slotWord_set_eq {values : List Int} {a : Nat} (w : Int) (h : a < values.length) :
    slotWord (values.set a w) a = w := by
  unfold slotWord
  rw [List.getD_eq_getElem?_getD, List.getElem?_set_self h]
  rfl

theorem isChain_of_freeChain {values : List Int} :
    ∀ (fuel : Nat) (cur : Int) (l : List Nat),
      freeChain values fuel cur = some l → IsChain values cur l := by
  intro fuel
  induction fuel with
  | zero => intro cur l h; simp [freeChain] at h
  | succ n ih =>
    intro cur l h
    unfold freeChain at h
    by_cases h1 : cur = -1
    · rw [if_pos h1] at h
      cases h
      exact h1
    · rw [if_neg h1] at h
      by_cases h2 : 0 ≤ cur ∧ cur.toNat < values.length
      · rw [if_pos h2] at h
        cases hrec : freeChain values n (slotWord values cur.toNat) with
        | none => rw [hrec] at h; simp at h
        | some t =>
          rw [hrec] at h
          simp only [Option.map_some', Option.some.injEq] at h
          subst h
          exact ⟨(Int.toNat_of_nonneg h2.1).symm, h2.2, ih _ _ hrec⟩
      · rw [if_neg h2] at h
        cases h

theorem freeChain_of_isChain {values : List Int} :
    ∀ (l : List Nat) (fuel : Nat) (cur : Int),
      IsChain values cur l → l.length < fuel → freeChain values fuel cur = some l := by
  intro l
  induction l with
  | nil =>
    intro fuel cur h hf
    cases fuel with
    | zero => simp at hf
    | succ n =>
      have h1 : cur = -1 := h
      simp [freeChain, h1]
  | cons a t ih =>
    intro fuel cur h hf
    obtain ⟨h1, h2, h3⟩ := h
    cases fuel with
    | zero => simp at hf
    | succ n =>
      have hlen : t.length < n := by simp at hf; omega
      have hne : ¬ cur = -1 := by omega
      have hrange : 0 ≤ cur ∧ cur.toNat < values.length := by
        subst h1
        exact ⟨Int.ofNat_nonneg a, by simpa using h2⟩
      have hto : cur.toNat = a := by subst h1; simp
      unfold freeChain
      rw [if_neg hne, if_pos hrange, hto, ih n _ h3 hlen]
      rfl

theorem isChain_set {values : List Int} (a : Nat) (w : Int) :
    ∀ (l : List Nat) (cur : Int), a ∉ l → IsChain values cur l →
      IsChain (values.set a w) cur l := by
  intro l
  induction l with
  | nil => intro cur _ h; exact h
  | cons b t ih =>
    intro cur hn h
    obtain ⟨h1, h2, h3⟩ := h
    have hab : a ≠ b := fun e => hn (by simp [e])
    have hat : a ∉ t := fun e => hn (by simp [e])
    refine ⟨h1, by simpa using h2, ?_⟩
    rw [slotWord_set_ne w hab]
    exact ih _ hat h3

theorem length_le_of_nodup_lt {l : List Nat} {C : Nat} (hn : l.Nodup) (hb : ∀ i ∈ l, i < C) :
    l.length ≤ C := by
  have hsub : l ⊆ List.range C := fun i hi => List.mem_range.mpr (hb i hi)
  have := (List.subperm_of_subset hn hsub).length_le
  simpa using this

/-- The relational reading of `SlabWF`. -/
theorem slabWF_iff {C : Nat} {values : List Int} {ff : Int} {live : List Nat} :
    SlabWF C values ff live ↔
      (values.length = C ∧ live.Nodup ∧ (∀ i ∈ live, i < C) ∧
        ∃ l, IsChain values ff l ∧ l.Nodup ∧ ∀ i, i ∈ l ↔ (i < C ∧ i ∉ live)) := by
  constructor
  · rintro ⟨h1, h2, h3, l, h4, h5, h6⟩
    exact ⟨h1, h2, h3, l, isChain_of_freeChain _ _ _ h4, h5, h6⟩
  · rintro ⟨h1, h2, h3, l, h4, h5, h6⟩
    have hlen : l.length ≤ C := length_le_of_nodup_lt h5 (fun i hi => ((h6 i).mp hi).1)
    exact ⟨h1, h2, h3, l, freeChain_of_isChain _ _ _ h4 (by omega), h5, h6⟩

theorem isChain_slabInit (C : Nat) :
    ∀ (n k : Nat), k + n = C → IsChain (slabInit C) (if n = 0 then -1 else (k : Int))
      (List.range' k n) := by
  intro n
  induction n with
  | zero => intro k _; simp [IsChain]
  | succ m ih =>
    intro k hk
    have hkC : k < C := by omega
    rw [List.range'_succ]
    refine ⟨by simp, by rw [slabInit_length]; exact hkC, ?_⟩
    rw [slotWord_slabInit hkC]
    have := ih (k + 1) (by omega)
    by_cases hm : m = 0
    · subst hm
      have hk1 : k = C - 1 := by omega
      rw [if_pos hk1]
      simpa using this
    · have hk1 : ¬ k = C - 1 := by omega
      rw [if_neg hk1]
      rw [if_neg hm] at this
      simpa using this

theorem slabWF_init {C : Nat} (hC : 0 < C) : SlabWF C (slabInit C) 0 [] := by
  rw [slabWF_iff]
  refine ⟨slabInit_length C, List.nodup_nil, by simp, List.range' 0 C, ?_, ?_, ?_⟩
  · have := isChain_slabInit C C 0 (by omega)
    rw [if_neg (by omega)] at this
    simpa using this
  · exact List.nodup_range' 0 C
  · intro i
    simp [List.mem_range']

theorem slabWF_pop {C : Nat} {values : List Int} {ff : Int} {live : List Nat}
    (h : SlabWF C values ff live) (hne : ff ≠ -1) :
    0 ≤ ff ∧ ff.toNat < C ∧ ff.toNat ∉ live ∧
      SlabWF C values (slotWord values ff.toNat) (ff.toNat :: live) := by
  rw [slabWF_iff] at h
  obtain ⟨h1, h2, h3, l, h4, h5, h6⟩ := h
  cases l with
  | nil => exact absurd h4 hne
  | cons a t =>
    obtain ⟨c1, c2, c3⟩ := h4
    have hto : ff.toNat = a := by subst c1; simp
    have ha := (h6 a).mp (by simp)
    rw [hto]
    refine ⟨by omega, ha.1, ha.2, ?_⟩
    rw [slabWF_iff]
    refine ⟨h1, List.nodup_cons.mpr ⟨ha.2, h2⟩, ?_, t, c3, (List.nodup_cons.mp h5).2, ?_⟩
    · intro i hi
      rcases List.mem_cons.mp hi with e | e
      · rw [e]; exact ha.1
      · exact h3 i e
    · intro i
      have hnot : a ∉ t := (List.nodup_cons.mp h5).1
      constructor
      · intro hi
        have := (h6 i).mp (List.mem_cons_of_mem _ hi)
        refine ⟨this.1, ?_⟩
        intro hmem
        rcases List.mem_cons.mp hmem with e | e
        · exact hnot (e ▸ hi)
        · exact this.2 e
      · rintro ⟨hi1, hi2⟩
        have hia : i ≠ a := fun e => hi2 (by simp [e])
        have hil : i ∉ live := fun e => hi2 (List.mem_cons_of_mem _ e)
        have := (h6 i).mpr ⟨hi1, hil⟩
        rcases List.mem_cons.mp this with e | e
        · exact absurd e hia
        · exact e

theorem slabWF_store {C : Nat} {values : List Int} {ff : Int} {live : List Nat}
    (h : SlabWF C values ff live) {i : Nat} (hi : i ∈ live) (w : Int) :
    SlabWF C (values.set i w) ff live := by
  rw [slabWF_iff] at h ⊢
  obtain ⟨h1, h2, h3, l, h4, h5, h6⟩ := h
  have hnot : i ∉ l := fun e => ((h6 i).mp e).2 hi
  exact ⟨by simpa using h1, h2, h3, l, isChain_set i w l ff hnot h4, h5, h6⟩

theorem slabWF_push {C : Nat} {values : List Int} {ff : Int} {live : List Nat}
    (h : SlabWF C values ff live) {i : Nat} (hi : i ∈ live) (hC : C < 2 ^ 31) :
    SlabWF C (values.set i ff) (toInt32 i) (live.erase i) := by
  rw [slabWF_iff] at h ⊢
  obtain ⟨h1, h2, h3, l, h4, h5, h6⟩ := h
  have hiC : i < C := h3 i hi
  have hnot : i ∉ l := fun e => ((h6 i).mp e).2 hi
  rw [toInt32_of_lt (by omega)]
  refine ⟨by simpa using h1, h2.erase i, fun j hj => h3 j (List.mem_of_mem_erase hj),
    i :: l, ⟨rfl, by simpa [h1] using hiC, ?_⟩, List.nodup_cons.mpr ⟨hnot, h5⟩, ?_⟩
  · rw [slotWord_set_eq _ (by omega)]
    exact isChain_set i ff l ff hnot h4
  · intro j
    rw [List.mem_cons, h6 j, h2.mem_erase_iff]
    constructor
    · rintro (e | ⟨e1, e2⟩)
      · subst e; exact ⟨hiC, fun e => e.1 rfl⟩
      · exact ⟨e1, fun e => e2 e.2⟩
    · rintro ⟨e1, e2⟩
      by_cases hji : j = i
      · exact Or.inl hji
      · exact Or.inr ⟨e1, fun e => e2 ⟨hji, e⟩⟩

/-! ## Lemmas on the two pools -/

theorem ffr_Pool_wf_create {C : Nat} (hC : 0 < C) : (ffr.Pool.create C).WF [] :=
  slabWF_init hC

theorem gpu_Pool_wf_init {C : Nat} (hC : 0 < C) : (gpu.Pool.init C).WF [] :=
  ⟨slabWF_init hC, rfl⟩

theorem ffr_runOps_wf {C : Nat} (hC : C < 2 ^ 31) :
    ∀ (ops : List ffr.PoolOp) (p : ffr.Pool C) (live : List Nat),
      p.WF live → ffr.validOps p live ops = true →
      (ffr.runOps p live ops).1.WF (ffr.runOps p live ops).2 := by
  intro ops
  induction ops with
  | nil => intro p live h _; exact h
  | cons op ops ih =>
    intro p live h hv
    cases op with
    | alloc =>
      simp only [ffr.runOps, ffr.validOps] at hv ⊢
      by_cases hff : p.first_free = -1
      · have hr : p.alloc = (-1, p) := by simp [ffr.Pool.alloc, hff]
        rw [hr] at hv ⊢
        simp only [if_pos] at hv ⊢
        exact ih p live h hv
      · have hr : p.alloc = (p.first_free,
            { p with first_free := slotWord p.values p.first_free.toNat }) := by
          simp [ffr.Pool.alloc, hff]
        rw [hr] at hv ⊢
        simp only [if_neg hff] at hv ⊢
        exact ih _ _ (slabWF_pop h hff).2.2.2 hv
    | dealloc idx =>
      simp only [ffr.runOps, ffr.validOps, Bool.and_eq_true, decide_eq_true_eq] at hv ⊢
      exact ih _ _ (slabWF_push h hv.1 hC) hv.2
    | store idx w =>
      simp only [ffr.runOps, ffr.validOps, Bool.and_eq_true, decide_eq_true_eq] at hv ⊢
      exact ih _ _ (slabWF_store h hv.1 w) hv.2

theorem slabWF_live_length {C : Nat} {values : List Int} {ff : Int} {live : List Nat}
    (h : SlabWF C values ff live) : live.length ≤ C :=
  length_le_of_nodup_lt h.2.1 h.2.2.1

theorem gpu_Pool_wf_alloc {C : Nat} (hC : C < 2 ^ 31) {p : gpu.Pool C} {live : List Nat}
    (h : p.WF live) (hff : p.first_free ≠ -1) (w : Int) :
    (p.alloc w).1 = p.first_free ∧
      (p.alloc w).2.WF (p.first_free.toNat :: live) := by
  have hr : p.alloc w = (p.first_free,
      { values := p.values.set p.first_free.toNat w,
        first_free := slotWord p.values p.first_free.toNat,
        count := u32 (p.count + 1) }) := by
    simp [gpu.Pool.alloc, hff]
  rw [hr]
  have hpop := slabWF_pop h.1 hff
  have hwf := slabWF_store hpop.2.2.2 (List.mem_cons_self _ _) w
  refine ⟨rfl, hwf, ?_⟩
  have hlen := slabWF_live_length hwf
  simp only [List.length_cons] at hlen ⊢
  show u32 (p.count + 1) = live.length + 1
  rw [h.2]
  unfold u32
  exact Nat.mod_eq_of_lt (by omega)

theorem gpu_Pool_wf_dealloc {C : Nat} (hC : C < 2 ^ 31) {p : gpu.Pool C} {live : List Nat}
    (h : p.WF live) {i : Nat} (hi : i ∈ live) :
    (p.dealloc i).WF (live.erase i) := by
  refine ⟨slabWF_push h.1 hi hC, ?_⟩
  have hlen := slabWF_live_length h.1
  have hpos : 0 < live.length := List.length_pos_of_mem hi
  show u32 (p.count + 2 ^ 32 - 1) = (live.erase i).length
  rw [List.length_erase_of_mem hi, h.2]
  unfold u32
  omega

theorem gpu_runOps_wf {C : Nat} (hC : C < 2 ^ 31) :
    ∀ (ops : List gpu.PoolOp) (p : gpu.Pool C) (live : List Nat),
      p.WF live → gpu.validOps p live ops = true →
      (gpu.runOps p live ops).1.WF (gpu.runOps p live ops).2 := by
  intro ops
  induction ops with
  | nil => intro p live h _; exact h
  | cons op ops ih =>
    intro p live h hv
    cases op with
    | alloc w =>
      simp only [gpu.runOps, gpu.validOps] at hv ⊢
      by_cases hff : p.first_free = -1
      · have hr : p.alloc w = (-1, p) := by simp [gpu.Pool.alloc, hff]
        rw [hr] at hv ⊢
        simp only [if_pos] at hv ⊢
        exact ih p live h hv
      · have ha := gpu_Pool_wf_alloc hC h hff w
        rw [ha.1] at hv ⊢
        simp only [if_neg hff] at hv ⊢
        exact ih _ _ ha.2 hv
    | dealloc idx =>
      simp only [gpu.runOps, gpu.validOps, Bool.and_eq_true, decide_eq_true_eq] at hv ⊢
      exact ih _ _ (gpu_Pool_wf_dealloc hC h hv.1) hv.2
    | store idx w =>
      simp only [gpu.runOps, gpu.validOps, Bool.and_eq_true, decide_eq_true_eq] at hv ⊢
      exact ih _ _ ⟨slabWF_store h.1 hv.1 w, h.2⟩ hv.2

/-- In a well-formed state `alloc` hands out `-1` or an index that is in
range and not live. -/
theorem slabWF_head_not_live {C : Nat} {values : List Int} {ff : Int} {live : List Nat}
    (h : SlabWF C values ff live) :
    ff = -1 ∨ (0 ≤ ff ∧ ff.toNat < C ∧ ff.toNat ∉ live) := by
  by_cases hff : ff = -1
  · exact Or.inl hff
  · have := slabWF_pop h hff
    exact Or.inr ⟨this.1, this.2.1, this.2.2.1⟩

theorem ffr_Pool_alloc_fst {C : Nat} (p : ffr.Pool C) : p.alloc.1 = p.first_free := by
  unfold ffr.Pool.alloc
  by_cases h : p.first_free = -1
  · rw [if_pos h, h]
  · rw [if_neg h]

theorem gpu_Pool_alloc_fst {C : Nat} (p : gpu.Pool C) (w : Int) :
    (p.alloc w).1 = p.first_free := by
  unfold gpu.Pool.alloc
  by_cases h : p.first_free = -1
  · rw [if_pos h, h]
  · rw [if_neg h]

theorem ffr_Pool_freshAfter_create (C : Nat) (hC : 0 < C) :
    (ffr.Pool.create C).FreshAfter 0 := by
  refine ⟨?_, slabInit_length C, fun j _ hj => slotWord_slabInit hj⟩
  show (0 : Int) = if 0 < C then ((0 : Nat) : Int) else -1
  rw [if_pos hC]; rfl

theorem gpu_Pool_freshAfter_init (C : Nat) (hC : 0 < C) :
    (gpu.Pool.init C).FreshAfter 0 := by
  refine ⟨?_, slabInit_length C, rfl, fun j _ hj => slotWord_slabInit hj⟩
  show (0 : Int) = if 0 < C then ((0 : Nat) : Int) else -1
  rw [if_pos hC]; rfl

theorem ffr_Pool_freshAfter_alloc {C k : Nat} {p : ffr.Pool C} (h : p.FreshAfter k)
    (hk : k < C) : p.alloc.1 = (k : Int) ∧ p.alloc.2.FreshAfter (k + 1) := by
  obtain ⟨h1, h2, h3⟩ := h
  rw [if_pos hk] at h1
  have hne : ¬ p.first_free = -1 := by omega
  have hr : p.alloc = (p.first_free,
      { p with first_free := slotWord p.values p.first_free.toNat }) := by
    simp [ffr.Pool.alloc, hne]
  rw [hr, h1]
  refine ⟨rfl, ?_, h2, fun j hj1 hj2 => h3 j (by omega) hj2⟩
  show slotWord p.values ((k : Int)).toNat = _
  rw [Int.toNat_ofNat, h3 k (le_refl k) hk]
  by_cases hk1 : k = C - 1
  · rw [if_pos hk1, if_neg (by omega)]
  · rw [if_neg hk1, if_pos (by omega)]
    push_cast; rfl

theorem gpu_Pool_freshAfter_alloc {C k : Nat} {p : gpu.Pool C} (h : p.FreshAfter k)
    (hk : k < C) (hC : C < 2 ^ 31) (w : Int) :
    (p.alloc w).1 = (k : Int) ∧ (p.alloc w).2.FreshAfter (k + 1) := by
  obtain ⟨h1, h2, hc, h3⟩ := h
  rw [if_pos hk] at h1
  have hne : ¬ p.first_free = -1 := by omega
  have hr : p.alloc w = (p.first_free,
      { values := p.values.set p.first_free.toNat w,
        first_free := slotWord p.values p.first_free.toNat,
        count := u32 (p.count + 1) }) := by
    simp [gpu.Pool.alloc, hne]
  rw [hr, h1]
  refine ⟨rfl, ?_, by simpa using h2, ?_, ?_⟩
  · show slotWord p.values ((k : Int)).toNat = _
    rw [Int.toNat_ofNat, h3 k (le_refl k) hk]
    by_cases hk1 : k = C - 1
    · rw [if_pos hk1, if_neg (by omega)]
    · rw [if_neg hk1, if_pos (by omega)]
      push_cast; rfl
  · show u32 (p.count + 1) = k + 1
    rw [hc]; unfold u32
    exact Nat.mod_eq_of_lt (by omega)
  · intro j hj1 hj2
    show slotWord (p.values.set ((k : Int)).toNat w) j = _
    rw [Int.toNat_ofNat, slotWord_set_ne w (by omega)]
    exact h3 j (by omega) hj2

theorem ffr_allocN_fresh {C : Nat} :
    ∀ (n k : Nat) (p : ffr.Pool C), k + n ≤ C → p.FreshAfter k →
      (ffr.allocN n p).1 = (List.range' k n).map (fun (i : Nat) => (i : Int)) ∧
      (ffr.allocN n p).2.FreshAfter (k + n) := by
  intro n
  induction n with
  | zero => intro k p _ h; exact ⟨rfl, h⟩
  | succ m ih =>
    intro k p hk h
    have ha := ffr_Pool_freshAfter_alloc h (by omega)
    have hrec := ih (k + 1) p.alloc.2 (by omega) ha.2
    simp only [ffr.allocN, List.range'_succ, List.map_cons]
    rw [ha.1, hrec.1]
    refine ⟨rfl, ?_⟩
    have e : k + (m + 1) = k + 1 + m := by omega
    rw [e]; exact hrec.2

theorem gpu_allocN_fresh {C : Nat} (hC : C < 2 ^ 31) :
    ∀ (ws : List Int) (k : Nat) (p : gpu.Pool C), k + ws.length ≤ C → p.FreshAfter k →
      (gpu.allocN ws p).1 = (List.range' k ws.length).map (fun (i : Nat) => (i : Int)) ∧
      (gpu.allocN ws p).2.FreshAfter (k + ws.length) := by
  intro ws
  induction ws with
  | nil => intro k p _ h; exact ⟨rfl, h⟩
  | cons w ws ih =>
    intro k p hk h
    simp only [List.length_cons] at hk
    have ha := gpu_Pool_freshAfter_alloc h (by omega) hC w
    have hrec := ih (k + 1) (p.alloc w).2 (by omega) ha.2
    simp only [gpu.allocN, List.length_cons, List.range'_succ, List.map_cons]
    rw [ha.1, hrec.1]
    refine ⟨rfl, ?_⟩
    have e : k + (ws.length + 1) = k + 1 + ws.length := by omega
    rw [e]; exact hrec.2

theorem nodup_map_natCast (l : List Nat) (h : l.Nodup) :
    (l.map (fun (i : Nat) => (i : Int))).Nodup :=
  List.Nodup.map (fun a b e => by simpa using e) h

/-! ## Slab pool: claims C1 - C3 -/

/-- C1. For both pools of capacity `C`: after `create`/`init` and any call
sequence in which every `dealloc` (and every client write) targets a live
index, the walk of the in-slot links from `first_free` ends at `-1` and
visits exactly the non-live indices of `[0, C)`, each once (in the DX12 pool
`count` is the number of live indices); so the next `alloc` returns `-1` or
an index that is not live. -/
theorem pool_free_list_invariant (C : Nat) (hpos : 0 < C) (hC : C < 2 ^ 31) :
    (∀ ops : List ffr.PoolOp, ffr.validOps (ffr.Pool.create C) [] ops = true →
      let r := ffr.runOps (ffr.Pool.create C) [] ops
      (∃ l, freeChain r.1.values (C + 1) r.1.first_free = some l ∧ l.Nodup ∧
        ∀ i, i ∈ l ↔ (i < C ∧ i ∉ r.2)) ∧
      (r.1.alloc.1 = -1 ∨
        (0 ≤ r.1.alloc.1 ∧ r.1.alloc.1.toNat < C ∧ r.1.alloc.1.toNat ∉ r.2))) ∧
    (∀ ops : List gpu.PoolOp, gpu.validOps (gpu.Pool.init C) [] ops = true →
      let r := gpu.runOps (gpu.Pool.init C) [] ops
      (∃ l, freeChain r.1.values (C + 1) r.1.first_free = some l ∧ l.Nodup ∧
        ∀ i, i ∈ l ↔ (i < C ∧ i ∉ r.2)) ∧
      r.2.Nodup ∧ r.1.count = r.2.length ∧
      (∀ w, (r.1.alloc w).1 = -1 ∨
        (0 ≤ (r.1.alloc w).1 ∧ (r.1.alloc w).1.toNat < C ∧ (r.1.alloc w).1.toNat ∉ r.2))) := by
  constructor
  · intro ops hv
    have h := ffr_runOps_wf hC ops _ _ (ffr_Pool_wf_create hpos) hv
    refine ⟨h.2.2.2, ?_⟩
    rw [ffr_Pool_alloc_fst]
    exact slabWF_head_not_live h
  · intro ops hv
    have h := gpu_runOps_wf hC ops _ _ (gpu_Pool_wf_init hpos) hv
    refine ⟨h.1.2.2.2, h.1.2.1, h.2, ?_⟩
    intro w
    rw [gpu_Pool_alloc_fst]
    exact slabWF_head_not_live h.1

/-- Witness of C1 at capacity 3 with allocations, a write and a release. -/
theorem pool_free_list_invariant_witness :
    (0 < 3 ∧ 3 < 2 ^ 31 ∧
      ffr.validOps (ffr.Pool.create 3) []
        [ffr.PoolOp.alloc, ffr.PoolOp.alloc, ffr.PoolOp.store 1 7, ffr.PoolOp.dealloc 0,
          ffr.PoolOp.alloc, ffr.PoolOp.alloc] = true ∧
      gpu.validOps (gpu.Pool.init 3) []
        [gpu.PoolOp.alloc 5, gpu.PoolOp.alloc 6, gpu.PoolOp.dealloc 0,
          gpu.PoolOp.alloc 9] = true) ∧
    (∃ l, freeChain (ffr.runOps (ffr.Pool.create 3) []
        [ffr.PoolOp.alloc, ffr.PoolOp.alloc, ffr.PoolOp.store 1 7, ffr.PoolOp.dealloc 0,
          ffr.PoolOp.alloc, ffr.PoolOp.alloc]).1.values 4
        (ffr.runOps (ffr.Pool.create 3) []
        [ffr.PoolOp.alloc, ffr.PoolOp.alloc, ffr.PoolOp.store 1 7, ffr.PoolOp.dealloc 0,
          ffr.PoolOp.alloc, ffr.PoolOp.alloc]).1.first_free = some l ∧ l.Nodup) ∧
    (gpu.runOps (gpu.Pool.init 3) []
        [gpu.PoolOp.alloc 5, gpu.PoolOp.alloc 6, gpu.PoolOp.dealloc 0,
          gpu.PoolOp.alloc 9]).1.count = 2 := by
  have h := pool_free_list_invariant 3 (by decide) (by decide)
  have h1 := h.1 [ffr.PoolOp.alloc, ffr.PoolOp.alloc, ffr.PoolOp.store 1 7,
    ffr.PoolOp.dealloc 0, ffr.PoolOp.alloc, ffr.PoolOp.alloc] (by decide)
  have h2 := h.2 [gpu.PoolOp.alloc 5, gpu.PoolOp.alloc 6, gpu.PoolOp.dealloc 0,
    gpu.PoolOp.alloc 9] (by decide)
  refine ⟨⟨by decide, by decide, by decide, by decide⟩, ?_, ?_⟩
  · obtain ⟨l, hl1, hl2, _⟩ := h1.1
    exact ⟨l, hl1, hl2⟩
  · rw [h2.2.2.1]; decide

/-- C2. From a freshly created pool of capacity `C`, `C` successive `alloc`
calls return `0, 1, ..., C-1` in this order (pairwise distinct), the next
`alloc` returns `-1` and leaves the whole pool state unchanged, and in every
state `isFull()` holds exactly when `alloc` returns `-1`. -/
theorem pool_fresh_alloc_sequence (C : Nat) (hpos : 0 < C) (hC : C < 2 ^ 31) :
    ((ffr.allocN C (ffr.Pool.create C)).1 = (List.range C).map (fun (i : Nat) => (i : Int)) ∧
      (ffr.allocN C (ffr.Pool.create C)).1.Nodup ∧
      (ffr.allocN C (ffr.Pool.create C)).2.alloc = (-1, (ffr.allocN C (ffr.Pool.create C)).2) ∧
      ∀ q : ffr.Pool C, q.isFull = true ↔ q.alloc.1 = -1) ∧
    (∀ ws : List Int, ws.length = C →
      ((gpu.allocN ws (gpu.Pool.init C)).1 = (List.range C).map (fun (i : Nat) => (i : Int)) ∧
       (gpu.allocN ws (gpu.Pool.init C)).1.Nodup ∧
       (∀ w, (gpu.allocN ws (gpu.Pool.init C)).2.alloc w =
          (-1, (gpu.allocN ws (gpu.Pool.init C)).2)))) ∧
    (∀ (q : gpu.Pool C) (w : Int), q.isFull = true ↔ (q.alloc w).1 = -1) := by
  refine ⟨?_, ?_, ?_⟩
  · have h := ffr_allocN_fresh C 0 (ffr.Pool.create C) (by omega)
      (ffr_Pool_freshAfter_create C hpos)
    rw [← List.range_eq_range'] at h
    refine ⟨h.1, ?_, ?_, ?_⟩
    · rw [h.1]; exact nodup_map_natCast _ (List.nodup_range C)
    · have hff := h.2.1
      rw [if_neg (by omega)] at hff
      simp [ffr.Pool.alloc, hff]
    · intro q
      rw [ffr_Pool_alloc_fst]
      simp [ffr.Pool.isFull]
  · intro ws hws
    have h := gpu_allocN_fresh hC ws 0 (gpu.Pool.init C) (by omega)
      (gpu_Pool_freshAfter_init C hpos)
    rw [hws, ← List.range_eq_range'] at h
    refine ⟨h.1, ?_, ?_⟩
    · rw [h.1]; exact nodup_map_natCast _ (List.nodup_range C)
    · intro w
      have hff := h.2.1
      rw [if_neg (by omega)] at hff
      simp [gpu.Pool.alloc, hff]
  · intro q w
    rw [gpu_Pool_alloc_fst]
    simp [gpu.Pool.isFull]

/-- Witness of C2 at capacity 4. -/
theorem pool_fresh_alloc_sequence_witness :
    (0 < 4 ∧ 4 < 2 ^ 31 ∧ [10, 11, 12, 13].length = 4) ∧
    (ffr.allocN 4 (ffr.Pool.create 4)).1 = [0, 1, 2, 3] ∧
    (gpu.allocN [10, 11, 12, 13] (gpu.Pool.init 4)).1 = [0, 1, 2, 3] ∧
    (gpu.allocN [10, 11, 12, 13] (gpu.Pool.init 4)).2.alloc 14 =
      (-1, (gpu.allocN [10, 11, 12, 13] (gpu.Pool.init 4)).2) := by
  have h := pool_fresh_alloc_sequence 4 (by decide) (by decide)
  have h2 := h.2.1 [10, 11, 12, 13] rfl
  refine ⟨⟨by decide, by decide, rfl⟩, ?_, ?_, h2.2.2 14⟩
  · rw [h.1.1]; rfl
  · rw [h2.1]; rfl

/-- C3. In a well-formed pool state, for a live index `i`, `dealloc(i)`
followed at once by `alloc` returns `i` (also when the pool was full), and
the state after the pair differs from the state before at most in the
contents of slot `i`. -/
theorem pool_dealloc_alloc_lifo (C : Nat) (hC : C < 2 ^ 31) :
    (∀ (p : ffr.Pool C) (live : List Nat) (i : Nat), p.WF live → i ∈ live →
      ((p.dealloc i).alloc).1 = (i : Int) ∧
      ((p.dealloc i).alloc).2.first_free = p.first_free ∧
      ((p.dealloc i).alloc).2.values.length = p.values.length ∧
      (∀ j, j ≠ i → ((p.dealloc i).alloc).2.values[j]? = p.values[j]?) ∧
      ((p.dealloc i).alloc).2.WF live) ∧
    (∀ (p : gpu.Pool C) (live : List Nat) (i : Nat) (w : Int), p.WF live → i ∈ live →
      ((p.dealloc i).alloc w).1 = (i : Int) ∧
      ((p.dealloc i).alloc w).2.first_free = p.first_free ∧
      ((p.dealloc i).alloc w).2.count = p.count ∧
      ((p.dealloc i).alloc w).2.values.length = p.values.length ∧
      (∀ j, j ≠ i → ((p.dealloc i).alloc w).2.values[j]? = p.values[j]?) ∧
      ((p.dealloc i).alloc w).2.WF live) := by
  constructor
  · intro p live i h hi
    have hiC : i < C := h.2.2.1 i hi
    have hlen : p.values.length = C := h.1
    have hto : toInt32 i = (i : Int) := toInt32_of_lt (by omega)
    have hne : ¬ ((i : Int) = -1) := by omega
    have hr : (p.dealloc i).alloc = ((i : Int),
        { values := p.values.set i p.first_free, first_free := p.first_free }) := by
      simp only [ffr.Pool.dealloc, ffr.Pool.alloc, hto, if_neg hne, Int.toNat_ofNat]
      rw [slotWord_set_eq _ (by omega)]
    rw [hr]
    refine ⟨rfl, rfl, by simp, fun j hj => ?_, ?_⟩
    · show (p.values.set i p.first_free)[j]? = p.values[j]?
      rw [List.getElem?_set_ne (Ne.symm hj)]
    · exact slabWF_store h hi p.first_free
  · intro p live i w h hi
    have hiC : i < C := h.1.2.2.1 i hi
    have hlen : p.values.length = C := h.1.1
    have hto : toInt32 i = (i : Int) := toInt32_of_lt (by omega)
    have hne : ¬ ((i : Int) = -1) := by omega
    have hcnt : u32 (u32 (p.count + 2 ^ 32 - 1) + 1) = p.count := by
      have h1 := slabWF_live_length h.1
      have h2 : 0 < live.length := List.length_pos_of_mem hi
      rw [h.2]; unfold u32; omega
    have hr : (p.dealloc i).alloc w = ((i : Int),
        { values := (p.values.set i p.first_free).set i w, first_free := p.first_free,
          count := p.count }) := by
      simp only [gpu.Pool.dealloc, gpu.Pool.alloc, hto, if_neg hne, Int.toNat_ofNat, hcnt]
      rw [slotWord_set_eq _ (by omega)]
    rw [hr]
    refine ⟨rfl, rfl, rfl, by simp, fun j hj => ?_, ?_, h.2⟩
    · show ((p.values.set i p.first_free).set i w)[j]? = p.values[j]?
      rw [List.getElem?_set_ne (Ne.symm hj), List.getElem?_set_ne (Ne.symm hj)]
    · exact slabWF_store (slabWF_store h.1 hi p.first_free) hi w

/-- Witness of C3 on full pools of capacity 3 (all three slots live). -/
theorem pool_dealloc_alloc_lifo_witness :
    (3 < 2 ^ 31 ∧ 1 ∈ [2, 1, 0] ∧ (⟨[1, 2, -1], -1⟩ : ffr.Pool 3).WF [2, 1, 0] ∧
      (⟨[40, 41, 42], -1, 3⟩ : gpu.Pool 3).WF [2, 1, 0]) ∧
    (((⟨[1, 2, -1], -1⟩ : ffr.Pool 3).dealloc 1).alloc).1 = 1 ∧
    (((⟨[1, 2, -1], -1⟩ : ffr.Pool 3).dealloc 1).alloc).2.first_free = -1 ∧
    (((⟨[40, 41, 42], -1, 3⟩ : gpu.Pool 3).dealloc 1).alloc 77).1 = 1 ∧
    (((⟨[40, 41, 42], -1, 3⟩ : gpu.Pool 3).dealloc 1).alloc 77).2.count = 3 := by
  have h := pool_dealloc_alloc_lifo 3 (by decide)
  have wf1 : (⟨[1, 2, -1], -1⟩ : ffr.Pool 3).WF [2, 1, 0] :=
    ⟨rfl, by decide, by decide, [], rfl, by decide, by intro i; simp; omega⟩
  have wf2 : (⟨[40, 41, 42], -1, 3⟩ : gpu.Pool 3).WF [2, 1, 0] :=
    ⟨⟨rfl, by decide, by decide, [], rfl, by decide, by intro i; simp; omega⟩, rfl⟩
  have h1 := h.1 _ [2, 1, 0] 1 wf1 (by decide)
  have h2 := h.2 _ [2, 1, 0] 1 77 wf2 (by decide)
  exact ⟨⟨by decide, by decide, wf1, wf2⟩, h1.1, h1.2.1, h2.1, h2.2.2.1⟩

/-! ## Handle allocation: claim C4 -/

theorem toU32_natCast {k : Nat} (h : k < 2 ^ 32) : toU32 (k : Int) = k := by
  unfold toU32
  have : ((k : Int) % 2 ^ 32) = (k : Int) := Int.emod_eq_of_lt (by omega) (by omega)
  rw [this]; simp

theorem ffr_Pool_freshAfter_store {C k : Nat} {p : ffr.Pool C} (h : p.FreshAfter (k + 1))
    (w : Int) : (p.store k w).FreshAfter (k + 1) := by
  obtain ⟨h1, h2, h3⟩ := h
  refine ⟨h1, by simpa [ffr.Pool.store] using h2, fun j hj1 hj2 => ?_⟩
  show slotWord (p.values.set k w) j = _
  rw [slotWord_set_ne w (by omega)]
  exact h3 j hj1 hj2

theorem ffr_allocBufferHandle_fresh {k : Nat} {d : ffr.D3D} (h : d.buffers.FreshAfter k)
    (hk : k < 256) :
    (ffr.allocBufferHandle d).1 = k ∧ (ffr.allocBufferHandle d).2.buffers.FreshAfter (k + 1) ∧
      (ffr.allocBufferHandle d).2.log = d.log := by
  have ha := ffr_Pool_freshAfter_alloc h hk
  have hff : d.buffers.first_free = (k : Int) := by rw [h.1, if_pos hk]
  have hfull : d.buffers.isFull = false := by
    simp only [ffr.Pool.isFull, hff, decide_eq_false_iff_not]; omega
  unfold ffr.allocBufferHandle
  simp only [hfull, Bool.false_eq_true, if_false]
  rw [ha.1]
  refine ⟨toU32_natCast (by omega), ?_, trivial⟩
  rw [Int.toNat_ofNat]
  exact ffr_Pool_freshAfter_store ha.2 0

theorem ffr_allocBufferHandles_fresh :
    ∀ (n k : Nat) (d : ffr.D3D), k + n ≤ 256 → d.buffers.FreshAfter k →
      (ffr.allocBufferHandles n d).1 = List.range' k n ∧
      (ffr.allocBufferHandles n d).2.buffers.FreshAfter (k + n) ∧
      (ffr.allocBufferHandles n d).2.log = d.log := by
  intro n
  induction n with
  | zero => intro k d _ h; exact ⟨rfl, h, rfl⟩
  | succ m ih =>
    intro k d hk h
    have ha := ffr_allocBufferHandle_fresh h (by omega)
    have hrec := ih (k + 1) (ffr.allocBufferHandle d).2 (by omega) ha.2.1
    simp only [ffr.allocBufferHandles, List.range'_succ]
    rw [ha.1, hrec.1]
    refine ⟨rfl, ?_, by rw [hrec.2.2, ha.2.2]⟩
    have e : k + (m + 1) = k + 1 + m := by omega
    rw [e]; exact hrec.2.1

theorem ffr_allocBufferHandle_full {d : ffr.D3D} (h : d.buffers.FreshAfter 256) :
    ffr.allocBufferHandle d =
      (INVALID_HANDLE, { d with log := d.log ++ ["FFR is out of free buffer slots."] }) := by
  have hff : d.buffers.first_free = -1 := by rw [h.1, if_neg (by omega)]
  have hfull : d.buffers.isFull = true := by simp [ffr.Pool.isFull, hff]
  unfold ffr.allocBufferHandle
  simp only [hfull, if_true]

theorem gpu_allocBufferHandle_fresh {k : Nat} {d : gpu.D3D} (h : d.buffers.FreshAfter k)
    (hk : k < 8192) :
    (gpu.allocBufferHandle d).1 = k ∧ (gpu.allocBufferHandle d).2.buffers.FreshAfter (k + 1) ∧
      (gpu.allocBufferHandle d).2.calls = d.calls := by
  have ha := gpu_Pool_freshAfter_alloc h hk (by norm_num) 0
  have hff : d.buffers.first_free = (k : Int) := by rw [h.1, if_pos hk]
  have hfull : d.buffers.isFull = false := by
    simp only [gpu.Pool.isFull, hff, decide_eq_false_iff_not]; omega
  unfold gpu.allocBufferHandle
  simp only [hfull, Bool.false_eq_true, if_false]
  rw [ha.1]
  exact ⟨toU32_natCast (by omega), ha.2, trivial⟩

theorem gpu_allocBufferHandles_fresh :
    ∀ (n k : Nat) (d : gpu.D3D), k + n ≤ 8192 → d.buffers.FreshAfter k →
      (gpu.allocBufferHandles n d).1 = List.range' k n ∧
      (gpu.allocBufferHandles n d).2.buffers.FreshAfter (k + n) ∧
      (gpu.allocBufferHandles n d).2.calls = d.calls := by
  intro n
  induction n with
  | zero => intro k d _ h; exact ⟨rfl, h, rfl⟩
  | succ m ih =>
    intro k d hk h
    have ha := gpu_allocBufferHandle_fresh h (by omega)
    have hrec := ih (k + 1) (gpu.allocBufferHandle d).2 (by omega) ha.2.1
    simp only [gpu.allocBufferHandles, List.range'_succ]
    rw [ha.1, hrec.1]
    refine ⟨rfl, ?_, by rw [hrec.2.2, ha.2.2]⟩
    have e : k + (m + 1) = k + 1 + m := by omega
    rw [e]; exact hrec.2.1

theorem gpu_allocBufferHandle_full {d : gpu.D3D} (h : d.buffers.FreshAfter 8192) :
    (gpu.allocBufferHandle d).1 = INVALID_HANDLE ∧
      (gpu.allocBufferHandle d).2.calls =
        d.calls ++ [gpu.Call.logError "Not enough free buffer slots."] ∧
      (gpu.allocBufferHandle d).2.buffers = d.buffers := by
  have hff : d.buffers.first_free = -1 := by rw [h.1, if_neg (by omega)]
  have hfull : d.buffers.isFull = true := by simp [gpu.Pool.isFull, hff]
  unfold gpu.allocBufferHandle
  simp only [hfull, if_true]
  trivial

theorem isValid_of_lt {k : Nat} (h : k < 0xFFFFFFFF) : isValid k = true := by
  unfold isValid INVALID_HANDLE
  simp only [decide_eq_true_eq]
  omega

/-- C4 (as amended). From a freshly pre-initialised context: in the
immediate-mode back-end the first 256 `allocBufferHandle` calls return the
valid, pairwise distinct handles `0 .. 255` and log nothing, and the 257th
returns the invalid handle and logs exactly one error; in the DX12 back-end
the buffer pool holds 8192 slots, so the same holds with the first 8192
calls and the 8193rd. -/
theorem allocBufferHandle_exhaustion :
    ((ffr.allocBufferHandles 256 ffr.preinit).1 = List.range 256 ∧
      (ffr.allocBufferHandles 256 ffr.preinit).1.Nodup ∧
      (∀ h ∈ (ffr.allocBufferHandles 256 ffr.preinit).1, isValid h = true) ∧
      (ffr.allocBufferHandles 256 ffr.preinit).2.log = [] ∧
      (ffr.allocBufferHandle (ffr.allocBufferHandles 256 ffr.preinit).2).1 = INVALID_HANDLE ∧
      isValid (ffr.allocBufferHandle (ffr.allocBufferHandles 256 ffr.preinit).2).1 = false ∧
      (ffr.allocBufferHandle (ffr.allocBufferHandles 256 ffr.preinit).2).2.log =
        ["FFR is out of free buffer slots."]) ∧
    ((gpu.allocBufferHandles 8192 gpu.preinit).1 = List.range 8192 ∧
      (gpu.allocBufferHandles 8192 gpu.preinit).1.Nodup ∧
      (∀ h ∈ (gpu.allocBufferHandles 8192 gpu.preinit).1, isValid h = true) ∧
      (gpu.allocBufferHandles 8192 gpu.preinit).2.calls = [] ∧
      (gpu.allocBufferHandle (gpu.allocBufferHandles 8192 gpu.preinit).2).1 = INVALID_HANDLE ∧
      isValid (gpu.allocBufferHandle (gpu.allocBufferHandles 8192 gpu.preinit).2).1 = false ∧
      (gpu.allocBufferHandle (gpu.allocBufferHandles 8192 gpu.preinit).2).2.calls =
        [gpu.Call.logError "Not enough free buffer slots."]) := by
  constructor
  · have h := ffr_allocBufferHandles_fresh 256 0 ffr.preinit (by omega)
      (ffr_Pool_freshAfter_create 256 (by omega))
    rw [← List.range_eq_range'] at h
    have hfull := ffr_allocBufferHandle_full h.2.1
    refine ⟨h.1, ?_, ?_, h.2.2, ?_, ?_, ?_⟩
    · rw [h.1]; exact List.nodup_range 256
    · intro x hx
      rw [h.1, List.mem_range] at hx
      exact isValid_of_lt (by omega)
    · rw [hfull]
    · rw [hfull]; rfl
    · rw [hfull]
      show (ffr.allocBufferHandles 256 ffr.preinit).2.log ++ _ = _
      rw [h.2.2]; rfl
  · have h := gpu_allocBufferHandles_fresh 8192 0 gpu.preinit (by omega)
      (gpu_Pool_freshAfter_init 8192 (by omega))
    rw [← List.range_eq_range'] at h
    have hfull := gpu_allocBufferHandle_full h.2.1
    refine ⟨h.1, ?_, ?_, h.2.2, hfull.1, ?_, ?_⟩
    · rw [h.1]; exact List.nodup_range 8192
    · intro x hx
      rw [h.1, List.mem_range] at hx
      exact isValid_of_lt (by omega)
    · rw [hfull.1]; rfl
    · rw [hfull.2.1, h.2.2]; rfl

/-- C4 as stated fails in the DX12 back-end: after 256 allocations from a
freshly pre-initialised context the 257th `allocBufferHandle` returns the
valid handle 256 and logs nothing. -/
theorem allocBufferHandle_dx12_257th_valid :
    (gpu.allocBufferHandle (gpu.allocBufferHandles 256 gpu.preinit).2).1 = 256 ∧
    isValid (gpu.allocBufferHandle (gpu.allocBufferHandles 256 gpu.preinit).2).1 = true ∧
    (gpu.allocBufferHandle (gpu.allocBufferHandles 256 gpu.preinit).2).1 ≠ INVALID_HANDLE ∧
    (gpu.allocBufferHandle (gpu.allocBufferHandles 256 gpu.preinit).2).2.calls = [] := by
  have h := gpu_allocBufferHandles_fresh 256 0 gpu.preinit (by omega)
    (gpu_Pool_freshAfter_init 8192 (by omega))
  have h1 := gpu_allocBufferHandle_fresh h.2.1 (by omega)
  refine ⟨h1.1, ?_, ?_, ?_⟩
  · rw [h1.1]; rfl
  · rw [h1.1]; decide
  · rw [h1.2.2, h.2.2]; rfl

/-! ## Frame ring: claims C5 and C6 -/

theorem frame_wait_fst (i : Nat) (f : gpu.Frame) :
    (gpu.Frame.wait i f).1 = { f with fence_event := none } := by
  unfold gpu.Frame.wait
  cases h : f.fence_event with
  | none => simp only []; cases f; simp_all
  | some v => rfl

theorem frame_wait_snd (i : Nat) (f : gpu.Frame) :
    (gpu.Frame.wait i f).2 =
      match f.fence_event with
      | none => []
      | some v => [gpu.Call.waitForSingleObject i v] := by
  unfold gpu.Frame.wait
  cases h : f.fence_event <;> rfl

theorem waitFrame_frame (d : gpu.D3D) (i : Nat) : (gpu.waitFrame d i).frame = d.frame := rfl

theorem waitFrame_frames_count (d : gpu.D3D) (i : Nat) :
    (gpu.waitFrame d i).frames_count = d.frames_count := rfl

theorem waitFrame_fence_value (d : gpu.D3D) (i : Nat) :
    (gpu.waitFrame d i).fence_value = d.fence_value := rfl

theorem waitFrame_fence_event (d : gpu.D3D) (i g : Nat) :
    ((gpu.waitFrame d i).frames g).fence_event =
      if g = i then none else (d.frames g).fence_event := by
  show ((Function.update d.frames i (gpu.Frame.wait i (d.frames i)).1) g).fence_event = _
  by_cases h : g = i
  · subst h; rw [Function.update_same, frame_wait_fst, if_pos rfl]
  · rw [Function.update_noteq h, if_neg h]

theorem waitFrame_calls (d : gpu.D3D) (i : Nat) :
    (gpu.waitFrame d i).calls = d.calls ++
      match (d.frames i).fence_event with
      | none => []
      | some v => [gpu.Call.waitForSingleObject i v] := by
  show d.calls ++ (gpu.Frame.wait i (d.frames i)).2 = _
  rw [frame_wait_snd]

theorem waitFrame_framesWF {d : gpu.D3D} (i : Nat) (h : d.FramesWF) :
    (gpu.waitFrame d i).FramesWF := by
  refine ⟨h.1, h.2.1, ?_⟩
  rw [waitFrame_frame, waitFrame_fence_event]
  by_cases e : d.frame = i
  · rw [if_pos e]
  · rw [if_neg e]; exact h.2.2

theorem endFrame_eq (d : gpu.D3D) (h : (d.frames d.frame).fence_event = none) :
    d.endFrame = some { d with
      frames := Function.update d.frames d.frame
        { (d.frames d.frame) with fence_event := some (u64 (d.fence_value + 1)) }
      fence_value := u64 (d.fence_value + 1)
      calls := d.calls ++ [gpu.Call.executeCommandLists d.frame,
        gpu.Call.signal (u64 (d.fence_value + 1)),
        gpu.Call.setEventOnCompletion d.frame (u64 (d.fence_value + 1))] } := by
  unfold gpu.D3D.endFrame gpu.Frame.end
  simp only [h]

theorem endFrame_none (d : gpu.D3D) (v : Nat) (h : (d.frames d.frame).fence_event = some v) :
    d.endFrame = none := by
  unfold gpu.D3D.endFrame gpu.Frame.end
  simp only [h]

theorem endFrame_fields {d d1 : gpu.D3D} (he : d.endFrame = some d1)
    (hn : (d.frames d.frame).fence_event = none) :
    d1.frame = d.frame ∧ d1.frames_count = d.frames_count ∧
      d1.fence_value = u64 (d.fence_value + 1) := by
  rw [endFrame_eq d hn] at he
  cases he
  exact ⟨rfl, rfl, rfl⟩

theorem beginFrame_fence_event (d : gpu.D3D) (g : Nat) :
    (d.beginFrame.frames g).fence_event =
      if g = d.frame then none else (d.frames g).fence_event := by
  show ((Function.update d.frames d.frame (gpu.Frame.begin d.frame (d.frames d.frame)).1)
    g).fence_event = _
  by_cases e : g = d.frame
  · subst e
    rw [Function.update_same, if_pos rfl]
    show (gpu.Frame.wait _ _).1.fence_event = none
    rw [frame_wait_fst]
  · rw [Function.update_noteq e, if_neg e]

theorem beginFrame_calls (d : gpu.D3D) :
    d.beginFrame.calls = d.calls ++
      ((match (d.frames d.frame).fence_event with
        | none => []
        | some v => [gpu.Call.waitForSingleObject d.frame v]) ++
       (d.frames d.frame).to_release.map (gpu.Call.release d.frame)) := by
  show d.calls ++ (gpu.Frame.begin d.frame (d.frames d.frame)).2 = _
  unfold gpu.Frame.begin
  simp only [frame_wait_snd, frame_wait_fst]

theorem resetFrame_fence_event (d : gpu.D3D) (g : Nat) :
    (d.resetFrame.frames g).fence_event = (d.frames g).fence_event := by
  show ((Function.update d.frames d.frame _) g).fence_event = _
  by_cases e : g = d.frame
  · subst e; rw [Function.update_same]
  · rw [Function.update_noteq e]

theorem resetFrame_calls (d : gpu.D3D) :
    d.resetFrame.calls = d.calls ++ [gpu.Call.resetCommandAllocator d.frame] := rfl

theorem nextIndex_facts {f : Nat} (h : f < gpu.NUM_BACKBUFFERS) :
    gpu.nextIndex f < gpu.NUM_BACKBUFFERS ∧ gpu.nextIndex f ≠ f ∧
      gpu.nextIndex (gpu.nextIndex f) ≠ f ∧
      gpu.nextIndex (gpu.nextIndex f) ≠ gpu.nextIndex f ∧
      gpu.nextIndex (gpu.nextIndex (gpu.nextIndex f)) = f := by
  unfold gpu.NUM_BACKBUFFERS at h
  have h0 : f = 0 ∨ f = 1 ∨ f = 2 := by omega
  rcases h0 with e | e | e <;> subst e <;> decide

theorem advanceFrame_frame {d : gpu.D3D} (h : d.frames_count = gpu.NUM_BACKBUFFERS) :
    d.advanceFrame.frame = gpu.nextIndex d.frame := by
  show (if d.frame + 1 ≥ d.frames_count then 0 else d.frame + 1) = _
  rw [h]; rfl

theorem replay_append (a b : List gpu.Call) :
    gpu.replay (a ++ b) = b.foldl gpu.Replay.step (gpu.replay a) := by
  unfold gpu.replay
  rw [List.foldl_append]

theorem replay_releases (f : Nat) :
    ∀ (l : List Nat) (r : gpu.Replay), r.pending f = none →
      ((l.map (gpu.Call.release f)).foldl gpu.Replay.step r).ok = r.ok ∧
      ((l.map (gpu.Call.release f)).foldl gpu.Replay.step r).pending = r.pending := by
  intro l
  induction l with
  | nil => intro r _; exact ⟨rfl, rfl⟩
  | cons x xs ih =>
    intro r hr
    have h := ih (gpu.Replay.step r (gpu.Call.release f x)) hr
    simp only [List.map_cons, List.foldl_cons]
    rw [h.1, h.2]
    refine ⟨?_, rfl⟩
    show (r.ok && (r.pending f).isNone) = r.ok
    rw [hr]; simp

theorem waitFrame_consistent {d : gpu.D3D} (i : Nat) (h : gpu.Consistent d) :
    gpu.Consistent (gpu.waitFrame d i) := by
  obtain ⟨h1, h2⟩ := h
  unfold gpu.Consistent
  rw [waitFrame_calls, replay_append]
  cases hev : (d.frames i).fence_event with
  | none =>
    refine ⟨h1, fun g => ?_⟩
    rw [waitFrame_fence_event]
    by_cases e : g = i
    · rw [if_pos e, e]
      show (gpu.replay d.calls).pending i = none
      rw [h2 i, hev]
    · rw [if_neg e]; exact h2 g
  | some v =>
    refine ⟨?_, fun g => ?_⟩
    · show ((gpu.replay d.calls).ok && decide ((gpu.replay d.calls).pending i = some v)) = true
      rw [h1, h2 i, hev]; simp
    · rw [waitFrame_fence_event]
      show (Function.update (gpu.replay d.calls).pending i none) g = _
      by_cases e : g = i
      · rw [if_pos e, e, Function.update_same]
      · rw [if_neg e, Function.update_noteq e]; exact h2 g

theorem waitAll_consistent :
    ∀ (n : Nat) (d : gpu.D3D), gpu.Consistent d → gpu.Consistent (gpu.waitAll n d) := by
  intro n
  induction n with
  | zero => intro d h; exact h
  | succ m ih => intro d h; exact waitFrame_consistent m (ih d h)

theorem waitAll_fields :
    ∀ (n : Nat) (d : gpu.D3D), (gpu.waitAll n d).frame = d.frame ∧
      (gpu.waitAll n d).frames_count = d.frames_count ∧
      (gpu.waitAll n d).fence_value = d.fence_value ∧
      ((d.frames d.frame).fence_event = none →
        ((gpu.waitAll n d).frames d.frame).fence_event = none) := by
  intro n
  induction n with
  | zero => intro d; exact ⟨rfl, rfl, rfl, fun h => h⟩
  | succ m ih =>
    intro d
    obtain ⟨h1, h2, h3, h4⟩ := ih d
    refine ⟨h1, h2, h3, fun h => ?_⟩
    show ((gpu.waitFrame (gpu.waitAll m d) m).frames d.frame).fence_event = none
    rw [waitFrame_fence_event]
    by_cases e : d.frame = m
    · rw [if_pos e]
    · rw [if_neg e]; exact h4 h

theorem endFrame_consistent {d d1 : gpu.D3D} (he : d.endFrame = some d1)
    (hn : (d.frames d.frame).fence_event = none) (h : gpu.Consistent d) :
    gpu.Consistent d1 := by
  rw [endFrame_eq d hn] at he
  cases he
  obtain ⟨h1, h2⟩ := h
  unfold gpu.Consistent
  refine ⟨?_, fun g => ?_⟩
  · show (gpu.replay (d.calls ++ _)).ok = true
    rw [replay_append]
    exact h1
  · show (gpu.replay (d.calls ++ _)).pending g = ((Function.update d.frames d.frame _) g).fence_event
    rw [replay_append]
    show (Function.update (gpu.replay d.calls).pending d.frame
      (some (u64 (d.fence_value + 1)))) g = _
    by_cases e : g = d.frame
    · rw [e, Function.update_same, Function.update_same]
    · rw [Function.update_noteq e, Function.update_noteq e]; exact h2 g

theorem beginFrame_consistent {d : gpu.D3D} (h : gpu.Consistent d) :
    gpu.Consistent d.beginFrame := by
  obtain ⟨h1, h2⟩ := h
  unfold gpu.Consistent
  rw [beginFrame_calls, replay_append, List.foldl_append]
  cases hev : (d.frames d.frame).fence_event with
  | none =>
    have hp : (gpu.replay d.calls).pending d.frame = none := by rw [h2, hev]
    have hr := replay_releases d.frame (d.frames d.frame).to_release (gpu.replay d.calls) hp
    simp only [List.foldl_nil]
    rw [hr.1, hr.2]
    refine ⟨h1, fun g => ?_⟩
    rw [beginFrame_fence_event]
    by_cases e : g = d.frame
    · rw [if_pos e, e]; exact hp
    · rw [if_neg e]; exact h2 g
  | some v =>
    have hp : (gpu.Replay.step (gpu.replay d.calls)
        (gpu.Call.waitForSingleObject d.frame v)).pending d.frame = none := by
      show (Function.update (gpu.replay d.calls).pending d.frame none) d.frame = none
      rw [Function.update_same]
    have hr := replay_releases d.frame (d.frames d.frame).to_release _ hp
    simp only [List.foldl_cons, List.foldl_nil]
    rw [hr.1, hr.2]
    refine ⟨?_, fun g => ?_⟩
    · show ((gpu.replay d.calls).ok &&
        decide ((gpu.replay d.calls).pending d.frame = some v)) = true
      rw [h1, h2, hev]; simp
    · rw [beginFrame_fence_event]
      show (Function.update (gpu.replay d.calls).pending d.frame none) g = _
      by_cases e : g = d.frame
      · rw [if_pos e, e, Function.update_same]
      · rw [if_neg e, Function.update_noteq e]; exact h2 g

theorem resetFrame_consistent {d : gpu.D3D} (hn : (d.frames d.frame).fence_event = none)
    (h : gpu.Consistent d) : gpu.Consistent d.resetFrame := by
  obtain ⟨h1, h2⟩ := h
  unfold gpu.Consistent
  rw [resetFrame_calls, replay_append]
  refine ⟨?_, fun g => ?_⟩
  · show ((gpu.replay d.calls).ok && ((gpu.replay d.calls).pending d.frame).isNone) = true
    rw [h1, h2, hn]; rfl
  · rw [resetFrame_fence_event]
    exact h2 g

/-- One `swapBuffers` from a well-formed, consistent context. -/
theorem swapBuffers_consistent {d : gpu.D3D} (b : Bool) (hwf : d.FramesWF)
    (h : gpu.Consistent d) :
    ∃ s, gpu.swapBuffers d b = some (d.frame, s) ∧ s.FramesWF ∧ gpu.Consistent s ∧
      s.fence_value = u64 (d.fence_value + 1) ∧ s.frame = gpu.nextIndex d.frame ∧
      (s.frames s.frame).scratch_buffer_ptr = (s.frames s.frame).scratch_buffer_begin := by
  have he := endFrame_eq d hwf.2.2
  obtain ⟨d1, hd1⟩ : ∃ d1, d.endFrame = some d1 := ⟨_, he⟩
  have hfields := endFrame_fields hd1 hwf.2.2
  have hc1 := endFrame_consistent hd1 hwf.2.2 h
  have hc3 : gpu.Consistent d1.advanceFrame.beginFrame :=
    beginFrame_consistent (d := d1.advanceFrame) hc1
  have hframe3 : d1.advanceFrame.beginFrame.frame = gpu.nextIndex d.frame := by
    show d1.advanceFrame.frame = _
    rw [advanceFrame_frame (by rw [hfields.2.1]; exact hwf.1), hfields.1]
  have hcount3 : d1.advanceFrame.beginFrame.frames_count = gpu.NUM_BACKBUFFERS := by
    show d1.frames_count = _
    rw [hfields.2.1]; exact hwf.1
  have hnone3 : (d1.advanceFrame.beginFrame.frames d1.advanceFrame.beginFrame.frame).fence_event
      = none := by
    rw [beginFrame_fence_event]
    exact if_pos rfl
  have key : ∀ d4 : gpu.D3D, gpu.Consistent d4 → d4.frame = gpu.nextIndex d.frame →
      d4.frames_count = gpu.NUM_BACKBUFFERS → (d4.frames d4.frame).fence_event = none →
      d4.fence_value = u64 (d.fence_value + 1) →
      d4.resetFrame.FramesWF ∧ gpu.Consistent d4.resetFrame ∧
      d4.resetFrame.fence_value = u64 (d.fence_value + 1) ∧
      d4.resetFrame.frame = gpu.nextIndex d.frame ∧
      (d4.resetFrame.frames d4.resetFrame.frame).scratch_buffer_ptr =
        (d4.resetFrame.frames d4.resetFrame.frame).scratch_buffer_begin := by
    intro d4 c4 f4 n4 e4 v4
    refine ⟨⟨n4, ?_, ?_⟩, resetFrame_consistent e4 c4, v4, f4, ?_⟩
    · show d4.frame < _
      rw [f4]; exact (nextIndex_facts hwf.2.1).1
    · rw [resetFrame_fence_event]; exact e4
    · show ((Function.update d4.frames d4.frame _) d4.frame).scratch_buffer_ptr =
        ((Function.update d4.frames d4.frame _) d4.frame).scratch_buffer_begin
      rw [Function.update_same]
  cases b with
  | false =>
    refine ⟨d1.advanceFrame.beginFrame.resetFrame, ?_,
      key _ hc3 hframe3 hcount3 hnone3 hfields.2.2⟩
    unfold gpu.swapBuffers
    rw [hd1]
    rfl
  | true =>
    have hw := waitAll_fields d1.advanceFrame.beginFrame.frames_count d1.advanceFrame.beginFrame
    refine ⟨(gpu.waitAll d1.advanceFrame.beginFrame.frames_count
      d1.advanceFrame.beginFrame).resetFrame, ?_,
      key _ (waitAll_consistent _ _ hc3) (by rw [hw.1]; exact hframe3)
        (by rw [hw.2.1]; exact hcount3) (by rw [hw.1]; exact hw.2.2.2 hnone3)
        (by rw [hw.2.2.1]; exact hfields.2.2)⟩
    unfold gpu.swapBuffers
    rw [hd1]
    rfl

/-- The trace check is not vacuous: resetting a frame's allocator while the
event of its last submission is outstanding is rejected, and so is
releasing its queue. -/
theorem retiredBeforeReuse_rejects_early_reuse :
    gpu.retiredBeforeReuse [gpu.Call.setEventOnCompletion 0 1,
      gpu.Call.resetCommandAllocator 0] = false ∧
    gpu.retiredBeforeReuse [gpu.Call.setEventOnCompletion 0 1, gpu.Call.release 0 7] = false ∧
    gpu.retiredBeforeReuse [gpu.Call.setEventOnCompletion 0 1,
      gpu.Call.waitForSingleObject 0 1, gpu.Call.release 0 7,
      gpu.Call.resetCommandAllocator 0] = true := by
  refine ⟨rfl, rfl, rfl⟩

theorem runFrameOps_spec :
    ∀ (ops : List gpu.FrameOp) (d : gpu.D3D), d.FramesWF → gpu.Consistent d →
      d.fence_value < 2 ^ 64 →
      ∃ s, gpu.runFrameOps d ops = some s ∧ s.FramesWF ∧ gpu.Consistent s ∧
        s.fence_value = u64 (d.fence_value + gpu.countSwaps ops) := by
  intro ops
  induction ops with
  | nil =>
    intro d hwf hc hv
    refine ⟨d, rfl, hwf, hc, ?_⟩
    simp only [gpu.countSwaps, Nat.add_zero]
    unfold u64
    omega
  | cons op ops ih =>
    intro d hwf hc hv
    cases op with
    | swapBuffers b =>
      obtain ⟨s1, e1, w1, c1, v1, _⟩ := swapBuffers_consistent b hwf hc
      obtain ⟨s, e, w, c, v⟩ := ih s1 w1 c1 (by rw [v1]; unfold u64; omega)
      refine ⟨s, ?_, w, c, ?_⟩
      · simp only [gpu.runFrameOps, e1]
        exact e
      · rw [v, v1]
        simp only [gpu.countSwaps]
        unfold u64
        omega
    | waitFrame i =>
      obtain ⟨s, e, w, c, v⟩ := ih (gpu.waitFrame d i.val) (waitFrame_framesWF i.val hwf)
        (waitFrame_consistent i.val hc) hv
      exact ⟨s, e, w, c, v⟩

theorem init_preinit_frames (env : gpu.DeviceEnv) :
    (gpu.init env gpu.preinit).1 = true ∧
    (gpu.init env gpu.preinit).2.FramesWF ∧ gpu.Consistent (gpu.init env gpu.preinit).2 ∧
      (gpu.init env gpu.preinit).2.fence_value = 0 := by
  refine ⟨rfl, ⟨rfl, (by decide : 0 < gpu.NUM_BACKBUFFERS), ?_⟩, ⟨rfl, fun g => ?_⟩, rfl⟩
  · show ((gpu.init env gpu.preinit).2.frames 0).fence_event = none
    simp [gpu.init, gpu.preinit, gpu.Frame.init, gpu.NUM_BACKBUFFERS]
  · show none = ((gpu.init env gpu.preinit).2.frames g).fence_event
    simp only [gpu.init, gpu.preinit, gpu.Frame.init, Bool.false_eq_true, if_false]
    split <;> rfl

/-- C6. After `preinit` and a successful `init`, for every sequence of
`swapBuffers` (with or without a window resize) and `waitFrame` calls: no
`ASSERT` fails; in the trace every release of a frame's queue and every
reset of its command allocator and scratch pointer comes after the wait on
the event that frame registered at its last submission; the current frame
has no event registered, so a further `swapBuffers` passes the
`ASSERT(!fence_event)` of `Frame::end`, adds exactly 1 to `fence_value` and
leaves the new current frame's scratch pointer at its base; and
`fence_value` is the number of `swapBuffers` calls made (modulo `2^64`). -/
theorem frame_reuse_after_wait (env : gpu.DeviceEnv) (ops : List gpu.FrameOp) :
    ∃ s, gpu.runFrameOps (gpu.init env gpu.preinit).2 ops = some s ∧
      gpu.retiredBeforeReuse s.calls = true ∧
      (s.frames s.frame).fence_event = none ∧
      s.fence_value = u64 (gpu.countSwaps ops) ∧
      ∀ b, ∃ s1, gpu.swapBuffers s b = some (s.frame, s1) ∧
        gpu.retiredBeforeReuse s1.calls = true ∧
        s1.fence_value = u64 (s.fence_value + 1) ∧
        (s1.frames s1.frame).fence_event = none ∧
        (s1.frames s1.frame).scratch_buffer_ptr = (s1.frames s1.frame).scratch_buffer_begin := by
  have h0 := init_preinit_frames env
  obtain ⟨s, e, w, c, v⟩ := runFrameOps_spec ops _ h0.2.1 h0.2.2.1 (by rw [h0.2.2.2]; norm_num)
  refine ⟨s, e, c.1, w.2.2, ?_, fun b => ?_⟩
  · rw [v, h0.2.2.2, Nat.zero_add]
  · obtain ⟨s1, e1, w1, c1, v1, _, p1⟩ := swapBuffers_consistent b w c
    exact ⟨s1, e1, c1.1, v1, w1.2.2, p1⟩

/-! ## Descriptor rings: claims C7 and C8 -/

theorem u32_of_lt {n : Nat} (h : n < 2 ^ 32) : u32 n = n := Nat.mod_eq_of_lt h

theorem u64_of_lt {n : Nat} (h : n < 2 ^ 64) : u64 n = n := Nat.mod_eq_of_lt h

/-- Arithmetic of a ring layout: offsets of slots stay below the heap size. -/
theorem ring_offset_bound {f c m i : Nat} (hf : f < 3) (hc : c ≤ m) :
    f * m * i + c * i ≤ 3 * m * i ∧ f * m * i ≤ 3 * m * i ∧ f * m ≤ 3 * m ∧
      (f * m + c) * i = f * m * i + c * i := by
  have h1 : c * i ≤ m * i := Nat.mul_le_mul_right i hc
  have h2 : f * m * i = f * (m * i) := Nat.mul_assoc f m i
  have h3 : 3 * m * i = 3 * (m * i) := Nat.mul_assoc 3 m i
  have h4 : f * (m * i) + m * i ≤ 3 * (m * i) := by
    have : (f + 1) * (m * i) ≤ 3 * (m * i) := Nat.mul_le_mul_right _ (by omega)
    rw [Nat.add_mul, Nat.one_mul] at this
    exact this
  refine ⟨by omega, by omega, Nat.mul_le_mul_right m (by omega), Nat.add_mul _ _ _⟩

theorem le_mul_of_pos_right {a i : Nat} (hi : 0 < i) : a ≤ a * i :=
  Nat.le_mul_of_pos_right a hi

theorem ring_cursor {h : gpu.HeapAllocator} (hr : h.Ring) {c : Nat} (hc : c ≤ h.max_count) :
    u64 (h.cpu + u32 (c * h.increment)) = h.slotAddr (h.frame * h.max_count + c) ∧
    u64 (h.gpu + u32 (c * h.increment)) =
      h.gpu_begin + (h.frame * h.max_count + c) * h.increment ∧
    c + 1 < 2 ^ 32 := by
  obtain ⟨h1, h2, h3, h4, h5, h6, h7, h8⟩ := hr
  unfold gpu.NUM_BACKBUFFERS at h1 h4 h5 h6
  have hb := ring_offset_bound (i := h.increment) h1 hc
  have hci : c * h.increment < 2 ^ 32 := by omega
  have hm : h.max_count ≤ h.max_count * h.increment := le_mul_of_pos_right h3
  have hm3 : 3 * h.max_count * h.increment = 3 * (h.max_count * h.increment) :=
    Nat.mul_assoc _ _ _
  refine ⟨?_, ?_, by omega⟩
  · rw [u32_of_lt hci, h8, u64_of_lt (by omega)]
    unfold gpu.HeapAllocator.slotAddr
    rw [hb.2.2.2]; omega
  · rw [u32_of_lt hci, h7, u64_of_lt (by omega), hb.2.2.2]; omega

theorem ring_nextFrame {h : gpu.HeapAllocator} (hr : h.Ring) :
    h.nextFrame.frame = (h.frame + 1) % 3 ∧ h.nextFrame.count = 0 ∧ h.nextFrame.Ring ∧
      h.nextFrame.max_count = h.max_count ∧ h.nextFrame.increment = h.increment ∧
      h.nextFrame.gpu_begin = h.gpu_begin ∧ h.nextFrame.cpu_begin = h.cpu_begin ∧
      h.nextFrame.free_list = h.free_list := by
  obtain ⟨h1, h2, h3, h4, h5, h6, h7, h8⟩ := hr
  have hfr : h.nextFrame.frame = (h.frame + 1) % 3 := by
    show u32 (h.frame + 1) % gpu.NUM_BACKBUFFERS = _
    unfold gpu.NUM_BACKBUFFERS at h1 ⊢
    rw [u32_of_lt (by omega)]
  have hlt : (h.frame + 1) % 3 < 3 := Nat.mod_lt _ (by omega)
  unfold gpu.NUM_BACKBUFFERS at h4 h5 h6
  have hb := ring_offset_bound (i := h.increment) (m := h.max_count) hlt (Nat.zero_le _)
  have hm : 3 * h.max_count ≤ 3 * h.max_count * h.increment := le_mul_of_pos_right h3
  have hoff : u32 (u32 ((h.frame + 1) % 3 * h.max_count) * h.increment) =
      (h.frame + 1) % 3 * h.max_count * h.increment := by
    have e1 : u32 ((h.frame + 1) % 3 * h.max_count) = (h.frame + 1) % 3 * h.max_count :=
      u32_of_lt (by omega)
    rw [e1]
    exact u32_of_lt (by omega)
  refine ⟨hfr, rfl, ⟨by rw [hfr]; exact hlt, Nat.zero_le _, h3, h4, h5, h6, ?_, ?_⟩,
    rfl, rfl, rfl, rfl, rfl⟩
  · show u64 (h.gpu_begin + u32 (u32 (h.nextFrame.frame * h.max_count) * h.increment)) =
      h.gpu_begin + h.nextFrame.frame * h.max_count * h.increment
    rw [hfr, hoff, u64_of_lt (by omega)]
  · show u64 (h.cpu_begin + u32 (u32 (h.nextFrame.frame * h.max_count) * h.increment)) =
      h.cpu_begin + h.nextFrame.frame * h.max_count * h.increment
    rw [hfr, hoff, u64_of_lt (by omega)]

theorem ring_withCount {h : gpu.HeapAllocator} (hr : h.Ring) {c : Nat}
    (hc : c ≤ h.max_count) : ({ h with count := c } : gpu.HeapAllocator).Ring := by
  obtain ⟨h1, _, h3, h4, h5, h6, h7, h8⟩ := hr
  exact ⟨h1, hc, h3, h4, h5, h6, h7, h8⟩

theorem ring_inWindow {h : gpu.HeapAllocator} {c : Nat} (hc : c < h.max_count) :
    h.inWindow (h.frame * h.max_count + c) := by
  unfold gpu.HeapAllocator.inWindow
  rw [Nat.add_mul, Nat.one_mul]
  omega

theorem ring_copy {h : gpu.HeapAllocator} (hr : h.Ring) (id : Nat) :
    (h.count < h.max_count →
      h.copy id = some ({ h with count := h.count + 1 },
        h.slotAddr (h.frame * h.max_count + h.count),
        u64 (h.backing_begin + u32 (id * h.increment)))) ∧
    (¬ h.count < h.max_count → h.copy id = none) := by
  constructor
  · intro hlt
    have hc := ring_cursor hr (Nat.le_of_lt hlt)
    unfold gpu.HeapAllocator.copy
    rw [if_pos hlt, hc.1, u32_of_lt hc.2.2]
  · intro hge
    unfold gpu.HeapAllocator.copy
    rw [if_neg hge]

theorem ring_allocRTV {h : gpu.HeapAllocator} (hr : h.Ring) (resource : Nat) :
    (h.count + 1 ≤ h.max_count →
      gpu.allocRTV h resource = some (h.slotAddr (h.frame * h.max_count + h.count),
        { h with count := h.count + 1 }, decide (resource ≠ 0))) ∧
    (h.max_count < h.count + 1 → gpu.allocRTV h resource = none) := by
  have hc := ring_cursor hr hr.2.1
  constructor
  · intro hle
    unfold gpu.allocRTV
    rw [u32_of_lt hc.2.2, if_pos hle, hc.1]
  · intro hgt
    unfold gpu.allocRTV
    rw [u32_of_lt hc.2.2, if_neg (by omega)]

theorem ring_allocDSV {h : gpu.HeapAllocator} (hr : h.Ring) (texture : gpu.Texture) :
    (h.count + 1 ≤ h.max_count →
      gpu.allocDSV h texture = some (h.slotAddr (h.frame * h.max_count + h.count),
        { h with count := h.count + 1 }, decide (texture.resource ≠ 0))) ∧
    (h.max_count < h.count + 1 → gpu.allocDSV h texture = none) := by
  have hc := ring_cursor hr hr.2.1
  constructor
  · intro hle
    unfold gpu.allocDSV
    rw [u32_of_lt hc.2.2, if_pos hle, hc.1]
  · intro hgt
    unfold gpu.allocDSV
    rw [u32_of_lt hc.2.2, if_neg (by omega)]

theorem validCount_cons (s : gpu.SRV) (rest : List gpu.SRV) :
    gpu.validCount (s :: rest) =
      if isValid s.handle = true then gpu.validCount rest + 1 else gpu.validCount rest := by
  unfold gpu.validCount
  by_cases h : isValid s.handle = true
  · rw [if_pos h, List.filter_cons_of_pos (by simpa using h)]
    rfl
  · rw [if_neg h, List.filter_cons_of_neg (by simpa using h)]

theorem ring_allocSRVLoop (buffers : Nat → gpu.Buffer) (textures : Nat → gpu.Texture) :
    ∀ (srvs : List gpu.SRV) (h : gpu.HeapAllocator), h.Ring →
      (h.count + gpu.validCount srvs ≤ h.max_count →
        gpu.allocSRVLoop buffers textures h srvs =
          some ({ h with count := h.count + gpu.validCount srvs },
            (List.range' h.count (gpu.validCount srvs)).map
              (fun k => h.slotAddr (h.frame * h.max_count + k)))) ∧
      (h.max_count < h.count + gpu.validCount srvs →
        gpu.allocSRVLoop buffers textures h srvs = none) := by
  intro srvs
  induction srvs with
  | nil =>
    intro h hr
    refine ⟨fun _ => ?_, fun hgt => ?_⟩
    · simp [gpu.allocSRVLoop, gpu.validCount]
    · simp only [gpu.validCount, List.filter_nil, List.length_nil, Nat.add_zero] at hgt
      exact absurd hr.2.1 (by omega)
  | cons s rest ih =>
    intro h hr
    by_cases hv : isValid s.handle = true
    · rw [validCount_cons, if_pos hv]
      unfold gpu.allocSRVLoop
      rw [if_pos hv]
      constructor
      · intro hle
        have hlt : h.count < h.max_count := by omega
        rw [(ring_copy hr _).1 hlt]
        have hr1 : ({ h with count := h.count + 1 } : gpu.HeapAllocator).Ring :=
          ring_withCount hr hlt
        have hrec := (ih _ hr1).1 (by show h.count + 1 + _ ≤ h.max_count; omega)
        simp only [hrec]
        have e : h.count + 1 + gpu.validCount rest = h.count + (gpu.validCount rest + 1) := by
          omega
        rw [List.range'_succ, List.map_cons]
        simp only [e]
        rfl
      · intro hgt
        by_cases hlt : h.count < h.max_count
        · rw [(ring_copy hr _).1 hlt]
          have hr1 : ({ h with count := h.count + 1 } : gpu.HeapAllocator).Ring :=
            ring_withCount hr hlt
          have hrec := (ih _ hr1).2 (by show h.max_count < h.count + 1 + _; omega)
          simp only [hrec]
        · rw [(ring_copy hr _).2 hlt]
    · rw [validCount_cons, if_neg hv]
      unfold gpu.allocSRVLoop
      rw [if_neg hv]
      exact ih h hr

theorem ring_getGPU {h : gpu.HeapAllocator} (hr : h.Ring) :
    h.getGPU = h.gpu_begin + (h.frame * h.max_count + h.count) * h.increment :=
  (ring_cursor hr hr.2.1).2.1

theorem ring_allocSRV {h : gpu.HeapAllocator} (hr : h.Ring) (buffers : Nat → gpu.Buffer)
    (textures : Nat → gpu.Texture) (srvs : List gpu.SRV) :
    (h.count + gpu.validCount srvs ≤ h.max_count →
      gpu.allocSRV buffers textures h srvs =
        some (h.gpu_begin + (h.frame * h.max_count + h.count) * h.increment,
          { h with count := h.count + gpu.validCount srvs },
          (List.range' h.count (gpu.validCount srvs)).map
            (fun k => h.slotAddr (h.frame * h.max_count + k)))) ∧
    (h.max_count < h.count + gpu.validCount srvs →
      gpu.allocSRV buffers textures h srvs = none) := by
  have hl := ring_allocSRVLoop buffers textures srvs h hr
  constructor
  · intro hle
    unfold gpu.allocSRV
    rw [hl.1 hle, ring_getGPU hr]
  · intro hgt
    unfold gpu.allocSRV
    rw [hl.2 hgt]

theorem init_ring (a : gpu.HeapAllocator) (env : gpu.HeapEnv)
    (type : gpu.D3D12_DESCRIPTOR_HEAP_TYPE) (n nb : Nat) (ha : a.count ≤ n)
    (hi : 0 < env.increment)
    (h32 : gpu.NUM_BACKBUFFERS * n * env.increment < 2 ^ 32)
    (hg : env.gpu_start + gpu.NUM_BACKBUFFERS * n * env.increment < 2 ^ 64)
    (hc : env.cpu_start + gpu.NUM_BACKBUFFERS * n * env.increment < 2 ^ 64) :
    (gpu.HeapAllocator.init a env type n nb).Ring := by
  refine ⟨(by decide : 0 < gpu.NUM_BACKBUFFERS), ha, hi, h32, hg, hc, ?_, ?_⟩
  · show env.gpu_start = env.gpu_start + 0 * n * env.increment
    omega
  · show env.cpu_start = env.cpu_start + 0 * n * env.increment
    omega

/-- C7. For every ring `HeapAllocator` state, `nextFrame()` sets `frame` to
`(frame + 1) mod 3` and `count` to 0, and the first allocation after it is
placed at byte offset `frame * max_count * increment` from the start of the
heap (for the new `frame`): `getGPU` and `allocSRV` return
`gpu_begin + frame * max_count * increment`, the first descriptor `allocSRV`
copies, and the slot `allocRTV` / `allocDSV` hand out, are at
`cpu_begin + frame * max_count * increment`. -/
theorem nextFrame_first_allocation (h : gpu.HeapAllocator) (hr : h.Ring) :
    h.nextFrame.frame = (h.frame + 1) % 3 ∧ h.nextFrame.count = 0 ∧
    h.nextFrame.getGPU = h.gpu_begin + h.nextFrame.frame * h.max_count * h.increment ∧
    (∀ (buffers : Nat → gpu.Buffer) (textures : Nat → gpu.Texture) (srvs : List gpu.SRV),
      gpu.validCount srvs ≤ h.max_count →
      ∃ r, gpu.allocSRV buffers textures h.nextFrame srvs = some r ∧
        r.1 = h.gpu_begin + h.nextFrame.frame * h.max_count * h.increment ∧
        (∀ dst, r.2.2.head? = some dst →
          dst = h.cpu_begin + h.nextFrame.frame * h.max_count * h.increment)) ∧
    (0 < h.max_count → ∀ resource, ∃ r, gpu.allocRTV h.nextFrame resource = some r ∧
        r.1 = h.cpu_begin + h.nextFrame.frame * h.max_count * h.increment) ∧
    (0 < h.max_count → ∀ texture, ∃ r, gpu.allocDSV h.nextFrame texture = some r ∧
        r.1 = h.cpu_begin + h.nextFrame.frame * h.max_count * h.increment) := by
  obtain ⟨hf, hc, hr', hm, hi, hg, hcb, _⟩ := ring_nextFrame hr
  have haddr : h.nextFrame.slotAddr (h.nextFrame.frame * h.nextFrame.max_count +
      h.nextFrame.count) = h.cpu_begin + h.nextFrame.frame * h.max_count * h.increment := by
    unfold gpu.HeapAllocator.slotAddr
    rw [hc, hm, hi, hcb, Nat.add_zero]
  refine ⟨hf, hc, ?_, ?_, ?_, ?_⟩
  · rw [ring_getGPU hr', hc, hm, hi, hg, Nat.add_zero]
  · intro buffers textures srvs hv
    have hs := (ring_allocSRV hr' buffers textures srvs).1
      (by rw [hc, hm, Nat.zero_add]; exact hv)
    refine ⟨_, hs, ?_, ?_⟩
    · show h.nextFrame.gpu_begin + _ = _
      rw [hc, hm, hi, hg, Nat.add_zero]
    · intro dst hd
      simp only at hd
      rw [hc] at hd
      cases hvc : gpu.validCount srvs with
      | zero => rw [hvc] at hd; simp at hd
      | succ k =>
        rw [hvc, List.range'_succ, List.map_cons, List.head?_cons] at hd
        cases hd
        rw [← hc]
        exact haddr
  · intro hpos resource
    have hs := (ring_allocRTV hr' resource).1 (by rw [hc, hm]; omega)
    exact ⟨_, hs, haddr⟩
  · intro hpos texture
    have hs := (ring_allocDSV hr' texture).1 (by rw [hc, hm]; omega)
    exact ⟨_, hs, haddr⟩

/-- Witness of C7 on the RTV ring of `init` with 32-byte descriptors. -/
theorem nextFrame_first_allocation_witness :
    gpu.sampleRing.Ring ∧ gpu.sampleRing.nextFrame.frame = 1 ∧
    gpu.sampleRing.nextFrame.getGPU = 0x10000 + 1 * 1024 * 32 ∧
    ∃ r, gpu.allocRTV gpu.sampleRing.nextFrame 5 = some r ∧ r.1 = 0x20000 + 1 * 1024 * 32 := by
  have hr : gpu.sampleRing.Ring :=
    init_ring {} _ gpu.D3D12_DESCRIPTOR_HEAP_TYPE.RTV 1024 0 (Nat.zero_le _) (by decide)
      (by decide) (by decide) (by decide)
  have h := nextFrame_first_allocation gpu.sampleRing hr
  refine ⟨hr, h.1, ?_, ?_⟩
  · rw [h.2.2.1, h.1]; rfl
  · obtain ⟨r, e, v⟩ := h.2.2.2.2.1 (by decide) 5
    refine ⟨r, e, ?_⟩
    rw [v, h.1]; rfl

/-- C8. Treating a failed `ASSERT` as an error result, on a ring
`HeapAllocator` state: `copy`, `allocRTV`, `allocDSV` and `allocSRV` succeed
exactly when the slots they take fit below `max_count`, and fail otherwise
(no new state, the cursor does not advance); on success `count` advances by
the number of slots taken and stays `<= max_count`, the ring stays well
formed, and every slot written lies in the window
`[frame * max_count, (frame + 1) * max_count)` of the current frame;
`nextFrame` resets `count` to 0 and keeps the ring well formed. -/
theorem ring_count_within_window (h : gpu.HeapAllocator) (hr : h.Ring) :
    (∀ id,
      (h.count < h.max_count → ∃ r, h.copy id = some r ∧ r.1.Ring ∧
        r.1.count = h.count + 1 ∧ r.1.count ≤ r.1.max_count ∧ r.1.frame = h.frame ∧
        ∃ slot, r.2.1 = h.slotAddr slot ∧ h.inWindow slot) ∧
      (¬ h.count < h.max_count → h.copy id = none)) ∧
    (∀ resource,
      (h.count + 1 ≤ h.max_count → ∃ r, gpu.allocRTV h resource = some r ∧ r.2.1.Ring ∧
        r.2.1.count = h.count + 1 ∧ r.2.1.count ≤ r.2.1.max_count ∧ r.2.1.frame = h.frame ∧
        ∃ slot, r.1 = h.slotAddr slot ∧ h.inWindow slot) ∧
      (h.max_count < h.count + 1 → gpu.allocRTV h resource = none)) ∧
    (∀ texture,
      (h.count + 1 ≤ h.max_count → ∃ r, gpu.allocDSV h texture = some r ∧ r.2.1.Ring ∧
        r.2.1.count = h.count + 1 ∧ r.2.1.count ≤ r.2.1.max_count ∧ r.2.1.frame = h.frame ∧
        ∃ slot, r.1 = h.slotAddr slot ∧ h.inWindow slot) ∧
      (h.max_count < h.count + 1 → gpu.allocDSV h texture = none)) ∧
    (∀ (buffers : Nat → gpu.Buffer) (textures : Nat → gpu.Texture) (srvs : List gpu.SRV),
      (h.count + gpu.validCount srvs ≤ h.max_count →
        ∃ r, gpu.allocSRV buffers textures h srvs = some r ∧ r.2.1.Ring ∧
          r.2.1.count = h.count + gpu.validCount srvs ∧ r.2.1.count ≤ r.2.1.max_count ∧
          r.2.1.frame = h.frame ∧ r.2.2.length = gpu.validCount srvs ∧
          ∀ dst ∈ r.2.2, ∃ slot, dst = h.slotAddr slot ∧ h.inWindow slot) ∧
      (h.max_count < h.count + gpu.validCount srvs →
        gpu.allocSRV buffers textures h srvs = none)) ∧
    (h.nextFrame.Ring ∧ h.nextFrame.count = 0 ∧ h.nextFrame.count ≤ h.nextFrame.max_count) := by
  refine ⟨fun id => ⟨fun hlt => ?_, (ring_copy hr id).2⟩,
    fun resource => ⟨fun hle => ?_, (ring_allocRTV hr resource).2⟩,
    fun texture => ⟨fun hle => ?_, (ring_allocDSV hr texture).2⟩,
    fun buffers textures srvs => ⟨fun hle => ?_, (ring_allocSRV hr buffers textures srvs).2⟩,
    ?_⟩
  · exact ⟨_, (ring_copy hr id).1 hlt, ring_withCount hr hlt, rfl, hlt, rfl, _, rfl,
      ring_inWindow hlt⟩
  · exact ⟨_, (ring_allocRTV hr resource).1 hle, ring_withCount hr hle, rfl, hle, rfl, _, rfl,
      ring_inWindow (by omega)⟩
  · exact ⟨_, (ring_allocDSV hr texture).1 hle, ring_withCount hr hle, rfl, hle, rfl, _, rfl,
      ring_inWindow (by omega)⟩
  · refine ⟨_, (ring_allocSRV hr buffers textures srvs).1 hle, ring_withCount hr hle, rfl, hle,
      rfl, by simp, ?_⟩
    intro dst hd
    simp only [List.mem_map, List.mem_range'_1] at hd
    obtain ⟨k, hk, e⟩ := hd
    exact ⟨_, e.symm, ring_inWindow (by omega)⟩
  · have hn := ring_nextFrame hr
    exact ⟨hn.2.2.1, hn.2.1, by rw [hn.2.1]; exact Nat.zero_le _⟩

/-- Witness of C8 on the RTV ring of `init`: the first `allocRTV` takes slot 0
of window 0. -/
theorem ring_count_within_window_witness :
    gpu.sampleRing.Ring ∧
    ∃ r, gpu.allocRTV gpu.sampleRing 5 = some r ∧ r.2.1.count = 1 ∧ r.1 = 0x20000 := by
  have hr : gpu.sampleRing.Ring :=
    init_ring {} _ gpu.D3D12_DESCRIPTOR_HEAP_TYPE.RTV 1024 0 (Nat.zero_le _) (by decide)
      (by decide) (by decide) (by decide)
  have h := ring_count_within_window gpu.sampleRing hr
  obtain ⟨r, e, _, c, _, _, slot, hs, _⟩ := (h.2.1 5).1 (by decide)
  refine ⟨hr, r, e, c, ?_⟩
  have e2 : gpu.allocRTV gpu.sampleRing 5 = some (0x20000,
      { gpu.sampleRing with count := 1 }, true) := by decide
  rw [e2] at e
  cases e
  rfl

/-! ## Backing-heap descriptor ids: claim C9 -/

theorem samplerMap_find_none {m : gpu.SamplerMap} {h : Nat} :
    gpu.SamplerMap.find m h = none ↔ h ∉ m.map (fun e => e.1) := by
  unfold gpu.SamplerMap.find
  induction m with
  | nil => simp
  | cons e es ih =>
    simp only [List.find?_cons, List.map_cons, List.mem_cons, not_or]
    by_cases he : e.1 = h
    · simp [he]
    · have hb : (e.1 == h) = false := by simpa using he
      rw [hb]
      simp only [ih]
      constructor
      · intro hx; exact ⟨fun e' => he e'.symm, hx⟩
      · intro hx; exact hx.2

theorem samplerMap_find_insert (m : gpu.SamplerMap) (h off k : Nat) :
    gpu.SamplerMap.find (gpu.SamplerMap.insert m h off) k =
      if h = k then some off else gpu.SamplerMap.find m k := by
  unfold gpu.SamplerMap.find gpu.SamplerMap.insert
  by_cases e : h = k
  · simp [e]
  · have hb : (h == k) = false := by simpa using e
    simp [List.find?_cons, hb, e]

/-- One `allocSamplers` call under the invariant. -/
theorem allocSamplers_step {n : Nat} (crc32 : List Nat → Nat) (textures : Nat → gpu.Texture)
    {heap : gpu.SamplerAllocator} (srvs : List gpu.SRV) (hlen : srvs.length = n)
    (hinv : heap.Dedup n) {r : Nat × gpu.SamplerAllocator × List (Nat × Nat)}
    (e : gpu.allocSamplers crc32 textures heap srvs = some r) :
    r.2.1.Dedup n ∧ r.2.1.gpu = heap.gpu ∧ r.2.1.max_count = heap.max_count ∧
    (∀ k, k ∈ r.2.1.keys ↔ (k ∈ heap.keys ∨ k = crc32 (gpu.samplerFlags textures srvs))) ∧
    (∀ k off, heap.sampler_map.find k = some off → r.2.1.sampler_map.find k = some off) ∧
    (∃ off, r.2.1.sampler_map.find (crc32 (gpu.samplerFlags textures srvs)) = some off ∧
      r.1 = u64 (heap.gpu + off)) ∧
    (crc32 (gpu.samplerFlags textures srvs) ∈ heap.keys → r.2.1 = heap) := by
  obtain ⟨h1, h2, h3, h4⟩ := hinv
  unfold gpu.allocSamplers at e
  simp only at e
  cases hf : heap.sampler_map.find (crc32 (gpu.samplerFlags textures srvs)) with
  | some off =>
    rw [hf] at e
    cases e
    have hmem : crc32 (gpu.samplerFlags textures srvs) ∈ heap.keys := by
      by_contra hc
      have hn := samplerMap_find_none.mpr hc
      rw [hn] at hf
      cases hf
    refine ⟨⟨h1, h2, h3, h4⟩, rfl, rfl, fun k => ?_, fun k o hk => hk, ⟨off, hf, rfl⟩,
      fun _ => rfl⟩
    constructor
    · intro hk; exact Or.inl hk
    · rintro (hk | hk)
      · exact hk
      · rw [hk]; exact hmem
  | none =>
    rw [hf] at e
    have hnot : crc32 (gpu.samplerFlags textures srvs) ∉ heap.keys :=
      samplerMap_find_none.mp hf
    have hsum : u32 (heap.count + srvs.length) = heap.count + n := by
      rw [hlen]; exact u32_of_lt (by omega)
    rw [hsum] at e
    by_cases hle : heap.count + n ≤ heap.max_count
    · rw [if_pos hle] at e
      cases e
      refine ⟨⟨?_, ?_, hle, h4⟩, rfl, rfl, fun k => ?_, fun k o hk => ?_, ?_, fun hm => ?_⟩
      · show (List.map (fun e => e.1) ((_, _) :: heap.sampler_map)).Nodup
        rw [List.map_cons]
        exact List.nodup_cons.mpr ⟨hnot, h1⟩
      · show heap.count + n = n * (List.map (fun e => e.1) ((_, _) :: heap.sampler_map)).length
        rw [List.map_cons, List.length_cons, Nat.mul_succ, h2]
        rfl
      · show k ∈ List.map (fun e => e.1) ((_, _) :: heap.sampler_map) ↔ _
        rw [List.map_cons, List.mem_cons]
        constructor
        · rintro (hk | hk)
          · exact Or.inr hk
          · exact Or.inl hk
        · rintro (hk | hk)
          · exact Or.inr hk
          · exact Or.inl hk
      · show gpu.SamplerMap.find (gpu.SamplerMap.insert heap.sampler_map _ _) k = some o
        rw [samplerMap_find_insert]
        by_cases hk' : crc32 (gpu.samplerFlags textures srvs) = k
        · rw [← hk', hf] at hk; cases hk
        · rw [if_neg hk']; exact hk
      · refine ⟨u32 (heap.count * heap.increment), ?_, rfl⟩
        show gpu.SamplerMap.find (gpu.SamplerMap.insert heap.sampler_map _ _) _ = _
        rw [samplerMap_find_insert, if_pos rfl]
      · exact absurd hm hnot
    · rw [if_neg hle] at e
      cases e

theorem allocSamplersSeq_spec {n : Nat} (crc32 : List Nat → Nat) :
    ∀ (calls : List ((Nat → gpu.Texture) × List gpu.SRV)) (heap : gpu.SamplerAllocator)
      (res : List Nat × gpu.SamplerAllocator),
      heap.Dedup n → (∀ c ∈ calls, c.2.length = n) →
      gpu.allocSamplersSeq crc32 heap calls = some res →
      res.2.Dedup n ∧ res.2.gpu = heap.gpu ∧
      (∀ k, k ∈ res.2.keys ↔ (k ∈ heap.keys ∨ k ∈ gpu.seenHashes crc32 calls)) ∧
      (∀ k off, heap.sampler_map.find k = some off → res.2.sampler_map.find k = some off) ∧
      res.1 = (gpu.seenHashes crc32 calls).map
        (fun h => u64 (heap.gpu + (res.2.sampler_map.find h).getD 0)) := by
  intro calls
  induction calls with
  | nil =>
    intro heap res hinv _ e
    cases e
    exact ⟨hinv, rfl, fun k => by simp [gpu.seenHashes], fun k off hk => hk, rfl⟩
  | cons c rest ih =>
    intro heap res hinv hlen e
    simp only [gpu.allocSamplersSeq] at e
    cases h1 : gpu.allocSamplers crc32 c.1 heap c.2 with
    | none => rw [h1] at e; cases e
    | some r =>
      rw [h1] at e
      simp only at e
      cases h2 : gpu.allocSamplersSeq crc32 r.2.1 rest with
      | none => rw [h2] at e; cases e
      | some q =>
        rw [h2] at e
        cases e
        obtain ⟨s1, s2, _, s4, s5, ⟨off, s6, s7⟩, _⟩ :=
          allocSamplers_step crc32 c.1 c.2 (hlen c (List.mem_cons_self _ _)) hinv h1
        obtain ⟨t1, t2, t3, t4, t5⟩ := ih r.2.1 q s1
          (fun x hx => hlen x (List.mem_cons_of_mem _ hx)) h2
        refine ⟨t1, by rw [t2, s2], fun k => ?_, fun k o hk => t4 k o (s5 k o hk), ?_⟩
        · show k ∈ q.2.keys ↔ _
          rw [t3 k, s4 k]
          simp only [gpu.seenHashes, List.map_cons, List.mem_cons]
          constructor
          · rintro ((hk | hk) | hk)
            · exact Or.inl hk
            · exact Or.inr (Or.inl hk)
            · exact Or.inr (Or.inr hk)
          · rintro (hk | hk | hk)
            · exact Or.inl (Or.inl hk)
            · exact Or.inl (Or.inr hk)
            · exact Or.inr hk
        · show r.1 :: q.1 = _
          simp only [gpu.seenHashes, List.map_cons]
          rw [t4 _ _ s6]
          simp only [Option.getD_some]
          rw [s7, t5, s2]
          rfl

/-- C10. Start from the empty sampler heap that `SamplerAllocator::init`
makes of a newly constructed allocator (empty map, `count` 0) and
make any sequence of `allocSamplers` calls with `n`-slot SRV sets in which
no capacity `ASSERT` fails. Then `count` is `n` times the number of
distinct flag-tuple hashes seen, the keys of `sampler_map` are pairwise
distinct and are exactly the hashes seen, two calls with the same hash
return the same GPU handle, and a further call whose hash is in the map
leaves the heap (count and map) unchanged, creates no sampler and returns
the handle stored for that hash. -/
theorem allocSamplers_dedup (crc32 : List Nat → Nat) (env : gpu.HeapEnv) (num n : Nat)
    (calls : List ((Nat → gpu.Texture) × List gpu.SRV))
    (handles : List Nat) (heap : gpu.SamplerAllocator)
    (hnum : num + n < 2 ^ 32) (hn : ∀ c ∈ calls, c.2.length = n)
    (hrun : gpu.allocSamplersSeq crc32 (gpu.SamplerAllocator.init {} env num) calls =
      some (handles, heap)) :
    heap.count = n * (gpu.seenHashes crc32 calls).dedup.length ∧
    heap.keys.Nodup ∧
    (∀ k, k ∈ heap.keys ↔ k ∈ gpu.seenHashes crc32 calls) ∧
    handles.length = calls.length ∧
    (∀ i j : Nat, (gpu.seenHashes crc32 calls)[i]? = (gpu.seenHashes crc32 calls)[j]? →
      handles[i]? = handles[j]?) ∧
    (∀ (textures : Nat → gpu.Texture) (srvs : List gpu.SRV),
      crc32 (gpu.samplerFlags textures srvs) ∈ heap.keys →
      ∃ off, heap.sampler_map.find (crc32 (gpu.samplerFlags textures srvs)) = some off ∧
        gpu.allocSamplers crc32 textures heap srvs = some (u64 (heap.gpu + off), heap, [])) := by
  have h0 : (gpu.SamplerAllocator.init {} env num).Dedup n :=
    ⟨List.nodup_nil, by simp [gpu.SamplerAllocator.init, gpu.SamplerAllocator.keys],
      Nat.zero_le _, hnum⟩
  obtain ⟨t1, _, t3, _, t5⟩ := allocSamplersSeq_spec crc32 calls _ _ h0 hn hrun
  have hkeys : ∀ k, k ∈ heap.keys ↔ k ∈ gpu.seenHashes crc32 calls := by
    intro k
    have := t3 k
    simp only [gpu.SamplerAllocator.init, gpu.SamplerAllocator.keys, List.map_nil,
      List.not_mem_nil, false_or] at this
    exact this
  have hperm : heap.keys.Perm (gpu.seenHashes crc32 calls).dedup :=
    (List.perm_ext_iff_of_nodup t1.1 (List.nodup_dedup _)).mpr
      (fun k => by rw [hkeys k, List.mem_dedup])
  have ht5 : handles = (gpu.seenHashes crc32 calls).map
      (fun h => u64 ((gpu.SamplerAllocator.init {} env num).gpu +
        (heap.sampler_map.find h).getD 0)) := t5
  refine ⟨by rw [t1.2.1, hperm.length_eq], t1.1, hkeys, ?_, ?_, ?_⟩
  · rw [ht5]
    simp [gpu.seenHashes]
  · intro i j hij
    rw [ht5, List.getElem?_map, List.getElem?_map, hij]
  · intro textures srvs hmem
    cases hf : heap.sampler_map.find (crc32 (gpu.samplerFlags textures srvs)) with
    | none => exact absurd hmem (samplerMap_find_none.mp hf)
    | some off =>
      refine ⟨off, rfl, ?_⟩
      unfold gpu.allocSamplers
      simp only [hf]

/-- Witness of C10: three calls with 2-slot SRV sets, the third repeating
the flags of the first, on a 2048-entry sampler heap. -/
theorem allocSamplers_dedup_witness :
    (2048 + 2 < 2 ^ 32 ∧ (∀ c ∈ gpu.sampleSamplerCalls, c.2.length = 2)) ∧
    (∃ handles heap,
      gpu.allocSamplersSeq gpu.sampleHash (gpu.SamplerAllocator.init {} gpu.sampleEnv.sampler 2048)
        gpu.sampleSamplerCalls = some (handles, heap) ∧
      heap.count = 4 ∧ handles[0]? = handles[2]? ∧
      heap.count = 2 * (gpu.seenHashes gpu.sampleHash gpu.sampleSamplerCalls).dedup.length) := by
  have hlen : ∀ c ∈ gpu.sampleSamplerCalls, c.2.length = 2 := by
    intro c hc
    simp only [gpu.sampleSamplerCalls, List.mem_cons, List.mem_singleton, List.not_mem_nil,
      or_false] at hc
    rcases hc with e | e | e <;> rw [e] <;> rfl
  have hex : ∃ res, gpu.allocSamplersSeq gpu.sampleHash
      (gpu.SamplerAllocator.init {} gpu.sampleEnv.sampler 2048) gpu.sampleSamplerCalls
        = some res ∧ res.2.count = 4 := ⟨_, rfl, rfl⟩
  obtain ⟨res, hres, hcount⟩ := hex
  have h := allocSamplers_dedup gpu.sampleHash gpu.sampleEnv.sampler 2048 2
    gpu.sampleSamplerCalls res.1 res.2 (by norm_num) hlen hres
  exact ⟨⟨by norm_num, hlen⟩, res.1, res.2, hres, hcount, h.2.2.2.2.1 0 2 rfl, h.1⟩

/-! ## State tracking of textures and buffers -/

/-- C11: for every texture and every target state, `Texture::setState`
returns the state stored before the call, leaves the stored state equal to
the target (nothing else in the texture changes), and records exactly one
transition barrier, with `StateBefore` the old and `StateAfter` the new
state, when the two differ, and no barrier when they are equal. -/
theorem texture_setState_contract (t : gpu.Texture) (new_state : Nat) :
    (t.setState new_state).1 = t.state ∧
    (t.setState new_state).2.1 = { t with state := new_state } ∧
    (t.setState new_state).2.1.state = new_state ∧
    (t.setState new_state).2.2 =
      if t.state = new_state then [] else [gpu.Call.barrier t.resource t.state new_state] := by
  unfold gpu.Texture.setState gpu.switchState
  by_cases h : t.state = new_state
  · rw [if_pos h, if_pos h]
    subst h
    exact ⟨rfl, rfl, rfl, rfl⟩
  · rw [if_neg h, if_neg h]
    exact ⟨rfl, rfl, rfl, rfl⟩

/-- C17 (behaviour of the code): `createBuffer` with `SHADER_BUFFER` set and
`size = 1` creates the committed resource with width 1, not 16: `desc.Width`
is assigned before the size is rounded up; the rounded size only reaches the
element count of the view (`16 / 4 = 4`). -/
theorem createBuffer_width_not_rounded :
    (gpu.createBuffer gpu.smallContext 0 false true 1 false 500 0).map (fun d => d.calls) =
      some [gpu.Call.createCommittedResource 1 false,
            gpu.Call.createShaderResourceView 500 4 (0x3000000 + 3 * 32)] := by
  rfl

/-! ## Staging through the scratch buffer -/

theorem update_step (d : gpu.D3D) (buffer size off : Nat)
    (hptr : (d.frames d.frame).scratch_buffer_ptr = (d.frames d.frame).scratch_buffer_begin + off)
    (hoff : off ≤ gpu.SCRATCH_BUFFER_SIZE)
    (hb : (d.frames d.frame).scratch_buffer_begin + gpu.SCRATCH_BUFFER_SIZE < 2 ^ 63)
    (hs : size < 2 ^ 63) :
    (off + size ≤ gpu.SCRATCH_BUFFER_SIZE →
      ∃ d1 N, gpu.update d buffer size = some d1 ∧ d1.frame = d.frame ∧
        (d1.frames d1.frame).scratch_buffer_ptr =
          (d.frames d.frame).scratch_buffer_begin + (off + size) ∧
        (d1.frames d1.frame).scratch_buffer_begin = (d.frames d.frame).scratch_buffer_begin ∧
        d1.calls = d.calls ++ N ∧
        N.filterMap gpu.Call.staged = [((d.frames d.frame).scratch_buffer_begin + off, size)] ∧
        N.filterMap gpu.Call.scratchCopy = [(off, size)]) ∧
    (gpu.SCRATCH_BUFFER_SIZE < off + size → gpu.update d buffer size = none) := by
  have h1 : u64 (size + (d.frames d.frame).scratch_buffer_ptr) =
      size + ((d.frames d.frame).scratch_buffer_begin + off) := by
    rw [hptr]; apply u64_of_lt
    have : (2 : Nat) ^ 64 = 2 ^ 63 + 2 ^ 63 := by norm_num
    omega
  have h2 : u64 ((d.frames d.frame).scratch_buffer_begin + gpu.SCRATCH_BUFFER_SIZE) =
      (d.frames d.frame).scratch_buffer_begin + gpu.SCRATCH_BUFFER_SIZE := by
    apply u64_of_lt
    have : (2 : Nat) ^ 64 = 2 ^ 63 + 2 ^ 63 := by norm_num
    omega
  have h3 : u64 ((d.frames d.frame).scratch_buffer_ptr + 2 ^ 64 -
      (d.frames d.frame).scratch_buffer_begin) = off := by
    rw [hptr]
    have e : (d.frames d.frame).scratch_buffer_begin + off + 2 ^ 64 -
        (d.frames d.frame).scratch_buffer_begin = off + 2 ^ 64 := by omega
    rw [e]
    unfold u64
    rw [Nat.add_mod_right]
    apply Nat.mod_eq_of_lt
    have : (2 : Nat) ^ 64 = 2 ^ 63 + 2 ^ 63 := by norm_num
    omega
  have h4 : u64 ((d.frames d.frame).scratch_buffer_ptr + size) =
      (d.frames d.frame).scratch_buffer_begin + (off + size) := by
    rw [hptr, Nat.add_assoc]; apply u64_of_lt
    have : (2 : Nat) ^ 64 = 2 ^ 63 + 2 ^ 63 := by norm_num
    omega
  constructor
  · intro hfit
    have hc : u64 (size + (d.frames d.frame).scratch_buffer_ptr) ≤
        u64 ((d.frames d.frame).scratch_buffer_begin + gpu.SCRATCH_BUFFER_SIZE) := by
      rw [h1, h2]; omega
    unfold gpu.update
    simp only [if_pos hc, h3, h4]
    refine ⟨_, [gpu.Call.memcpy (d.frames d.frame).scratch_buffer_ptr size,
      gpu.Call.barrier (d.buffer_at buffer).buffer (d.buffer_at buffer).state
        gpu.D3D12_RESOURCE_STATE_COPY_DEST,
      gpu.Call.copyBufferRegion (d.buffer_at buffer).buffer 0 d.frame off size,
      gpu.Call.barrier (d.buffer_at buffer).buffer gpu.D3D12_RESOURCE_STATE_COPY_DEST
        (d.buffer_at buffer).state], rfl, rfl, ?_, ?_, ?_, ?_, ?_⟩
    · simp only [Function.update_same]
    · simp only [Function.update_same]
    · simp only [List.append_assoc, gpu.Buffer.setState, gpu.switchState]
      rfl
    · simp [gpu.Call.staged, hptr]
    · simp [gpu.Call.scratchCopy]
  · intro hover
    have hc : ¬ u64 (size + (d.frames d.frame).scratch_buffer_ptr) ≤
        u64 ((d.frames d.frame).scratch_buffer_begin + gpu.SCRATCH_BUFFER_SIZE) := by
      rw [h1, h2]; omega
    unfold gpu.update
    simp only [if_neg hc]

theorem layout_ge : ∀ (sizes : List Nat) (off : Nat), ∀ r ∈ gpu.layout off sizes, off ≤ r.1 := by
  intro sizes
  induction sizes with
  | nil => intro off r hr; cases hr
  | cons s rest ih =>
    intro off r hr
    simp only [gpu.layout, List.mem_cons] at hr
    rcases hr with h | h
    · subst h; exact Nat.le_refl _
    · exact Nat.le_trans (Nat.le_add_right off s) (ih (off + s) r h)

theorem layout_pairwise : ∀ (sizes : List Nat) (off : Nat),
    (gpu.layout off sizes).Pairwise (fun a b => a.1 + a.2 ≤ b.1) := by
  intro sizes
  induction sizes with
  | nil => intro off; exact List.Pairwise.nil
  | cons s rest ih =>
    intro off
    simp only [gpu.layout]
    exact List.Pairwise.cons (fun r hr => layout_ge rest (off + s) r hr) (ih (off + s))

theorem updates_spec : ∀ (us : List (Nat × Nat)) (d : gpu.D3D) (off : Nat),
    (d.frames d.frame).scratch_buffer_ptr = (d.frames d.frame).scratch_buffer_begin + off →
    off ≤ gpu.SCRATCH_BUFFER_SIZE →
    (d.frames d.frame).scratch_buffer_begin + gpu.SCRATCH_BUFFER_SIZE < 2 ^ 63 →
    (∀ u ∈ us, u.2 < 2 ^ 63) →
    (off + (gpu.sizesOf us).sum ≤ gpu.SCRATCH_BUFFER_SIZE →
      ∃ d1 N, gpu.updates d us = some d1 ∧ d1.frame = d.frame ∧
        (d1.frames d1.frame).scratch_buffer_ptr =
          (d.frames d.frame).scratch_buffer_begin + (off + (gpu.sizesOf us).sum) ∧
        (d1.frames d1.frame).scratch_buffer_begin = (d.frames d.frame).scratch_buffer_begin ∧
        d1.calls = d.calls ++ N ∧
        N.filterMap gpu.Call.staged = (gpu.layout off (gpu.sizesOf us)).map
          (fun r => ((d.frames d.frame).scratch_buffer_begin + r.1, r.2)) ∧
        N.filterMap gpu.Call.scratchCopy = gpu.layout off (gpu.sizesOf us)) ∧
    (gpu.SCRATCH_BUFFER_SIZE < off + (gpu.sizesOf us).sum → gpu.updates d us = none) := by
  intro us
  induction us with
  | nil =>
    intro d off hptr _ _ _
    constructor
    · intro _
      exact ⟨d, [], rfl, rfl, by simpa [gpu.sizesOf] using hptr, rfl, by simp, rfl, rfl⟩
    · intro h
      simp [gpu.sizesOf] at h
      omega
  | cons u rest ih =>
    intro d off hptr hoff hb hs
    have hu : u.2 < 2 ^ 63 := hs u (List.mem_cons_self _ _)
    have hrest : ∀ v ∈ rest, v.2 < 2 ^ 63 := fun v hv => hs v (List.mem_cons_of_mem _ hv)
    have hsum : (gpu.sizesOf (u :: rest)).sum = u.2 + (gpu.sizesOf rest).sum := by
      simp [gpu.sizesOf]
    have st := update_step d u.1 u.2 off hptr hoff hb hu
    by_cases hfit : off + u.2 ≤ gpu.SCRATCH_BUFFER_SIZE
    · obtain ⟨d1, N1, e1, hf1, hp1, hb1, hc1, hs1, hq1⟩ := st.1 hfit
      have hb1x : (d1.frames d1.frame).scratch_buffer_begin + gpu.SCRATCH_BUFFER_SIZE < 2 ^ 63 := by
        rw [hb1]; exact hb
      have hp1x : (d1.frames d1.frame).scratch_buffer_ptr =
          (d1.frames d1.frame).scratch_buffer_begin + (off + u.2) := by rw [hp1, hb1]
      have r := ih d1 (off + u.2) hp1x hfit hb1x hrest
      constructor
      · intro hall
        rw [hsum] at hall
        obtain ⟨d2, N2, e2, hf2, hp2, hb2, hc2, hs2, hq2⟩ := r.1 (by omega)
        refine ⟨d2, N1 ++ N2, ?_, ?_, ?_, ?_, ?_, ?_, ?_⟩
        · simp only [gpu.updates, e1]; exact e2
        · rw [hf2, hf1]
        · rw [hp2, hb1, hsum]; omega
        · rw [hb2, hb1]
        · rw [hc2, hc1, List.append_assoc]
        · rw [List.filterMap_append, hs1, hs2, hb1]
          simp [gpu.sizesOf, gpu.layout]
        · rw [List.filterMap_append, hq1, hq2]
          simp [gpu.sizesOf, gpu.layout]
      · intro hover
        rw [hsum] at hover
        simp only [gpu.updates, e1]
        exact r.2 (by omega)
    · constructor
      · intro hall
        rw [hsum] at hall
        omega
      · intro _
        simp only [gpu.updates, st.2 (by omega)]

theorem swapBuffers_scratch_reset {d : gpu.D3D} {resized : Bool} {r : Nat × gpu.D3D}
    (e : gpu.swapBuffers d resized = some r) :
    (r.2.frames r.2.frame).scratch_buffer_ptr = (r.2.frames r.2.frame).scratch_buffer_begin := by
  unfold gpu.swapBuffers at e
  cases h : d.endFrame with
  | none => rw [h] at e; cases e
  | some d1 =>
    rw [h] at e
    simp only [Option.some.injEq] at e
    subst e
    simp only [gpu.D3D.resetFrame, Function.update_same]

/-- C19: with a failed `ASSERT` as an error result, for every sequence of
`update` calls within one frame (the frame starts with its scratch pointer
at the start of its scratch buffer, which lies in the lower half of the
address space, and every size is below `2^63`): the whole sequence goes
through iff the sizes add up to at most 4 MiB; the update that follows the
calls `pre` fails iff the sum of the sizes of `pre` plus its own size exceeds
4 MiB; when the sequence goes through, the k-th update writes its data at the
scratch address `begin +` (sum of the earlier sizes) and records a copy from
exactly that offset, and these byte ranges are laid out back to back, hence
pairwise disjoint; and after `swapBuffers` the scratch pointer of the new
current frame is back at the start of its buffer (offset 0). -/
theorem update_scratch_staging (d : gpu.D3D) (us : List (Nat × Nat))
    (hptr : (d.frames d.frame).scratch_buffer_ptr = (d.frames d.frame).scratch_buffer_begin)
    (hb : (d.frames d.frame).scratch_buffer_begin + gpu.SCRATCH_BUFFER_SIZE < 2 ^ 63)
    (hs : ∀ u ∈ us, u.2 < 2 ^ 63) :
    ((∃ d1, gpu.updates d us = some d1) ↔ (gpu.sizesOf us).sum ≤ gpu.SCRATCH_BUFFER_SIZE) ∧
    (∀ pre u post d1, us = pre ++ u :: post → gpu.updates d pre = some d1 →
      (gpu.update d1 u.1 u.2 = none ↔
        gpu.SCRATCH_BUFFER_SIZE < (gpu.sizesOf pre).sum + u.2)) ∧
    (∀ d1, gpu.updates d us = some d1 →
      ∃ N, d1.calls = d.calls ++ N ∧
        N.filterMap gpu.Call.staged = (gpu.layout 0 (gpu.sizesOf us)).map
          (fun r => ((d.frames d.frame).scratch_buffer_begin + r.1, r.2)) ∧
        N.filterMap gpu.Call.scratchCopy = gpu.layout 0 (gpu.sizesOf us) ∧
        (d1.frames d1.frame).scratch_buffer_ptr =
          (d.frames d.frame).scratch_buffer_begin + (gpu.sizesOf us).sum ∧
        ∀ resized r, gpu.swapBuffers d1 resized = some r →
          (r.2.frames r.2.frame).scratch_buffer_ptr =
            (r.2.frames r.2.frame).scratch_buffer_begin) ∧
    (gpu.layout 0 (gpu.sizesOf us)).Pairwise (fun a b => a.1 + a.2 ≤ b.1) := by
  have hptr0 : (d.frames d.frame).scratch_buffer_ptr =
      (d.frames d.frame).scratch_buffer_begin + 0 := by rw [hptr]; rfl
  have sp := updates_spec us d 0 hptr0 (Nat.zero_le _) hb hs
  refine ⟨?_, ?_, ?_, layout_pairwise _ 0⟩
  · constructor
    · rintro ⟨d1, e⟩
      by_contra hc
      rw [sp.2 (by omega)] at e
      cases e
    · intro h
      obtain ⟨d1, _, e, _⟩ := sp.1 (by omega)
      exact ⟨d1, e⟩
  · intro pre u post d1 hus e
    have hpre : ∀ v ∈ pre, v.2 < 2 ^ 63 := fun v hv => hs v (by rw [hus]; simp [hv])
    have hu : u.2 < 2 ^ 63 := hs u (by rw [hus]; simp)
    have spre := updates_spec pre d 0 hptr0 (Nat.zero_le _) hb hpre
    have hfit : (gpu.sizesOf pre).sum ≤ gpu.SCRATCH_BUFFER_SIZE := by
      by_contra hc
      rw [spre.2 (by omega)] at e
      cases e
    obtain ⟨d2, _, e2, hf2, hp2, hb2, _⟩ := spre.1 (by omega)
    rw [e] at e2
    cases e2
    rw [Nat.zero_add] at hp2
    have hp2x : (d1.frames d1.frame).scratch_buffer_ptr =
        (d1.frames d1.frame).scratch_buffer_begin + (gpu.sizesOf pre).sum := by rw [hp2, hb2]
    have hb2x : (d1.frames d1.frame).scratch_buffer_begin + gpu.SCRATCH_BUFFER_SIZE < 2 ^ 63 := by
      rw [hb2]; exact hb
    have st := update_step d1 u.1 u.2 (gpu.sizesOf pre).sum hp2x hfit hb2x hu
    constructor
    · intro hn
      by_contra hc
      obtain ⟨d3, _, e3, _⟩ := st.1 (by omega)
      rw [hn] at e3
      cases e3
    · exact st.2
  · intro d1 e
    have hfit : (gpu.sizesOf us).sum ≤ gpu.SCRATCH_BUFFER_SIZE := by
      by_contra hc
      rw [sp.2 (by omega)] at e
      cases e
    obtain ⟨d2, N, e2, _, hp2, _, hc2, hs2, hq2⟩ := sp.1 (by omega)
    rw [e] at e2
    cases e2
    rw [Nat.zero_add] at hp2
    exact ⟨N, hc2, hs2, hq2, hp2, fun resized r er => swapBuffers_scratch_reset er⟩

/-- Witness of `update_scratch_staging`: two updates of 100 and 28 bytes in
the first frame of the small context. -/
theorem update_scratch_staging_witness :
    ((∃ d1, gpu.updates gpu.smallContext [(0, 100), (1, 28)] = some d1) ↔
      (gpu.sizesOf [(0, 100), (1, 28)]).sum ≤ gpu.SCRATCH_BUFFER_SIZE) ∧
    gpu.layout 0 (gpu.sizesOf [(0, 100), (1, 28)]) = [(0, 100), (100, 28)] :=
  ⟨(update_scratch_staging gpu.smallContext [(0, 100), (1, 28)] rfl (by decide)
      (by decide)).1, rfl⟩

/-! ## DDS subresource layout -/

theorem sizeDXTC_of_le (w h format : Nat) (hw : w ≤ 16384) (hh : h ≤ 16384) :
    gpu.DDS.sizeDXTC w h format = ((w + 3) / 4) * ((h + 3) / 4) *
      (if (format == gpu.DXGI_FORMAT_BC1_UNORM || format == gpu.DXGI_FORMAT_BC1_UNORM_SRGB) ||
          format == gpu.DXGI_FORMAT_BC4_UNORM then 8 else 16) := by
  have ha : (w + 3) / 4 ≤ 4096 := by omega
  have hb : (h + 3) / 4 ≤ 4096 := by omega
  have hab : (w + 3) / 4 * ((h + 3) / 4) ≤ 4096 * 4096 := Nat.mul_le_mul ha hb
  unfold gpu.DDS.sizeDXTC
  simp only
  rw [u32_of_lt (show w + 3 < 2 ^ 32 by omega), u32_of_lt (show h + 3 < 2 ^ 32 by omega),
    u32_of_lt (show (w + 3) / 4 * ((h + 3) / 4) < 2 ^ 32 by omega)]
  apply u32_of_lt
  split <;> omega

theorem mipSubresource_of_le (W H mip format : Nat) (hW : W ≤ 16384) (hH : H ≤ 16384) :
    let w := max 1 (W / 2 ^ mip)
    let h := max 1 (H / 2 ^ mip)
    let bytes := if (format == gpu.DXGI_FORMAT_BC1_UNORM ||
      format == gpu.DXGI_FORMAT_BC1_UNORM_SRGB) || format == gpu.DXGI_FORMAT_BC4_UNORM
      then 8 else 16
    (gpu.DDS.mipSubresource W H mip format).RowPitch = ((w + 3) / 4) * bytes ∧
    (gpu.DDS.mipSubresource W H mip format).SlicePitch =
      ((h + 3) / 4) * (gpu.DDS.mipSubresource W H mip format).RowPitch ∧
    (gpu.DDS.mipSubresource W H mip format).size =
      (gpu.DDS.mipSubresource W H mip format).SlicePitch ∧
    (gpu.DDS.mipSubresource W H mip format).size = gpu.DDS.sizeDXTC w h format := by
  intro w h bytes
  have hw : w ≤ 16384 := by
    have : W / 2 ^ mip ≤ W := Nat.div_le_self _ _
    show max 1 (W / 2 ^ mip) ≤ 16384
    omega
  have hh : h ≤ 16384 := by
    have : H / 2 ^ mip ≤ H := Nat.div_le_self _ _
    show max 1 (H / 2 ^ mip) ≤ 16384
    omega
  have ha : (w + 3) / 4 ≤ 4096 := by omega
  have hb : (h + 3) / 4 ≤ 4096 := by omega
  have hbytes : bytes ≤ 16 := by
    show (if _ then 8 else 16) ≤ 16
    split <;> omega
  have h11 : gpu.DDS.sizeDXTC 1 1 format = bytes := by
    rw [sizeDXTC_of_le 1 1 format (by omega) (by omega)]
    show (1 + 3) / 4 * ((1 + 3) / 4) * bytes = bytes
    omega
  have hrowb : (w + 3) / 4 * bytes ≤ 4096 * 16 := Nat.mul_le_mul ha hbytes
  have hrow : (gpu.DDS.mipSubresource W H mip format).RowPitch = ((w + 3) / 4) * bytes := by
    show u32 ((u32 (w + 3) / 4) * gpu.DDS.sizeDXTC 1 1 format) = _
    rw [h11, u32_of_lt (show w + 3 < 2 ^ 32 by omega)]
    exact u32_of_lt (by omega)
  have hslb : (h + 3) / 4 * ((w + 3) / 4 * bytes) ≤ 4096 * (4096 * 16) :=
    Nat.mul_le_mul hb hrowb
  have hslice : (gpu.DDS.mipSubresource W H mip format).SlicePitch =
      ((h + 3) / 4) * (gpu.DDS.mipSubresource W H mip format).RowPitch := by
    show u64 ((u32 (h + 3) / 4) * (gpu.DDS.mipSubresource W H mip format).RowPitch) = _
    rw [hrow, u32_of_lt (show h + 3 < 2 ^ 32 by omega)]
    exact u64_of_lt (by omega)
  have hsize : (gpu.DDS.mipSubresource W H mip format).size = gpu.DDS.sizeDXTC w h format := rfl
  refine ⟨hrow, hslice, ?_, hsize⟩
  rw [hslice, hrow, hsize, sizeDXTC_of_le w h format hw hh]
  show (w + 3) / 4 * ((h + 3) / 4) * bytes = (h + 3) / 4 * ((w + 3) / 4 * bytes)
  rw [Nat.mul_comm ((w + 3) / 4) ((h + 3) / 4), Nat.mul_assoc]

/-- The layout of compressed subresources in `loadTexture`, for every table
entry of a block-compressed format, every value of the SRGB flag, header
sizes up to 16384 and every mip level: the slice pitch is `((h+3)/4)` row
pitches and equals the bytes consumed, `sizeDXTC(w, h, format)`, so the
`ASSERT(size == SlicePitch)` holds; the row pitch is `((w+3)/4) * blockBytes`
of the table entry in every case but ATI1 with the SRGB flag, where it is
`((w+3)/4) * 16` although `blockBytes` is 8. -/
theorem loadTexture_compressed_layout (li : gpu.DDS.LoadInfo) (is_srgb : Bool)
    (W H mip : Nat) (hli : li ∈ gpu.DDS.compressedLoadInfos) (hW : W ≤ 16384) (hH : H ≤ 16384) :
    let w := max 1 (W / 2 ^ mip)
    let h := max 1 (H / 2 ^ mip)
    let s := gpu.DDS.mipSubresource W H mip (gpu.DDS.internalFormat li is_srgb)
    s.SlicePitch = ((h + 3) / 4) * s.RowPitch ∧ s.size = s.SlicePitch ∧
    s.size = gpu.DDS.sizeDXTC w h (gpu.DDS.internalFormat li is_srgb) ∧
    (¬ (li = gpu.DDS.loadInfoATI1 ∧ is_srgb = true) →
      s.RowPitch = ((w + 3) / 4) * li.blockBytes) ∧
    (li = gpu.DDS.loadInfoATI1 ∧ is_srgb = true → s.RowPitch = ((w + 3) / 4) * 16) := by
  intro w h s
  have m := mipSubresource_of_le W H mip (gpu.DDS.internalFormat li is_srgb) hW hH
  simp only at m
  refine ⟨m.2.1, m.2.2.1, m.2.2.2, ?_, ?_⟩
  · intro hne
    show (gpu.DDS.mipSubresource W H mip (gpu.DDS.internalFormat li is_srgb)).RowPitch = _
    rw [m.1]
    simp only [gpu.DDS.compressedLoadInfos, List.mem_cons, List.mem_singleton,
      List.not_mem_nil, or_false] at hli
    rcases hli with h | h | h | h | h <;> subst h <;> cases is_srgb <;>
      first
      | rfl
      | exact absurd ⟨rfl, rfl⟩ hne
  · rintro ⟨h1, h2⟩
    subst h1; subst h2
    show (gpu.DDS.mipSubresource W H mip _).RowPitch = _
    rw [m.1]
    rfl

/-- Witness of `loadTexture_compressed_layout`: a 256 x 128 DXT5 image at mip
level 2. -/
theorem loadTexture_compressed_layout_witness :
    (gpu.DDS.mipSubresource 256 128 2 (gpu.DDS.internalFormat gpu.DDS.loadInfoDXT5 false)).size =
      (gpu.DDS.mipSubresource 256 128 2
        (gpu.DDS.internalFormat gpu.DDS.loadInfoDXT5 false)).SlicePitch :=
  (loadTexture_compressed_layout gpu.DDS.loadInfoDXT5 false 256 128 2 (by decide) (by decide)
    (by decide)).2.1

/-- C20 (behaviour of the code): for an ATI1 image loaded with the SRGB flag
the format handed to `sizeDXTC` is `loadInfoATI1.srgb_format`, that is
`DXGI_FORMAT_UNKNOWN`, which `sizeDXTC` counts as 16 bytes a block: for a
4 x 4 image the row pitch at mip 0 is 16, while `((w+3)/4) * blockBytes` of
the selected table entry is 8. -/
theorem loadTexture_ati1_srgb_row_pitch :
    (gpu.DDS.mipSubresource 4 4 0 (gpu.DDS.internalFormat gpu.DDS.loadInfoATI1 true)).RowPitch
      = 16 ∧
    ((max 1 (4 / 2 ^ 0) + 3) / 4) * gpu.DDS.loadInfoATI1.blockBytes = 8 ∧
    gpu.DDS.loadInfoATI1 ∈ gpu.DDS.compressedLoadInfos := by
  refine ⟨rfl, rfl, by decide⟩

/-! ## Pipeline state objects -/

theorem pipelineMap_find_insert (m : gpu.PipelineMap) (hash pso : Nat) :
    (m.insert hash pso).find hash = some pso := by
  simp [gpu.PipelineMap.insert, gpu.PipelineMap.find, List.find?]

theorem pipelineDesc_congr (k : gpu.StateEnums) (d d2 : gpu.D3D) (pt : Nat)
    (hstate : d2.current_state = d.current_state)
    (hprog : d2.current_program = d.current_program)
    (hp : d2.program_at d.current_program = d.program_at d.current_program)
    (hcount : d2.current_framebuffer.count = d.current_framebuffer.count)
    (hfmt : d2.current_framebuffer.formats.take d.current_framebuffer.count =
      d.current_framebuffer.formats.take d.current_framebuffer.count)
    (hds : d2.current_framebuffer.ds_format = d.current_framebuffer.ds_format) :
    gpu.pipelineDesc k d2 pt = gpu.pipelineDesc k d pt := by
  unfold gpu.pipelineDesc
  simp only [hstate, hprog, hp, hcount, hfmt, hds]

/-- C14 (amended): if `getPipelineState` is called with some state word,
program, framebuffer formats, count, depth-stencil format and topology type
and returns, then a second call with the same inputs on the cache the first
call left returns the object the first call returned and changes nothing: it
makes no `CreateGraphicsPipelineState` call. The first call creates exactly
one pipeline object when the cache held nothing under the key, and none when
it did; so the two calls make one creation or none. -/
theorem getPipelineState_cache_hit (k : gpu.StateEnums)
    (crc32 : gpu.D3D12_GRAPHICS_PIPELINE_STATE_DESC → Nat) (continueCrc32 : Nat → Nat → Nat)
    (d d2 : gpu.D3D) (pt pso1 pso2 : Nat) (r : Nat × gpu.D3D)
    (h1 : gpu.getPipelineState k crc32 continueCrc32 d pt pso1 = some r)
    (hstate : d2.current_state = d.current_state)
    (hprog : d2.current_program = d.current_program)
    (hp : d2.program_at d.current_program = d.program_at d.current_program)
    (hcount : d2.current_framebuffer.count = d.current_framebuffer.count)
    (hfmt : d2.current_framebuffer.formats.take d.current_framebuffer.count =
      d.current_framebuffer.formats.take d.current_framebuffer.count)
    (hds : d2.current_framebuffer.ds_format = d.current_framebuffer.ds_format)
    (hpipe : d2.pipelines = r.2.pipelines) :
    gpu.getPipelineState k crc32 continueCrc32 d2 pt pso2 = some (r.1, d2) ∧
    ∃ desc, gpu.pipelineDesc k d pt = some desc ∧
      (d.pipelines.find (continueCrc32 (crc32 desc) d.current_program) = none →
        r.1 = pso1 ∧ r.2.calls = d.calls ++ [gpu.Call.createGraphicsPipelineState pso1]) ∧
      (∀ found, d.pipelines.find (continueCrc32 (crc32 desc) d.current_program) = some found →
        r.1 = found ∧ r.2.calls = d.calls) := by
  have hd := pipelineDesc_congr k d d2 pt hstate hprog hp hcount hfmt hds
  cases hdesc : gpu.pipelineDesc k d pt with
  | none =>
    unfold gpu.getPipelineState at h1
    rw [hdesc] at h1
    cases h1
  | some desc =>
    have hd2 : gpu.pipelineDesc k d2 pt = some desc := by rw [hd, hdesc]
    cases hf : d.pipelines.find (continueCrc32 (crc32 desc) d.current_program) with
    | some found =>
      have hr : r = (found, d) := by
        unfold gpu.getPipelineState at h1
        rw [hdesc] at h1
        simp only [hf, Option.some.injEq] at h1
        exact h1.symm
      subst hr
      refine ⟨?_, desc, rfl, ?_, ?_⟩
      · unfold gpu.getPipelineState
        rw [hd2]
        simp only [hprog, hpipe, hf]
      · intro hn
        rw [hf] at hn
        cases hn
      · intro v hv
        rw [hf] at hv
        cases hv
        exact ⟨rfl, rfl⟩
    | none =>
      have hr : r = (pso1, { d with
          pipelines := d.pipelines.insert (continueCrc32 (crc32 desc) d.current_program) pso1
          calls := d.calls ++ [gpu.Call.createGraphicsPipelineState pso1] }) := by
        unfold gpu.getPipelineState at h1
        rw [hdesc] at h1
        simp only [hf, Option.some.injEq] at h1
        exact h1.symm
      subst hr
      refine ⟨?_, desc, rfl, fun _ => ⟨rfl, rfl⟩, ?_⟩
      · unfold gpu.getPipelineState
        rw [hd2]
        simp only [hprog, hpipe, pipelineMap_find_insert]
      · intro v hv
        rw [hf] at hv
        cases hv

/-- Witness of `getPipelineState_cache_hit`: two calls from the small context
(empty cache), the second on the context the first one left. -/
theorem getPipelineState_cache_hit_witness :
    gpu.getPipelineState gpu.sampleEnums gpu.sampleDescHash gpu.sampleContinue
      gpu.smallContext 0 500 = some (500, gpu.afterFirstCall) ∧
    gpu.getPipelineState gpu.sampleEnums gpu.sampleDescHash gpu.sampleContinue
      gpu.afterFirstCall 0 501 = some (500, gpu.afterFirstCall) :=
  ⟨rfl,
    (getPipelineState_cache_hit gpu.sampleEnums gpu.sampleDescHash gpu.sampleContinue
      gpu.smallContext gpu.afterFirstCall 0 500 501 (500, gpu.afterFirstCall)
      rfl rfl rfl rfl rfl rfl rfl rfl).1⟩

/-- C14 (counterexample): with the key already in the cache, two calls of
`getPipelineState` with the same inputs both return the cached object (77)
and no pipeline object is created over the two calls. -/
theorem getPipelineState_warm_cache_no_creation :
    gpu.getPipelineStateTwice gpu.sampleEnums gpu.sampleDescHash gpu.sampleContinue
      gpu.warmContext 0 500 501 = some (77, 77, []) := by
  rfl

theorem to_dx_some {n : Nat} (h : n < 14) : ∃ f, gpu.to_dx n = some f ∧
    gpu.blendFactorTable[n]? = some f := by
  have hl : n < gpu.blendFactorTable.length := h
  unfold gpu.to_dx
  rw [if_pos hl]
  exact ⟨gpu.blendFactorTable[n], List.getElem?_eq_getElem hl, List.getElem?_eq_getElem hl⟩

theorem to_dx_none {n : Nat} (h : ¬ n < 14) : gpu.to_dx n = none := by
  have hl : ¬ n < gpu.blendFactorTable.length := h
  unfold gpu.to_dx
  rw [if_neg hl]

theorem to_dx_table {n : Nat} {f : gpu.D3D12_BLEND} (h : gpu.to_dx n = some f) :
    n < 14 ∧ gpu.blendFactorTable[n]? = some f := by
  by_cases hn : n < 14
  · obtain ⟨g, hg, ht⟩ := to_dx_some hn
    rw [hg] at h
    cases h
    exact ⟨hn, ht⟩
  · rw [to_dx_none hn] at h
    cases h

theorem pipelineDesc_parts {k : gpu.StateEnums} {d : gpu.D3D} {pt : Nat}
    {desc : gpu.D3D12_GRAPHICS_PIPELINE_STATE_DESC} (h : gpu.pipelineDesc k d pt = some desc) :
    gpu.depthStencilState k d.current_state = some desc.DepthStencilState ∧
      gpu.blendState d.current_state = some desc.RenderTarget := by
  unfold gpu.pipelineDesc at h
  cases hds : gpu.depthStencilState k d.current_state with
  | none => simp [hds] at h
  | some ds =>
    cases hb : gpu.blendState d.current_state with
    | none => simp [hds, hb] at h
    | some blend =>
      simp only [hds, hb, Option.some.injEq] at h
      subst h
      exact ⟨rfl, rfl⟩

theorem pipelineDesc_isSome {k : gpu.StateEnums} {d : gpu.D3D} (pt : Nat)
    {ds : gpu.D3D12_DEPTH_STENCIL_DESC} {blend : List gpu.D3D12_RENDER_TARGET_BLEND_DESC}
    (hds : gpu.depthStencilState k d.current_state = some ds)
    (hb : gpu.blendState d.current_state = some blend) :
    ∃ desc, gpu.pipelineDesc k d pt = some desc ∧ desc.DepthStencilState = ds ∧
      desc.RenderTarget = blend := by
  unfold gpu.pipelineDesc
  simp only [hds, hb]
  exact ⟨_, rfl, rfl, rfl⟩

theorem to_dx_isSome (n : Nat) : (gpu.to_dx n).isSome = true ↔ n < 14 := by
  by_cases hn : n < 14
  · obtain ⟨f, hf, _⟩ := to_dx_some hn
    simp [hf, hn]
  · simp [to_dx_none hn, hn]

theorem blend_match_isSome (o0 o1 o2 o3 : Option gpu.D3D12_BLEND) :
    (match o0, o1, o2, o3 with
      | some src_rgb, some dst_rgb, some src_a, some dst_a =>
        some (List.replicate 8
          ({ BlendEnable := true, SrcBlend := src_rgb, DestBlend := dst_rgb,
             SrcBlendAlpha := src_a, DestBlendAlpha := dst_a } :
            gpu.D3D12_RENDER_TARGET_BLEND_DESC))
      | _, _, _, _ => none).isSome = true ↔
    (o0.isSome = true ∧ o1.isSome = true ∧ o2.isSome = true ∧ o3.isSome = true) := by
  cases o0 <;> cases o1 <;> cases o2 <;> cases o3 <;> simp

theorem blend_match_some (o0 o1 o2 o3 : Option gpu.D3D12_BLEND)
    (rts : List gpu.D3D12_RENDER_TARGET_BLEND_DESC)
    (h : (match o0, o1, o2, o3 with
      | some src_rgb, some dst_rgb, some src_a, some dst_a =>
        some (List.replicate 8
          ({ BlendEnable := true, SrcBlend := src_rgb, DestBlend := dst_rgb,
             SrcBlendAlpha := src_a, DestBlendAlpha := dst_a } :
            gpu.D3D12_RENDER_TARGET_BLEND_DESC))
      | _, _, _, _ => none) = some rts) :
    ∃ a b c e, o0 = some a ∧ o1 = some b ∧ o2 = some c ∧ o3 = some e ∧
      rts = List.replicate 8 { BlendEnable := true, SrcBlend := a, DestBlend := b,
                               SrcBlendAlpha := c, DestBlendAlpha := e } := by
  cases o0 <;> cases o1 <;> cases o2 <;> cases o3 <;>
    first
    | (cases h; exact ⟨_, _, _, _, rfl, rfl, rfl, rfl, rfl⟩)
    | cases h

/-- C15 (amended): for every state word, with `b` its bits 6..21: when `b` is
zero the eight render targets get `BlendEnable = false`; when `b` is not zero
the blend part is built iff each of the four nibbles of `b` is below 14 (a
nibble of 14 or 15 fails the `ASSERT` of the table lookup); whenever it is
built, all eight render targets have `BlendEnable = (b != 0)` and, for `b`
not zero, `SrcBlend`, `DestBlend`, `SrcBlendAlpha`, `DestBlendAlpha` are the
entries of the 14-entry factor table at the nibbles 0-3, 4-7, 8-11, 12-15 of
`b`; and the render-target part of every description `getPipelineState`
builds is this blend part. -/
theorem blendState_from_bits (state : Nat) :
    (gpu.blendBits state = 0 →
      gpu.blendState state = some (List.replicate 8
        { BlendEnable := false, SrcBlend := gpu.D3D12_BLEND.SRC_ALPHA,
          DestBlend := gpu.D3D12_BLEND.INV_SRC_ALPHA,
          SrcBlendAlpha := gpu.D3D12_BLEND.SRC_ALPHA,
          DestBlendAlpha := gpu.D3D12_BLEND.INV_SRC_ALPHA })) ∧
    (gpu.blendBits state ≠ 0 →
      ((gpu.blendState state).isSome ↔
        (gpu.blendBits state % 16 < 14 ∧ gpu.blendBits state / 2 ^ 4 % 16 < 14 ∧
         gpu.blendBits state / 2 ^ 8 % 16 < 14 ∧ gpu.blendBits state / 2 ^ 12 % 16 < 14))) ∧
    (∀ rts, gpu.blendState state = some rts →
      rts.length = 8 ∧ ∀ rt ∈ rts,
        rt.BlendEnable = decide (gpu.blendBits state ≠ 0) ∧
        (gpu.blendBits state ≠ 0 →
          gpu.blendFactorTable[gpu.blendBits state % 16]? = some rt.SrcBlend ∧
          gpu.blendFactorTable[gpu.blendBits state / 2 ^ 4 % 16]? = some rt.DestBlend ∧
          gpu.blendFactorTable[gpu.blendBits state / 2 ^ 8 % 16]? = some rt.SrcBlendAlpha ∧
          gpu.blendFactorTable[gpu.blendBits state / 2 ^ 12 % 16]? = some rt.DestBlendAlpha)) ∧
    (∀ (k : gpu.StateEnums) (d : gpu.D3D) (pt : Nat) desc, d.current_state = state →
      gpu.pipelineDesc k d pt = some desc → gpu.blendState state = some desc.RenderTarget) := by
  refine ⟨?_, ?_, ?_, ?_⟩
  · intro h0
    unfold gpu.blendState
    simp only [h0, ne_eq, not_true_eq_false, if_false]
  · intro hne
    unfold gpu.blendState
    simp only [if_pos hne]
    refine (blend_match_isSome _ _ _ _).trans ?_
    rw [to_dx_isSome, to_dx_isSome, to_dx_isSome, to_dx_isSome]
  · intro rts hr
    unfold gpu.blendState at hr
    by_cases hne : gpu.blendBits state ≠ 0
    · simp only [if_pos hne] at hr
      obtain ⟨a, b, c, e, h0, h1, h2, h3, hr⟩ := blend_match_some _ _ _ _ _ hr
      subst hr
      refine ⟨List.length_replicate _ _, fun rt hrt => ?_⟩
      have := List.eq_of_mem_replicate hrt
      subst this
      refine ⟨by simp [hne], fun _ => ⟨(to_dx_table h0).2, (to_dx_table h1).2,
        (to_dx_table h2).2, (to_dx_table h3).2⟩⟩
    · simp only [if_neg hne, Option.some.injEq] at hr
      subst hr
      refine ⟨List.length_replicate _ _, fun rt hrt => ?_⟩
      have := List.eq_of_mem_replicate hrt
      subst this
      exact ⟨by simp [hne], fun h => absurd h hne⟩
  · intro k d pt desc hst hd
    rw [← hst]
    exact (pipelineDesc_parts hd).2

/-- C15 (counterexample): the state word `15 << 6` has blend bits 15, whose
source-colour nibble 15 is past the 14-entry factor table: the `ASSERT` of
`to_dx` fails and no pipeline description is built. -/
theorem blendState_nibble_past_table :
    gpu.blendBits (15 * 2 ^ 6) = 15 ∧ gpu.blendFactorTable.length = 14 ∧
    gpu.blendFactorTable[15]? = none ∧ gpu.to_dx 15 = none ∧
    gpu.blendState (15 * 2 ^ 6) = none ∧
    gpu.pipelineDesc gpu.sampleEnums { gpu.smallContext with current_state := 15 * 2 ^ 6 } 0
      = none := by
  refine ⟨rfl, rfl, rfl, rfl, rfl, rfl⟩

/-- C16: for every state word, every depth-stencil description that is built
has `DepthFunc = ALWAYS` when the `DEPTH_TEST` flag is clear and
`GREATER_EQUAL` when it is set; when the stencil function field (bits 30..33)
is `DISABLE` the description is built, with `StencilEnable = false`, both
stencil masks zero and the operations and functions of both faces at their
zero defaults, whatever the other bits are; the depth-stencil part of every
description `getPipelineState` builds is this one, and with the stencil
function `DISABLE` the whole description is built whenever the blend part
is. -/
theorem depthStencilState_from_state (k : gpu.StateEnums) (state : Nat) :
    (∀ ds, gpu.depthStencilState k state = some ds →
      ds.DepthFunc = some (if state &&& k.DEPTH_TEST ≠ 0
        then gpu.D3D12_COMPARISON_FUNC.GREATER_EQUAL else gpu.D3D12_COMPARISON_FUNC.ALWAYS)) ∧
    (gpu.stencilFuncField state = k.STENCIL_DISABLE →
      ∃ ds, gpu.depthStencilState k state = some ds ∧ ds.StencilEnable = false ∧
        ds.StencilReadMask = 0 ∧ ds.StencilWriteMask = 0 ∧
        ds.FrontFace = { StencilFailOp := none, StencilDepthFailOp := none,
                         StencilPassOp := none, StencilFunc := none } ∧
        ds.BackFace = { StencilFailOp := none, StencilDepthFailOp := none,
                        StencilPassOp := none, StencilFunc := none } ∧
        ∀ (d : gpu.D3D) (pt : Nat) blend, d.current_state = state →
          gpu.blendState state = some blend →
          ∃ desc, gpu.pipelineDesc k d pt = some desc ∧ desc.DepthStencilState = ds) ∧
    (∀ (d : gpu.D3D) (pt : Nat) desc, d.current_state = state →
      gpu.pipelineDesc k d pt = some desc →
      gpu.depthStencilState k state = some desc.DepthStencilState) := by
  refine ⟨?_, ?_, ?_⟩
  · intro ds h
    unfold gpu.depthStencilState at h
    by_cases hdt : state &&& k.DEPTH_TEST ≠ 0
    · by_cases hf : gpu.stencilFuncField state ≠ k.STENCIL_DISABLE
      · simp only [if_pos hf] at h
        split at h
        · simp only [Option.some.injEq] at h
          subst h
          simp [hdt]
        · cases h
      · simp only [if_neg hf, Option.some.injEq] at h
        subst h
        simp [hdt]
    · by_cases hf : gpu.stencilFuncField state ≠ k.STENCIL_DISABLE
      · simp only [if_pos hf] at h
        split at h
        · simp only [Option.some.injEq] at h
          subst h
          simp [hdt]
        · cases h
      · simp only [if_neg hf, Option.some.injEq] at h
        subst h
        simp [hdt]
  · intro hdis
    have hf : ¬ gpu.stencilFuncField state ≠ k.STENCIL_DISABLE := fun h => h hdis
    have hex : ∃ ds, gpu.depthStencilState k state = some ds ∧ ds.StencilEnable = false ∧
        ds.StencilReadMask = 0 ∧ ds.StencilWriteMask = 0 ∧
        ds.FrontFace = { StencilFailOp := none, StencilDepthFailOp := none,
                         StencilPassOp := none, StencilFunc := none } ∧
        ds.BackFace = { StencilFailOp := none, StencilDepthFailOp := none,
                        StencilPassOp := none, StencilFunc := none } := by
      unfold gpu.depthStencilState
      simp only [if_neg hf]
      exact ⟨_, rfl, by simp [hdis], rfl, rfl, rfl, rfl⟩
    obtain ⟨ds, hds, h1, h2, h3, h4, h5⟩ := hex
    refine ⟨ds, hds, h1, h2, h3, h4, h5, ?_⟩
    intro d pt blend hst hb
    rw [← hst] at hb hds
    obtain ⟨desc, e, hd1, _⟩ := pipelineDesc_isSome pt hds hb
    exact ⟨desc, e, hd1⟩
  · intro d pt desc hst hd
    rw [← hst]
    exact (pipelineDesc_parts hd).1

/-! ## Framebuffer attachments and texture creation: behaviour at sample inputs -/

set_option maxRecDepth 100000 in
/-- C18 (behaviour of the code): binding the depth texture of the sample
context (resource 700) with `READONLY_DEPTH_STENCIL` records the barrier to
`DEPTH_READ`, and without the flag the barrier to `DEPTH_WRITE`, as claimed;
but in both cases the depth-stencil view is created with `Flags = 0`
(`D3D12_DSV_FLAG_NONE`): `allocDSV` never sets a read-only flag, for any
texture. -/
theorem setFramebuffer_readonly_view_not_flagged :
    (gpu.boundFramebuffer true).map (fun d => d.calls.drop 9) =
      some [gpu.Call.barrier 700 gpu.D3D12_RESOURCE_STATE_GENERIC_READ
              gpu.D3D12_RESOURCE_STATE_DEPTH_READ,
            gpu.Call.createDepthStencilView 700 gpu.DXGI_FORMAT_D32_FLOAT
              gpu.D3D12_DSV_FLAG_NONE 0x40000,
            gpu.Call.omSetRenderTargets 1 true] ∧
    (gpu.boundFramebuffer false).map (fun d => d.calls.drop 9) =
      some [gpu.Call.barrier 700 gpu.D3D12_RESOURCE_STATE_GENERIC_READ
              gpu.D3D12_RESOURCE_STATE_DEPTH_WRITE,
            gpu.Call.createDepthStencilView 700 gpu.DXGI_FORMAT_D32_FLOAT
              gpu.D3D12_DSV_FLAG_NONE 0x40000,
            gpu.Call.omSetRenderTargets 1 true] ∧
    gpu.D3D12_DSV_FLAG_NONE ≠ gpu.D3D12_DSV_FLAG_READ_ONLY_DEPTH ∧
    ∀ t : gpu.Texture, (gpu.allocDSV_desc t).Flags = gpu.D3D12_DSV_FLAG_NONE := by
  refine ⟨by rfl, by rfl, by decide, fun _ => rfl⟩

set_option maxRecDepth 100000 in
/-- C27 (behaviour of the code): in the sample context, after
`setFramebuffer` has attached texture 1 and `destroy` has freed its slot,
the next `setFramebuffer` still finds handle 1 in
`current_framebuffer.attachments`, reads the freed slot (stored state 0
after `t = {}`, first word overwritten by the free-list link 2) and records
a barrier for it: `barrier 2 0 GENERIC_READ`. -/
theorem setFramebuffer_reads_freed_slot :
    gpu.destroyedAttachment.map (fun d => d.calls.drop 7) =
      some [gpu.Call.barrier 701 gpu.D3D12_RESOURCE_STATE_GENERIC_READ
              gpu.D3D12_RESOURCE_STATE_RENDER_TARGET,
            gpu.Call.createRenderTargetView 701 0x20000,
            gpu.Call.omSetRenderTargets 1 false,
            gpu.Call.barrier 2 0 gpu.D3D12_RESOURCE_STATE_GENERIC_READ,
            gpu.Call.createRenderTargetView 900 0x20020,
            gpu.Call.omSetRenderTargets 1 false] := by
  rfl

set_option maxRecDepth 100000 in
/-- C21 (behaviour of the code): on handle 1 of the sample context, a header
with a wrong `dwSize` makes `loadTexture` log and return false, and an
unknown four-character code (`DXT2`) makes it return false when `ASSERT` is
compiled out, in both cases without a driver call and without a change to
the texture slot; but for a DX10 extension header with a DXGI format outside
the list (BC7_UNORM, 98) `getDXT10LoadInfo` returns `nullptr`, which
`loadTexture` dereferences: it does not return false, with `ASSERT` compiled
in or not. -/
theorem loadTexture_dx10_unlisted_format :
    gpu.loadSample false { gpu.sampleHeader gpu.DDS.D3DFMT_DXT1 with dwSize := 100 } {} =
      some (false, [gpu.Call.logError "Wrong dds format or corrupted dds"],
        { resource := 701, state := gpu.D3D12_RESOURCE_STATE_GENERIC_READ, heap_id := 4094,
          dxgi_format := gpu.DXGI_FORMAT_R8G8B8A8_UNORM, flags := 0 }) ∧
    gpu.loadSample false (gpu.sampleHeader 0x32545844) {} =
      some (false, [],
        { resource := 701, state := gpu.D3D12_RESOURCE_STATE_GENERIC_READ, heap_id := 4094,
          dxgi_format := gpu.DXGI_FORMAT_R8G8B8A8_UNORM, flags := 0 }) ∧
    gpu.DDS.malformed (gpu.sampleHeader gpu.DDS.D3DFMT_DX10) = false ∧
    gpu.DDS.select (gpu.sampleHeader gpu.DDS.D3DFMT_DX10) { dxgi_format := 98, array_size := 1 } =
      gpu.DDS.Selected.nullInfo 1 ∧
    gpu.loadSample false (gpu.sampleHeader gpu.DDS.D3DFMT_DX10)
      { dxgi_format := 98, array_size := 1 } = none ∧
    gpu.loadSample true (gpu.sampleHeader gpu.DDS.D3DFMT_DX10)
      { dxgi_format := 98, array_size := 1 } = none := by
  refine ⟨by rfl, by rfl, by rfl, by rfl, by rfl, by rfl⟩

set_option maxRecDepth 100000 in
/-- C29 (behaviour of the code): `createTexture` of a 4 x 4 `RGBA8` texture
with data and without mips fills one subresource descriptor with
`RowPitch = 4 * 4 = 16`, but its `SlicePitch` is 4 times what the
uninitialised `_alloca` block held in that field (0 when the block held 0,
28 when it held 7), not `4 * RowPitch = 64`. -/
theorem createTexture_slice_pitch_reads_uninitialised :
    gpu.twoTextures.bind (fun d =>
      (gpu.createTexture d 1 4 4 1 gpu.TextureFormat.RGBA8 0 true false true (fun _ => 0)
        703 803).map (fun r => r.2)) = some [{ RowPitch := 16, SlicePitch := 0 }] ∧
    gpu.twoTextures.bind (fun d =>
      (gpu.createTexture d 1 4 4 1 gpu.TextureFormat.RGBA8 0 true false true (fun _ => 7)
        703 803).map (fun r => r.2)) = some [{ RowPitch := 16, SlicePitch := 28 }] ∧
    ∀ (w h bytes_per_pixel mip_count layers : Nat) (uninit : Nat → Nat),
      (gpu.createTexture_srd w h bytes_per_pixel mip_count layers uninit).map
          (fun s => s.SlicePitch) =
        (List.range (layers * mip_count)).map
          (fun idx => u64 (gpu.mipExtent h (idx % mip_count) * uninit idx)) := by
  refine ⟨by rfl, by rfl, ?_⟩
  intro w h bytes_per_pixel mip_count layers uninit
  simp [gpu.createTexture_srd]

/-! ## Chained barriers -/

/-- In the command-list back-end `map; unmap; map` succeeds on every buffer
that is not mapped, whatever non-null addresses the driver maps it at:
`unmap` releases the native mapping and clears `mapped_ptr`. -/
theorem gpu_map_unmap_map (d : gpu.D3D) (handle ptr1 ptr2 : Nat)
    (hb : (d.buffer_at handle).mapped_ptr = 0) (h1 : ptr1 ≠ 0) (h2 : ptr2 ≠ 0) :
    ∃ d3, gpu.mapUnmapMap d handle ptr1 ptr2 = some (ptr1, ptr2, d3) ∧
      (d3.buffer_at handle).mapped_ptr = ptr2 ∧
      d3.calls = d.calls ++ [gpu.Call.map (d.buffer_at handle).buffer,
        gpu.Call.unmap (d.buffer_at handle).buffer, gpu.Call.map (d.buffer_at handle).buffer] := by
  unfold gpu.mapUnmapMap
  have e1 : gpu.map d handle ptr1 = some (ptr1,
      { d with
        buffer_at := Function.update d.buffer_at handle
          { (d.buffer_at handle) with mapped_ptr := ptr1 }
        calls := d.calls ++ [gpu.Call.map (d.buffer_at handle).buffer] }) := by
    unfold gpu.map
    simp only [hb, ne_eq, not_true_eq_false, if_false, h1]
  rw [e1]
  simp only [gpu.unmap, gpu.map, Function.update_same, h1, h2, ne_eq, not_true_eq_false,
    if_false, Function.update_idem]
  refine ⟨_, rfl, ?_, ?_⟩
  · simp only [Function.update_same]
  · simp only [List.append_assoc]
    rfl

/-- C22 (behaviour of the code): in the immediate-mode back-end, on a buffer
that is not mapped, `map` without the `PERSISTENT` flag maps the native
buffer and stores the pointer; `unmap` then does nothing, because it acts
only when the buffer is persistently mapped: the pointer is not cleared and
no native `Unmap` is made; the second `map` fails
`ASSERT(!buffer.mapped_ptr)`. With the `PERSISTENT` flag the sequence goes
through. -/
theorem ffr_map_unmap_map_fails :
    ffr.map { buffer := 50 } 0 false 0x9000 =
      some (0x9000, { buffer := 50, mapped_ptr := 0x9000 }, [ffr.Call.map 50]) ∧
    ffr.unmap { buffer := 50, mapped_ptr := 0x9000 } =
      ({ buffer := 50, mapped_ptr := 0x9000 }, []) ∧
    ffr.map { buffer := 50, mapped_ptr := 0x9000 } 0 false 0x9000 = none ∧
    ffr.mapUnmapMap { buffer := 50 } 0 false 0x9000 0x9000 = none ∧
    ffr.mapUnmapMap { buffer := 50, persistent := 0x7000 } 0 true 0x9000 0x9000 =
      some ({ buffer := 50, persistent := 0x7000, mapped_ptr := 0x7000,
              is_persistently_mapped := true }, [ffr.Call.unmap 50]) := by
  refine ⟨by rfl, by rfl, by rfl, by rfl, by rfl⟩

/-- In the immediate-mode back-end `map; unmap; map` without the
`PERSISTENT` flag fails for every unmapped buffer and every non-null address
the first `map` stores. -/
theorem ffr_map_unmap_map_non_persistent (b : ffr.Buffer) (offset pData1 pData2 : Nat)
    (hb : b.mapped_ptr = 0) (hp : u64 (pData1 + offset) ≠ 0) :
    ffr.mapUnmapMap b offset false pData1 pData2 = none := by
  unfold ffr.mapUnmapMap
  have e1 : ffr.map b offset false pData1 = some (u64 (pData1 + offset),
      { b with is_persistently_mapped := false, mapped_ptr := u64 (pData1 + offset) },
      [ffr.Call.map b.buffer]) := by
    unfold ffr.map
    simp [hb]
  rw [e1]
  simp only [ffr.unmap, ffr.map, Bool.false_eq_true, if_false]
  simp [hp]

/-! ## Initialisation -/

/-- C23 (behaviour of the code): `init` tests `d3d.initialized` and never
sets it. The flag is unchanged by `init`, so after `preinit` a first `init`
returns true and a second one returns true again; in every context with the
flag clear `init` runs its body on the heaps the context holds: it writes
the heap start reported by the device into the SRV heap and pushes the 4096
backing ids onto the free list once more. After the second `init` the
context is altered: the free list of the SRV heap holds every id twice. -/
theorem init_not_one_time (env : gpu.DeviceEnv) :
    (∀ d : gpu.D3D, (gpu.init env d).2.initialized = d.initialized) ∧
    (gpu.init env gpu.preinit).1 = true ∧
    (gpu.init env (gpu.init env gpu.preinit).2).1 = true ∧
    (∀ d : gpu.D3D, d.initialized = false →
      (gpu.init env d).1 = true ∧
      (gpu.init env d).2.srv_heap.free_list = d.srv_heap.free_list ++ List.range 4096 ∧
      (gpu.init env d).2.srv_heap.count = d.srv_heap.count ∧
      (gpu.init env d).2.srv_heap.gpu_begin = env.srv.gpu_start ∧
      (gpu.init env d).2.srv_heap.backing_begin = env.srv.backing_start ∧
      (gpu.init env d).2.sampler_heap.sampler_map = d.sampler_heap.sampler_map ∧
      (gpu.init env d).2.sampler_heap.gpu = env.sampler.gpu_start) ∧
    (gpu.init env gpu.preinit).2.srv_heap.free_list = List.range 4096 ∧
    (gpu.init env (gpu.init env gpu.preinit).2).2.srv_heap.free_list =
      List.range 4096 ++ List.range 4096 ∧
    (gpu.init env (gpu.init env gpu.preinit).2).2.srv_heap.free_list.length = 8192 := by
  have hflag : ∀ d : gpu.D3D, (gpu.init env d).2.initialized = d.initialized := by
    intro d
    unfold gpu.init
    by_cases h : d.initialized = true
    · rw [if_pos h]
    · rw [if_neg h]
  have hbody : ∀ d : gpu.D3D, d.initialized = false →
      (gpu.init env d).1 = true ∧
      (gpu.init env d).2.srv_heap.free_list = d.srv_heap.free_list ++ List.range 4096 ∧
      (gpu.init env d).2.srv_heap.count = d.srv_heap.count ∧
      (gpu.init env d).2.srv_heap.gpu_begin = env.srv.gpu_start ∧
      (gpu.init env d).2.srv_heap.backing_begin = env.srv.backing_start ∧
      (gpu.init env d).2.sampler_heap.sampler_map = d.sampler_heap.sampler_map ∧
      (gpu.init env d).2.sampler_heap.gpu = env.sampler.gpu_start := by
    intro d h
    unfold gpu.init
    rw [if_neg (by rw [h]; decide)]
    exact ⟨rfl, rfl, rfl, rfl, rfl, rfl, rfl⟩
  have h0 : gpu.preinit.initialized = false := rfl
  have h1 : (gpu.init env gpu.preinit).2.initialized = false := by rw [hflag]; rfl
  have e1 : (gpu.init env gpu.preinit).2.srv_heap.free_list = List.range 4096 := by
    rw [(hbody _ h0).2.1]
    exact List.nil_append _
  have e2 : (gpu.init env (gpu.init env gpu.preinit).2).2.srv_heap.free_list =
      List.range 4096 ++ List.range 4096 := by
    rw [(hbody _ h1).2.1, e1]
  refine ⟨hflag, (hbody _ h0).1, (hbody _ h1).1, hbody, e1, e2, ?_⟩
  rw [e2, List.length_append, List.length_range]

/-! ## Vertex declarations -/

theorem take_set_self {α : Type} : ∀ (l : List α) (n : Nat) (a : α),
    (l.set n a).take n = l.take n := by
  intro l
  induction l with
  | nil => intro n a; simp
  | cons x rest ih =>
    intro n a
    cases n with
    | zero => simp
    | succ m => simp [ih m a]

/-- C24 (behaviour of the code): `VertexDecl::addAttribute` computes the hash
before it increments `attributes_count`, over `attributes[0 ..
attributes_count)` with the old count: after a successful call the hash is
the CRC32 of the attributes held before the call and does not depend on the
attribute just added. On the empty declaration, adding an attribute with
index 0 or one with index 5 both leave `hash = crc32([])`, while the CRC32
of the array held after the call differs. A call on a full declaration
returns it unchanged when `ASSERT` is compiled out. -/
theorem addAttribute_hash_excludes_new :
    (∀ (crc32 : List gpu.Attribute → Nat) (asserts : Bool) (decl : gpu.VertexDecl)
        (idx byte_offset components_num type flags : Nat),
      decl.attributes_count < decl.attributes.length →
      ∃ decl1, decl.addAttribute crc32 asserts idx byte_offset components_num type flags
          = some decl1 ∧
        decl1.hash = crc32 decl.declared ∧
        decl1.declared = decl.declared ++
          [{ idx := idx, byte_offset := byte_offset, components_count := components_num,
             type := type, flags := flags }]) ∧
    (gpu.emptyDecl.addAttribute gpu.sampleAttrHash false 0 0 3 0 0).map (fun x => x.hash) =
      some (gpu.sampleAttrHash []) ∧
    (gpu.emptyDecl.addAttribute gpu.sampleAttrHash false 5 0 3 0 0).map (fun x => x.hash) =
      some (gpu.sampleAttrHash []) ∧
    (gpu.emptyDecl.addAttribute gpu.sampleAttrHash false 0 0 3 0 0).map
        (fun x => decide (x.hash = gpu.sampleAttrHash x.declared)) = some false ∧
    (∀ (crc32 : List gpu.Attribute → Nat) (decl : gpu.VertexDecl)
        (idx byte_offset components_num type flags : Nat),
      decl.attributes.length ≤ decl.attributes_count →
      decl.addAttribute crc32 false idx byte_offset components_num type flags = some decl) := by
  refine ⟨?_, by rfl, by rfl, by rfl, ?_⟩
  · intro crc32 asserts decl idx byte_offset components_num type flags hlt
    unfold gpu.VertexDecl.addAttribute
    rw [if_neg (by omega)]
    refine ⟨_, rfl, ?_, ?_⟩
    · show crc32 ((decl.attributes.set decl.attributes_count _).take decl.attributes_count) =
        crc32 (decl.attributes.take decl.attributes_count)
      rw [take_set_self]
    · show (decl.attributes.set decl.attributes_count _).take (decl.attributes_count + 1) =
        decl.attributes.take decl.attributes_count ++ _
      rw [List.take_succ, take_set_self]
      simp [List.getElem?_set, hlt]
  · intro crc32 decl idx byte_offset components_num type flags hfull
    unfold gpu.VertexDecl.addAttribute
    rw [if_pos hfull]
    rfl

/-! ## Programs -/

/-- The string list `filter_srcs` builds when every declared attribute has a
location index below 13 and the list fits the 128 entries of `tmp`: for a
stage with a source, the stage define, the prefixes, one `_HAS_ATTR` define
per declared attribute and the sources of the stage, in this order, of
length `1 + prefixes + attributes + sources`; for a stage without source,
nothing. -/
theorem filter_srcs_layout (decl : gpu.VertexDecl) (srcs : List (String × gpu.ShaderType))
    (prefixes : List String) (type : gpu.ShaderType)
    (hidx : ∀ a ∈ decl.declared, a.idx < 13)
    (hfit : 1 + prefixes.length + decl.declared.length + (gpu.stageSources srcs type).length
      ≤ 128) :
    ∃ defines, gpu.attrDefines decl.declared = some defines ∧
      defines.length = decl.declared.length ∧
      (∀ i (h : i < decl.declared.length),
        defines[i]? = gpu.attr_defines[(decl.declared.get ⟨i, h⟩).idx]?) ∧
      gpu.filter_srcs decl srcs prefixes type =
        some (if (gpu.stageSources srcs type).length = 0 then []
          else [gpu.stageDefine type] ++ prefixes ++ defines ++ gpu.stageSources srcs type) := by
  have key : ∀ (l : List gpu.Attribute), (∀ a ∈ l, a.idx < 13) →
      ∃ defines, gpu.attrDefines l = some defines ∧ defines.length = l.length ∧
        ∀ i (h : i < l.length), defines[i]? = gpu.attr_defines[(l.get ⟨i, h⟩).idx]? := by
    intro l
    induction l with
    | nil => intro _; exact ⟨[], rfl, rfl, fun i h => absurd h (Nat.not_lt_zero _)⟩
    | cons a rest ih =>
      intro hl
      obtain ⟨ds, hds, hlen, hget⟩ := ih (fun x hx => hl x (List.mem_cons_of_mem _ hx))
      have ha : a.idx < gpu.attr_defines.length := hl a (List.mem_cons_self _ _)
      refine ⟨gpu.attr_defines[a.idx] :: ds, ?_, by simp [hlen], ?_⟩
      · simp only [gpu.attrDefines, List.getElem?_eq_getElem ha, hds]
      · intro i h
        cases i with
        | zero => simp [List.getElem?_eq_getElem ha]
        | succ j =>
          have hj : j < rest.length := by simpa using h
          simpa using hget j hj
  obtain ⟨defines, hd, hlen, hget⟩ := key decl.declared hidx
  refine ⟨defines, hd, hlen, hget, ?_⟩
  unfold gpu.filter_srcs
  rw [hd]
  simp only
  have hl : ¬ 128 < ([gpu.stageDefine type] ++ prefixes ++ defines ++
      gpu.stageSources srcs type).length := by
    simp only [List.length_append, List.length_singleton, hlen]
    omega
  rw [if_neg hl]
  by_cases hz : (gpu.stageSources srcs type).length = 0
  · rw [if_pos hz, if_pos hz]
  · rw [if_neg hz, if_neg hz]

/-- C25 (behaviour of the code): the table `attr_defines` has thirteen
entries, for the location indices 0 to 12. For a declaration whose attribute
has location index 13 the lookup `attr_defines[13]` reads past the table:
no define `_HAS_ATTR13` exists and `filter_srcs` yields no string list, for
the stage with a source and for the stages without. -/
theorem filter_srcs_attr_index_past_table :
    gpu.attr_defines.length = 13 ∧ gpu.attr_defines[13]? = none ∧
    (gpu.emptyDecl.addAttribute gpu.sampleAttrHash false 13 0 3 0 0).map
        (fun decl => (decl.declared.map (fun a => a.idx),
          gpu.filter_srcs decl [("void main();", gpu.ShaderType.VERTEX)] []
            gpu.ShaderType.VERTEX,
          gpu.filter_srcs decl [("void main();", gpu.ShaderType.VERTEX)] []
            gpu.ShaderType.FRAGMENT)) = some ([13], none, none) ∧
    (gpu.emptyDecl.addAttribute gpu.sampleAttrHash false 12 0 3 0 0).map
        (fun decl => gpu.filter_srcs decl [("void main();", gpu.ShaderType.VERTEX)]
          ["#define A\n"] gpu.ShaderType.VERTEX) =
      some (some ["#define LUMIX_VERTEX_SHADER\n", "#define A\n", "#define _HAS_ATTR12\n",
        "void main();"]) := by
  refine ⟨by rfl, by rfl, by rfl, by rfl⟩

/-- C30 (behaviour of the code): the lambda `compile` picks `vs_5_0` for
`VERTEX`, `cs_5_0` for `COMPUTE` and `ps_5_0` for every other stage, so a
`GEOMETRY` stage is compiled with the pixel-shader profile `ps_5_0`, not
`gs_5_0`: a program with a vertex and a geometry source makes two
compilations, the second one of the geometry stage with `ps_5_0`. -/
theorem createProgram_geometry_profile :
    gpu.compileProfile gpu.ShaderType.VERTEX = "vs_5_0" ∧
    gpu.compileProfile gpu.ShaderType.FRAGMENT = "ps_5_0" ∧
    gpu.compileProfile gpu.ShaderType.COMPUTE = "cs_5_0" ∧
    gpu.compileProfile gpu.ShaderType.GEOMETRY = "ps_5_0" ∧
    (gpu.createProgram gpu.emptyDecl
        [("v", gpu.ShaderType.VERTEX), ("g", gpu.ShaderType.GEOMETRY)] []
        gpu.sampleGlsl2hlsl gpu.sampleD3DCompile).map
      (fun r => (r.1, r.2.2.map (fun c => (c.type, c.profile)))) =
      some (true, [(gpu.ShaderType.VERTEX, "vs_5_0"), (gpu.ShaderType.GEOMETRY, "ps_5_0")]) := by
  refine ⟨by rfl, by rfl, by rfl, by rfl, by rfl⟩

/-! ## Shader resource tables and index buffers -/

/-- C26 (behaviour of the code): `allocSRV` copies a descriptor, and
advances the ring cursor, only for valid slots. For the two-slot set
`[empty, texture 0]` it copies one descriptor, to index 0 of the table it
returns (`cpu + 0`), and advances `count` by 1, while `allocSamplers` puts
the sampler of slot 1 at index 1 (`cpu + increment`). -/
theorem allocSRV_compacts_valid_slots :
    gpu.allocSRV (fun _ => {}) gpu.sampleTextures gpu.sampleSrvRing gpu.sampleSrvs =
      some (0x1000000, { gpu.sampleSrvRing with count := 1 }, [0x2000000]) ∧
    gpu.samplerWrites gpu.sampleTextures 32 0x2000000 gpu.sampleSrvs = [(0x2000000 + 32, 1)] ∧
    gpu.validCount gpu.sampleSrvs = 1 ∧ gpu.sampleSrvs.length = 2 := by
  refine ⟨by rfl, by rfl, by rfl, by rfl⟩

/-- C28 (behaviour of the code): the alignment `ASSERT` of `drawElements`
masks the offset with `offset_shift - 1`, that is with 0 for `U16` and with
1 for `U32`: it passes for every offset with `U16` and for every even offset
with `U32`. So it passes for `U16` with the odd offset 1 (start index 0) and
for `U32` with the offset 2, which are no multiples of the index size. When
it passes the start index is `offset_bytes >> offset_shift` and the view
covers `count * index size + offset_bytes` bytes. -/
theorem drawElements_alignment_mask :
    gpu.drawElements_ibv 1 3 gpu.DataType.U16 = some (7, 0) ∧
    gpu.drawElements_ibv 2 3 gpu.DataType.U32 = some (14, 0) ∧
    gpu.drawElements_ibv 3 3 gpu.DataType.U32 = none ∧
    (∀ offset_bytes count, (gpu.drawElements_ibv offset_bytes count gpu.DataType.U16).isSome) ∧
    (∀ offset_bytes count,
      (gpu.drawElements_ibv offset_bytes count gpu.DataType.U32).isSome ↔ offset_bytes % 2 = 0) := by
  refine ⟨by rfl, by rfl, by rfl, ?_, ?_⟩
  · intro offset_bytes count
    simp [gpu.drawElements_ibv, gpu.offsetShift]
  · intro offset_bytes count
    have hand : offset_bytes &&& 1 = offset_bytes % 2 := Nat.and_one_is_mod offset_bytes
    unfold gpu.drawElements_ibv
    simp only [gpu.offsetShift, Nat.add_one_sub_one, hand]
    by_cases h : offset_bytes % 2 = 0
    · simp [h]
    · simp [h]

end Lumix
